import Mathlib

/-!
gstreamer-imx: VPU encoder base class (`src/vpu/encoder/base_enc.c`) and the buffer
pool for VPU framebuffers (`src/vpu/fb_buffer_pool.c`)

A shallow embedding of the encoder session of `base_enc.c` and, in the namespace
`FbBufferPool`, of the buffer release and framebuffer attachment of `fb_buffer_pool.c`.

* C `int` values are `Int`, with `wrapInt32` where the C code adds or negates them;
  `guint` values are `Nat`; addresses are `Nat`, with `guintptr` arithmetic taken
  modulo `2 ^ w` for a pointer width `w`.
* Calls into the VPU wrapper library, GStreamer and the memory-block helpers are
  recorded as `Event`s, in the order the C code issues them; what those calls
  return is supplied by an environment record, one per embedded function.
* A function returns `none` when the C function does not return normally: a failed
  `g_assert`, a division by zero, an out-of-bounds array index, or a hardware
  response stream that ends before the encode loop does.
* `inst_counter_mutex`, `GST_OBJECT_LOCK` and `GST_IMX_VPU_FRAMEBUFFERS_LOCK` are not
  modelled: every embedded function runs to completion on its own.
-/

namespace GstImxVpu

/-! ## Data model -/

/-- Return code of the VPU wrapper's encoder functions (`VpuEncRetCode`); every
code other than `VPU_ENC_RET_SUCCESS` is a failure, kept with its number. -/
inductive VpuEncRetCode where
  | VPU_ENC_RET_SUCCESS
  | VPU_ENC_RET_FAILURE (code : Nat)
  deriving DecidableEq

/-- Kind of a work-memory sub-block (`VpuMemType`); `other` stands for any value
that is neither `VPU_MEM_VIRT` nor `VPU_MEM_PHY`. -/
inductive VpuMemType where
  | VPU_MEM_VIRT
  | VPU_MEM_PHY
  | other (v : Nat)
  deriving DecidableEq

/-- One entry of `VpuMemInfo.MemSubBlock` (`VpuMemSubBlockInfo`). -/
structure VpuMemSubBlockInfo where
  nAlignment : Int
  nSize : Int
  MemType : VpuMemType
  pVirtAddr : Nat
  pPhyAddr : Nat
  deriving DecidableEq

/-- The work-memory requirements `VPU_EncQueryMem` fills in (`VpuMemInfo`). -/
structure VpuMemInfo where
  nSubBlockNum : Int
  MemSubBlock : List VpuMemSubBlockInfo
  deriving DecidableEq

/-- A physically contiguous memory block (`GstImxPhysMemory`). -/
structure GstImxPhysMemory where
  mapped_virt_addr : Nat
  phys_addr : Nat
  size : Nat
  deriving DecidableEq

/-- The framebuffer set of a session (`GstImxVpuFramebuffers`), as far as
`base_enc.c` reads it. -/
structure GstImxVpuFramebuffers where
  total_size : Nat
  pic_width : Nat
  pic_height : Nat
  deriving DecidableEq

/-- The slice settings of the open parameters (`VpuEncSliceMode`). -/
structure VpuEncSliceMode where
  sliceMode : Int
  sliceSizeMode : Int
  sliceSize : Int
  deriving DecidableEq

/-- The fields of `VpuEncOpenParam` that `base_enc.c` writes. -/
structure VpuEncOpenParam where
  nPicWidth : Int
  nPicHeight : Int
  nFrameRate : Int
  sMirror : Int
  nBitRate : Int
  nGOPSize : Int
  sliceMode : VpuEncSliceMode
  nRcIntraQp : Int
  nUserGamma : Int
  nIntraRefresh : Int
  deriving DecidableEq

/-- The negotiated video geometry (`GstVideoInfo`), as far as `base_enc.c` reads it. -/
structure GstVideoInfo where
  width : Int
  height : Int
  fps_n : Int
  fps_d : Int
  size : Nat
  offset : List Nat
  stride : List Int
  deriving DecidableEq

/-- A `GstBuffer` as `base_enc.c` reads it: an identity, the physical address of its
`GstImxPhysMemMeta` if it carries one, and the plane offsets and strides of its
`GstVideoMeta` if it carries one. -/
structure GstBuffer where
  id : Nat
  phys_mem_meta : Option Nat
  video_meta : Option (List Nat × List Int)
  deriving DecidableEq

/-- The frame handed to `handle_frame` (`GstVideoCodecFrame`); `output_buffer` is
the identity of the attached output buffer, `none` for `NULL`. -/
structure GstVideoCodecFrame where
  input_buffer : GstBuffer
  output_buffer : Option Nat
  pts : Nat
  dts : Nat
  force_keyframe : Bool
  force_keyframe_headers : Bool
  sync_point : Bool
  deriving DecidableEq

/-- The input framebuffer descriptor (`VpuFrameBuffer`) built by `handle_frame`. -/
structure VpuFrameBuffer where
  pbufY : Nat
  pbufCb : Nat
  pbufCr : Nat
  pbufMvCol : Nat
  nStrideY : Int
  nStrideC : Int
  deriving DecidableEq

/-- The input fields of `VpuEncEncParam` that `handle_frame` sets. -/
structure VpuEncEncParam where
  nInVirtOutput : Nat
  nInPhyOutput : Nat
  nInOutputBufLen : Nat
  nPicWidth : Nat
  nPicHeight : Nat
  nFrameRate : Int
  pInFrame : VpuFrameBuffer
  nForceIPicture : Int
  deriving DecidableEq

/-- The output flags of one `VPU_EncEncodeFrame` call (`eOutRetCode`), one field
per flag the code tests with `&`. -/
structure VpuEncBufRetCode where
  VPU_ENC_INPUT_USED : Bool
  VPU_ENC_OUTPUT_DIS : Bool
  VPU_ENC_OUTPUT_SEQHEADER : Bool
  deriving DecidableEq

/-- Result of a GStreamer data-flow call (`GstFlowReturn`). -/
inductive GstFlowReturn where
  | GST_FLOW_OK
  | GST_FLOW_ERROR
  | other (code : Int)
  deriving DecidableEq

/-- A property value (`GValue`), holding a `guint`, a `gint` or something else. -/
inductive GValue where
  | uint (v : Nat)
  | int (v : Int)
  | other
  deriving DecidableEq

/-- The key of a `VPU_EncConfig` call. -/
inductive VpuEncConfig where
  | VPU_ENC_CONF_BIT_RATE
  | VPU_ENC_CONF_INTRA_REFRESH
  deriving DecidableEq

/-- The encoder session (`GstImxVpuBaseEnc`). -/
structure GstImxVpuBaseEnc where
  vpu_inst_opened : Bool
  handle : Nat
  mem_info : VpuMemInfo
  open_param : VpuEncOpenParam
  init_info : Nat
  output_phys_buffer : Option GstImxPhysMemory
  framebuffers : Option GstImxVpuFramebuffers
  internal_bufferpool : Option Nat
  internal_input_buffer : Option GstBuffer
  virt_enc_mem_blocks : List Nat
  phys_enc_mem_blocks : List GstImxPhysMemory
  video_info : GstVideoInfo
  gop_size : Nat
  bitrate : Nat
  slice_size : Int
  intra_refresh : Nat
  deriving DecidableEq

/-- The calls `base_enc.c` makes into the VPU wrapper, GStreamer and the
memory-block helpers, with the arguments and results the properties below speak of. -/
inductive Event where
  | VPU_EncLoad
  | VPU_EncUnLoad
  | VPU_EncGetVersionInfo
  | VPU_EncGetWrapperVersionInfo
  | VPU_EncQueryMem
  | gst_imx_vpu_alloc_virt_mem_block (size : Int)
  | gst_allocator_alloc (size : Nat)
  | gst_imx_vpu_free_virt_mem_blocks (blocks : List Nat)
  | gst_imx_vpu_free_phys_mem_blocks (blocks : List GstImxPhysMemory)
  | gst_buffer_unref (buffer : GstBuffer)
  | gst_object_unref_bufferpool (pool : Nat)
  | gst_object_unref_framebuffers (fb : GstImxVpuFramebuffers)
  | gst_allocator_free (mem : GstImxPhysMemory)
  | VPU_EncClose (handle : Nat)
  | set_open_params (ok : Bool)
  | VPU_EncOpen (ret : VpuEncRetCode)
  | VPU_EncConfig (handle : Nat) (key : VpuEncConfig) (param : Int) (ret : VpuEncRetCode)
  | VPU_EncGetInitialInfo (handle : Nat) (ret : VpuEncRetCode)
  | gst_video_encoder_set_output_state (caps : Nat)
  | gst_imx_phys_mem_buffer_pool_new
  | gst_buffer_pool_set_config (size : Nat)
  | gst_buffer_pool_set_active
  | gst_buffer_pool_acquire_buffer (ret : GstFlowReturn)
  | gst_video_frame_copy (dest : GstBuffer) (src : GstBuffer)
  | gst_imx_vpu_framebuffers_new (pic_width : Int) (pic_height : Int)
  | gst_imx_vpu_framebuffers_register_with_encoder (handle : Nat) (stride : Int) (ok : Bool)
  | set_frame_enc_params (ok : Bool)
  | VPU_EncEncodeFrame (handle : Nat) (param : VpuEncEncParam) (ret : VpuEncRetCode)
  | VPU_EncReset (handle : Nat)
  | gst_video_encoder_allocate_output_buffer (size : Nat)
  | fill_output_buffer (cur_offset : Nat) (size : Nat) (seqheader : Bool)
  | gst_buffer_fill (buffer : Option Nat) (offset : Nat) (size : Nat)
  | gst_buffer_set_size (buffer : Nat) (size : Nat)
  | gst_video_encoder_finish_frame (frame : GstVideoCodecFrame)
  | gst_buffer_unref_output (buffer : Nat)
  deriving DecidableEq

/-! ## Machine arithmetic -/

/-- A C `int` result: the value reduced to the 32-bit two's complement range. -/
def wrapInt32 (x : Int) : Int :=
  (x + 2147483648) % 4294967296 - 2147483648

/-- The macro `ALIGN_VAL_TO(LENGTH, ALIGN_SIZE)`:
`((guintptr)((LENGTH) + (ALIGN_SIZE) - 1) / (ALIGN_SIZE)) * (ALIGN_SIZE)`, for an
address `LENGTH` and an `int` `ALIGN_SIZE`, in `guintptr` arithmetic of `w` bits.
The `int` divisor is converted to `guintptr`; a zero divisor gives `none`. -/
def ALIGN_VAL_TO (w : Nat) (LENGTH : Nat) (ALIGN_SIZE : Int) : Option Nat :=
  let m : Int := 2 ^ w
  let d : Int := ALIGN_SIZE % m
  if d = 0 then none
  else some ((((((LENGTH : Int) + ALIGN_SIZE - 1) % m) / d) * d) % m).toNat

/-! ## Loading and unloading the VPU (`inst_counter`) -/

/-- What the hardware calls of `gst_imx_vpu_base_enc_load` return. -/
structure LoadEnv where
  VPU_EncLoad : VpuEncRetCode
  VPU_EncGetVersionInfo : VpuEncRetCode
  VPU_EncGetWrapperVersionInfo : VpuEncRetCode

/-- The function `gst_imx_vpu_base_enc_load`: result, new `inst_counter`, calls made. -/
def gst_imx_vpu_base_enc_load (env : LoadEnv) (inst_counter : Int) :
    Bool × Int × List Event :=
  if inst_counter = 0 then
    if env.VPU_EncLoad ≠ .VPU_ENC_RET_SUCCESS then
      (false, inst_counter, [.VPU_EncLoad])
    else if env.VPU_EncGetVersionInfo ≠ .VPU_ENC_RET_SUCCESS then
      (false, inst_counter, [.VPU_EncLoad, .VPU_EncGetVersionInfo, .VPU_EncUnLoad])
    else if env.VPU_EncGetWrapperVersionInfo ≠ .VPU_ENC_RET_SUCCESS then
      (false, inst_counter,
        [.VPU_EncLoad, .VPU_EncGetVersionInfo, .VPU_EncGetWrapperVersionInfo, .VPU_EncUnLoad])
    else
      (true, wrapInt32 (inst_counter + 1),
        [.VPU_EncLoad, .VPU_EncGetVersionInfo, .VPU_EncGetWrapperVersionInfo])
  else
    (true, wrapInt32 (inst_counter + 1), [])

/-- The function `gst_imx_vpu_base_enc_unload`: new `inst_counter`, calls made.
The return code of `VPU_EncUnLoad` is only logged. -/
def gst_imx_vpu_base_enc_unload (VPU_EncUnLoad : VpuEncRetCode) (inst_counter : Int) :
    Int × List Event :=
  if inst_counter > 0 then
    let c := wrapInt32 (inst_counter - 1)
    if c = 0 then
      match VPU_EncUnLoad with
      | .VPU_ENC_RET_SUCCESS => (c, [.VPU_EncUnLoad])
      | .VPU_ENC_RET_FAILURE _ => (c, [.VPU_EncUnLoad])
    else (c, [])
  else (inst_counter, [])

/-- One call of `gst_imx_vpu_base_enc_load` or `gst_imx_vpu_base_enc_unload`, with
what its hardware calls return. -/
inductive LoadCall where
  | load (env : LoadEnv)
  | unload (VPU_EncUnLoad : VpuEncRetCode)

/-- The call is a call of `gst_imx_vpu_base_enc_load`. -/
def LoadCall.isLoad : LoadCall → Bool
  | .load _ => true
  | .unload _ => false

/-- The hardware calls of the call all succeed. -/
def LoadCall.succeeds : LoadCall → Bool
  | .load env =>
    decide (env.VPU_EncLoad = .VPU_ENC_RET_SUCCESS) &&
      decide (env.VPU_EncGetVersionInfo = .VPU_ENC_RET_SUCCESS) &&
      decide (env.VPU_EncGetWrapperVersionInfo = .VPU_ENC_RET_SUCCESS)
  | .unload r => decide (r = .VPU_ENC_RET_SUCCESS)

/-- A call of the load/unload pair with `inst_counter` before and after it and the
hardware calls it made. -/
structure LoadStep where
  call : LoadCall
  before : Int
  after : Int
  events : List Event

/-- The call made with `inst_counter` at the given value. -/
def LoadCall.step : LoadCall → Int → LoadStep
  | .load env, k =>
    { call := .load env
      before := k
      after := (gst_imx_vpu_base_enc_load env k).2.1
      events := (gst_imx_vpu_base_enc_load env k).2.2 }
  | .unload r, k =>
    { call := .unload r
      before := k
      after := (gst_imx_vpu_base_enc_unload r k).1
      events := (gst_imx_vpu_base_enc_unload r k).2 }

/-- The steps of a sequence of load and unload calls, from the given `inst_counter`. -/
def load_steps : List LoadCall → Int → List LoadStep
  | [], _ => []
  | c :: cs, k => c.step k :: load_steps cs (c.step k).after

/-- The hardware calls made over a list of steps, in order. -/
def steps_events (sts : List LoadStep) : List Event :=
  (sts.map (fun st => st.events)).flatten

/-! ## Work-memory blocks -/

/-- Modelled from the spec: `gst_imx_vpu_append_virt_mem_block` of `mem_blocks.c`,
which is not among the sources ("each successful allocation is appended to the
kind-specific ownership list"). -/
def gst_imx_vpu_append_virt_mem_block (mem_block : Nat) (virt_mem_blocks : List Nat) :
    List Nat :=
  virt_mem_blocks ++ [mem_block]

/-- Modelled from the spec: `gst_imx_vpu_append_phys_mem_block` of `mem_blocks.c`,
which is not among the sources ("each successful allocation is appended to the
kind-specific ownership list"). -/
def gst_imx_vpu_append_phys_mem_block (memory : GstImxPhysMemory)
    (phys_mem_blocks : List GstImxPhysMemory) : List GstImxPhysMemory :=
  phys_mem_blocks ++ [memory]

/-- Modelled from the spec: `gst_imx_vpu_free_virt_mem_blocks` of `mem_blocks.c`,
which is not among the sources ("`free_all(kind)` releases every block in that list
and fails only if an underlying free fails for any member"; it attempts to free all
blocks). `free_ok` says which underlying frees succeed. Result and the list left. -/
def gst_imx_vpu_free_virt_mem_blocks (free_ok : Nat → Bool) (virt_mem_blocks : List Nat) :
    Bool × List Nat :=
  (virt_mem_blocks.all free_ok, [])

/-- Modelled from the spec: `gst_imx_vpu_free_phys_mem_blocks` of `mem_blocks.c`,
which is not among the sources ("`free_all(kind)` releases every block in that list
and fails only if an underlying free fails for any member"; it attempts to free all
blocks). `free_ok` says which underlying frees succeed. Result and the list left. -/
def gst_imx_vpu_free_phys_mem_blocks (free_ok : GstImxPhysMemory → Bool)
    (phys_mem_blocks : List GstImxPhysMemory) : Bool × List GstImxPhysMemory :=
  (phys_mem_blocks.all free_ok, [])

/-- What the allocators return to `gst_imx_vpu_base_enc_alloc_enc_mem_blocks`, per
sub-block index and requested size, and the width `w` of `guintptr` and `gsize`. -/
structure AllocEnv where
  w : Nat
  gst_imx_vpu_alloc_virt_mem_block : Nat → Int → Option Nat
  gst_allocator_alloc : Nat → Nat → Option GstImxPhysMemory

/-- The body of the `for` loop of `gst_imx_vpu_base_enc_alloc_enc_mem_blocks` for
sub-block `i`. `some (true, s, ev)`: the loop goes on with session `s`;
`some (false, s, ev)`: the function returns `FALSE`; `none`: `MemSubBlock[i]` does
not exist or `ALIGN_VAL_TO` divides by zero. -/
def alloc_enc_mem_block (env : AllocEnv) (i : Nat) (s : GstImxVpuBaseEnc) :
    Option (Bool × GstImxVpuBaseEnc × List Event) :=
  match s.mem_info.MemSubBlock[i]? with
  | none => none
  | some b =>
    let size : Int := wrapInt32 (b.nAlignment + b.nSize)
    match b.MemType with
    | .VPU_MEM_VIRT =>
      match env.gst_imx_vpu_alloc_virt_mem_block i size with
      | none => some (false, s, [.gst_imx_vpu_alloc_virt_mem_block size])
      | some ptr =>
        match ALIGN_VAL_TO env.w ptr b.nAlignment with
        | none => none
        | some addr =>
          some (true,
            { s with
              mem_info := { s.mem_info with
                MemSubBlock := s.mem_info.MemSubBlock.set i { b with pVirtAddr := addr } }
              virt_enc_mem_blocks :=
                gst_imx_vpu_append_virt_mem_block ptr s.virt_enc_mem_blocks },
            [.gst_imx_vpu_alloc_virt_mem_block size])
    | .VPU_MEM_PHY =>
      let gsize : Nat := (size % 2 ^ env.w).toNat
      match env.gst_allocator_alloc i gsize with
      | none => some (false, s, [.gst_allocator_alloc gsize])
      | some memory =>
        match ALIGN_VAL_TO env.w memory.mapped_virt_addr b.nAlignment,
              ALIGN_VAL_TO env.w memory.phys_addr b.nAlignment with
        | some vaddr, some paddr =>
          some (true,
            { s with
              mem_info := { s.mem_info with
                MemSubBlock := s.mem_info.MemSubBlock.set i
                  { b with pVirtAddr := vaddr, pPhyAddr := paddr } }
              phys_enc_mem_blocks :=
                gst_imx_vpu_append_phys_mem_block memory s.phys_enc_mem_blocks },
            [.gst_allocator_alloc gsize])
        | _, _ => none
    | .other _ => some (true, s, [])

/-- The allocator call the loop body makes for a sub-block descriptor `b`, with the
size as the C code computes it: none for a block of unknown type. -/
def sub_block_request (w : Nat) (b : VpuMemSubBlockInfo) : Option Event :=
  match b.MemType with
  | .VPU_MEM_VIRT =>
    some (.gst_imx_vpu_alloc_virt_mem_block (wrapInt32 (b.nAlignment + b.nSize)))
  | .VPU_MEM_PHY =>
    some (.gst_allocator_alloc ((wrapInt32 (b.nAlignment + b.nSize)) % 2 ^ w).toNat)
  | .other _ => none

/-- The allocator call for a sub-block descriptor `b` when the number of bytes asked
for is the plain sum `nSize + nAlignment`: none for a block of unknown type. -/
def sub_block_request_sum (b : VpuMemSubBlockInfo) : Option Event :=
  match b.MemType with
  | .VPU_MEM_VIRT => some (.gst_imx_vpu_alloc_virt_mem_block (b.nSize + b.nAlignment))
  | .VPU_MEM_PHY => some (.gst_allocator_alloc (b.nSize + b.nAlignment).toNat)
  | .other _ => none

/-- The allocator called for sub-block `i` with descriptor `b` fails. -/
def alloc_fails (env : AllocEnv) (i : Nat) (b : VpuMemSubBlockInfo) : Bool :=
  match b.MemType with
  | .VPU_MEM_VIRT =>
    (env.gst_imx_vpu_alloc_virt_mem_block i (wrapInt32 (b.nAlignment + b.nSize))).isNone
  | .VPU_MEM_PHY =>
    (env.gst_allocator_alloc i ((wrapInt32 (b.nAlignment + b.nSize)) % 2 ^ env.w).toNat).isNone
  | .other _ => false

/-- The loop body passes sub-block `i` with descriptor `b`: the allocator called for
it succeeds and `ALIGN_VAL_TO` has a non-zero divisor, or its type is unknown. -/
def alloc_passes (env : AllocEnv) (i : Nat) (b : VpuMemSubBlockInfo) : Bool :=
  match b.MemType with
  | .VPU_MEM_VIRT =>
    (env.gst_imx_vpu_alloc_virt_mem_block i (wrapInt32 (b.nAlignment + b.nSize))).isSome &&
      decide (b.nAlignment % 2 ^ env.w ≠ 0)
  | .VPU_MEM_PHY =>
    (env.gst_allocator_alloc i ((wrapInt32 (b.nAlignment + b.nSize)) % 2 ^ env.w).toNat).isSome &&
      decide (b.nAlignment % 2 ^ env.w ≠ 0)
  | .other _ => true

/-- The `for` loop of `gst_imx_vpu_base_enc_alloc_enc_mem_blocks`: `n` iterations
left, starting at index `i`. -/
def alloc_enc_mem_blocks_loop (env : AllocEnv) :
    Nat → Nat → GstImxVpuBaseEnc → Option (Bool × GstImxVpuBaseEnc × List Event)
  | 0, _, s => some (true, s, [])
  | n + 1, i, s =>
    match alloc_enc_mem_block env i s with
    | none => none
    | some (false, s1, ev) => some (false, s1, ev)
    | some (true, s1, ev) =>
      match alloc_enc_mem_blocks_loop env n (i + 1) s1 with
      | none => none
      | some (r, s2, ev2) => some (r, s2, ev ++ ev2)

/-- The function `gst_imx_vpu_base_enc_alloc_enc_mem_blocks`: the loop runs for
`i = 0, ..., nSubBlockNum - 1`. -/
def gst_imx_vpu_base_enc_alloc_enc_mem_blocks (env : AllocEnv) (s : GstImxVpuBaseEnc) :
    Option (Bool × GstImxVpuBaseEnc × List Event) :=
  alloc_enc_mem_blocks_loop env s.mem_info.nSubBlockNum.toNat 0 s

/-- Which underlying frees succeed, for `gst_imx_vpu_base_enc_free_enc_mem_blocks`. -/
structure FreeEnv where
  virt_free_ok : Nat → Bool
  phys_free_ok : GstImxPhysMemory → Bool

/-- The function `gst_imx_vpu_base_enc_free_enc_mem_blocks`. -/
def gst_imx_vpu_base_enc_free_enc_mem_blocks (env : FreeEnv) (s : GstImxVpuBaseEnc) :
    Bool × GstImxVpuBaseEnc × List Event :=
  let r1 := gst_imx_vpu_free_virt_mem_blocks env.virt_free_ok s.virt_enc_mem_blocks
  let s1 := { s with virt_enc_mem_blocks := r1.2 }
  let r2 := gst_imx_vpu_free_phys_mem_blocks env.phys_free_ok s1.phys_enc_mem_blocks
  let s2 := { s1 with phys_enc_mem_blocks := r2.2 }
  (r1.1 && r2.1, s2,
    [.gst_imx_vpu_free_virt_mem_blocks s.virt_enc_mem_blocks,
     .gst_imx_vpu_free_phys_mem_blocks s1.phys_enc_mem_blocks])

/-! ## Closing the encoder, properties -/

/-- The function `gst_imx_vpu_base_enc_close_encoder`. The return code of
`VPU_EncClose` is only logged. -/
def gst_imx_vpu_base_enc_close_encoder (VPU_EncClose : VpuEncRetCode)
    (s : GstImxVpuBaseEnc) : GstImxVpuBaseEnc × List Event :=
  let ev1 : List Event := match s.internal_input_buffer with
    | some b => [.gst_buffer_unref b]
    | none => []
  let s1 := { s with internal_input_buffer := none }
  let ev2 : List Event := match s1.internal_bufferpool with
    | some p => [.gst_object_unref_bufferpool p]
    | none => []
  let s2 := { s1 with internal_bufferpool := none }
  let ev3 : List Event := match s2.output_phys_buffer with
    | some m => [.gst_allocator_free m]
    | none => []
  let s3 := { s2 with output_phys_buffer := none }
  if s3.vpu_inst_opened then
    match VPU_EncClose with
    | .VPU_ENC_RET_SUCCESS =>
      ({ s3 with vpu_inst_opened := false }, ev1 ++ ev2 ++ ev3 ++ [.VPU_EncClose s3.handle])
    | .VPU_ENC_RET_FAILURE _ =>
      ({ s3 with vpu_inst_opened := false }, ev1 ++ ev2 ++ ev3 ++ [.VPU_EncClose s3.handle])
  else (s3, ev1 ++ ev2 ++ ev3)

/-- The function `gst_imx_vpu_base_enc_set_bitrate`. -/
def gst_imx_vpu_base_enc_set_bitrate (VPU_EncConfig : VpuEncRetCode)
    (s : GstImxVpuBaseEnc) : Bool × List Event :=
  if s.bitrate ≠ 0 then
    let param : Int := wrapInt32 s.bitrate
    let ev : List Event :=
      [.VPU_EncConfig s.handle .VPU_ENC_CONF_BIT_RATE param VPU_EncConfig]
    if VPU_EncConfig ≠ .VPU_ENC_RET_SUCCESS then (false, ev) else (true, ev)
  else (true, [])

/-- The accessor `g_value_get_uint` of GLib: `0` for a value that holds no `guint`. -/
def g_value_get_uint : GValue → Nat
  | .uint v => v
  | _ => 0

/-- The accessor `g_value_get_int` of GLib: `0` for a value that holds no `gint`. -/
def g_value_get_int : GValue → Int
  | .int v => v
  | _ => 0

/-- Property id `PROP_GOP_SIZE`. -/
def PROP_GOP_SIZE : Nat := 1
/-- Property id `PROP_BITRATE`. -/
def PROP_BITRATE : Nat := 2
/-- Property id `PROP_SLICE_SIZE`. -/
def PROP_SLICE_SIZE : Nat := 3
/-- Property id `PROP_INTRA_REFRESH`. -/
def PROP_INTRA_REFRESH : Nat := 4

/-- The function `gst_imx_vpu_base_enc_set_property`. -/
def gst_imx_vpu_base_enc_set_property (VPU_EncConfig : VpuEncRetCode) (prop_id : Nat)
    (value : GValue) (s : GstImxVpuBaseEnc) : GstImxVpuBaseEnc × List Event :=
  if prop_id = PROP_GOP_SIZE then
    ({ s with gop_size := g_value_get_uint value }, [])
  else if prop_id = PROP_BITRATE then
    let s1 := { s with bitrate := g_value_get_uint value }
    if s1.vpu_inst_opened then
      (s1, (gst_imx_vpu_base_enc_set_bitrate VPU_EncConfig s1).2)
    else (s1, [])
  else if prop_id = PROP_SLICE_SIZE then
    ({ s with slice_size := g_value_get_int value }, [])
  else if prop_id = PROP_INTRA_REFRESH then
    ({ s with intra_refresh := g_value_get_uint value }, [])
  else (s, [])

/-- The function `gst_imx_vpu_base_enc_init`, on the zero-filled instance memory
GObject hands to it. -/
def gst_imx_vpu_base_enc_init : GstImxVpuBaseEnc :=
  { vpu_inst_opened := false
    handle := 0
    mem_info := { nSubBlockNum := 0, MemSubBlock := [] }
    open_param :=
      { nPicWidth := 0, nPicHeight := 0, nFrameRate := 0, sMirror := 0, nBitRate := 0,
        nGOPSize := 0, sliceMode := { sliceMode := 0, sliceSizeMode := 0, sliceSize := 0 },
        nRcIntraQp := 0, nUserGamma := 0, nIntraRefresh := 0 }
    init_info := 0
    output_phys_buffer := none
    framebuffers := none
    internal_bufferpool := none
    internal_input_buffer := none
    virt_enc_mem_blocks := []
    phys_enc_mem_blocks := []
    video_info :=
      { width := 0, height := 0, fps_n := 0, fps_d := 0, size := 0, offset := [], stride := [] }
    gop_size := 16
    bitrate := 0
    slice_size := 0
    intra_refresh := 0 }

/-! ## start and stop -/

/-- What the calls of `gst_imx_vpu_base_enc_start` return; `VPU_EncQueryMem` gives
its return code and the `mem_info` it leaves in the zeroed structure. -/
structure StartEnv where
  load : LoadEnv
  VPU_EncQueryMem : VpuEncRetCode × VpuMemInfo
  alloc : AllocEnv

/-- The function `gst_imx_vpu_base_enc_start`: result, session, `inst_counter`, calls. -/
def gst_imx_vpu_base_enc_start (env : StartEnv) (s : GstImxVpuBaseEnc) (inst_counter : Int) :
    Option (Bool × GstImxVpuBaseEnc × Int × List Event) :=
  match gst_imx_vpu_base_enc_load env.load inst_counter with
  | (false, c, ev1) => some (false, s, c, ev1)
  | (true, c, ev1) =>
    let s1 := { s with mem_info := env.VPU_EncQueryMem.2 }
    if env.VPU_EncQueryMem.1 ≠ .VPU_ENC_RET_SUCCESS then
      some (false, s1, c, ev1 ++ [.VPU_EncQueryMem])
    else
      match gst_imx_vpu_base_enc_alloc_enc_mem_blocks env.alloc s1 with
      | none => none
      | some (false, s2, ev2) => some (false, s2, c, ev1 ++ [.VPU_EncQueryMem] ++ ev2)
      | some (true, s2, ev2) => some (true, s2, c, ev1 ++ [.VPU_EncQueryMem] ++ ev2)

/-- What the calls of `gst_imx_vpu_base_enc_stop` return. -/
structure StopEnv where
  VPU_EncClose : VpuEncRetCode
  free : FreeEnv
  VPU_EncUnLoad : VpuEncRetCode

/-- The function `gst_imx_vpu_base_enc_stop`: result, session, `inst_counter`, calls. -/
def gst_imx_vpu_base_enc_stop (env : StopEnv) (s : GstImxVpuBaseEnc) (inst_counter : Int) :
    Bool × GstImxVpuBaseEnc × Int × List Event :=
  let ev1 : List Event := match s.framebuffers with
    | some fb => [.gst_object_unref_framebuffers fb]
    | none => []
  let s1 := { s with framebuffers := none }
  let ev2 : List Event := match s1.output_phys_buffer with
    | some m => [.gst_allocator_free m]
    | none => []
  let s2 := { s1 with output_phys_buffer := none }
  let r3 := gst_imx_vpu_base_enc_close_encoder env.VPU_EncClose s2
  let r4 := gst_imx_vpu_base_enc_free_enc_mem_blocks env.free r3.1
  let r5 := gst_imx_vpu_base_enc_unload env.VPU_EncUnLoad inst_counter
  (true, r4.2.1, r5.1, ev1 ++ ev2 ++ r3.2 ++ r4.2.2 ++ r5.2)

/-! ## set_format -/

/-- The open parameters `gst_imx_vpu_base_enc_set_format` builds from the zeroed
`open_param`, the negotiated `info` and the properties, before it calls the
`set_open_params` hook of the derived class. -/
def set_format_open_param (s : GstImxVpuBaseEnc) (info : GstVideoInfo) : VpuEncOpenParam :=
  let nFrameRate : Nat :=
    (info.fps_n % 65536).toNat ||| (((info.fps_d - 1) % 65536).toNat <<< 16)
  let sliceMode : VpuEncSliceMode :=
    if s.slice_size ≠ 0 then
      if s.slice_size < 0 then
        { sliceMode := 1, sliceSizeMode := 1, sliceSize := wrapInt32 (-s.slice_size) }
      else
        { sliceMode := 1, sliceSizeMode := 0, sliceSize := s.slice_size }
    else
      { sliceMode := 0, sliceSizeMode := 0, sliceSize := 4000 }
  { nPicWidth := info.width
    nPicHeight := info.height
    nFrameRate := wrapInt32 nFrameRate
    sMirror := 0
    nBitRate := wrapInt32 s.bitrate
    nGOPSize := wrapInt32 s.gop_size
    sliceMode := sliceMode
    nRcIntraQp := -1
    nUserGamma := 24576
    nIntraRefresh := wrapInt32 s.intra_refresh }

/-- What the hooks and calls of `gst_imx_vpu_base_enc_set_format` return. The hooks
of the derived class are `none` when the class leaves them `NULL`; `set_open_params`
maps the open parameters it is given to its result and the parameters it leaves;
`get_output_caps` gives the caps; `VPU_EncOpen` gives its return code and the
handle it writes; `VPU_EncGetInitialInfo` its return code and the info it writes. -/
structure SetFormatEnv where
  set_open_params : Option (VpuEncOpenParam → Bool × VpuEncOpenParam)
  get_output_caps : Option Nat
  VPU_EncClose : VpuEncRetCode
  VPU_EncOpen : VpuEncRetCode × Nat
  VPU_EncConfig : VpuEncConfig → VpuEncRetCode
  VPU_EncGetInitialInfo : VpuEncRetCode × Nat

/-- The part of `gst_imx_vpu_base_enc_set_format` after a successful `VPU_EncOpen`:
`s` already has `vpu_inst_opened` set. -/
def set_format_configure (env : SetFormatEnv) (caps : Nat) (state : GstVideoInfo)
    (s : GstImxVpuBaseEnc) : Bool × GstImxVpuBaseEnc × List Event :=
  let rb := env.VPU_EncConfig .VPU_ENC_CONF_BIT_RATE
  let evb : List Event :=
    if s.bitrate ≠ 0 then
      [.VPU_EncConfig s.handle .VPU_ENC_CONF_BIT_RATE (wrapInt32 s.bitrate) rb]
    else []
  if s.bitrate ≠ 0 ∧ rb ≠ .VPU_ENC_RET_SUCCESS then (false, s, evb)
  else
    let ri := env.VPU_EncConfig .VPU_ENC_CONF_INTRA_REFRESH
    let evi : List Event :=
      if s.intra_refresh ≠ 0 then
        [.VPU_EncConfig s.handle .VPU_ENC_CONF_INTRA_REFRESH (wrapInt32 s.intra_refresh) ri]
      else []
    if s.intra_refresh ≠ 0 ∧ ri ≠ .VPU_ENC_RET_SUCCESS then (false, s, evb ++ evi)
    else
      let s1 := { s with init_info := env.VPU_EncGetInitialInfo.2 }
      let evg : List Event := [.VPU_EncGetInitialInfo s.handle env.VPU_EncGetInitialInfo.1]
      if env.VPU_EncGetInitialInfo.1 ≠ .VPU_ENC_RET_SUCCESS then
        (false, s1, evb ++ evi ++ evg)
      else
        (true, { s1 with video_info := state },
          evb ++ evi ++ evg ++ [.gst_video_encoder_set_output_state caps])

/-- The function `gst_imx_vpu_base_enc_set_format`; `none` when one of the two
`g_assert`s on the hooks fails. -/
def gst_imx_vpu_base_enc_set_format (env : SetFormatEnv) (state : GstVideoInfo)
    (s : GstImxVpuBaseEnc) : Option (Bool × GstImxVpuBaseEnc × List Event) :=
  match env.set_open_params, env.get_output_caps with
  | none, _ => none
  | some _, none => none
  | some hook, some caps =>
    let r1 := gst_imx_vpu_base_enc_close_encoder env.VPU_EncClose s
    let ev2 : List Event := match r1.1.framebuffers with
      | some fb => [.gst_object_unref_framebuffers fb]
      | none => []
    let s2 := { r1.1 with framebuffers := none }
    let ev3 : List Event := match s2.output_phys_buffer with
      | some m => [.gst_allocator_free m]
      | none => []
    let s3 := { s2 with output_phys_buffer := none }
    let h := hook (set_format_open_param s3 state)
    let s4 := { s3 with open_param := h.2 }
    let ev4 : List Event := r1.2 ++ ev2 ++ ev3 ++ [.set_open_params h.1]
    if !h.1 then some (false, s4, ev4)
    else
      let s5 := { s4 with handle := env.VPU_EncOpen.2 }
      let ev5 : List Event := ev4 ++ [.VPU_EncOpen env.VPU_EncOpen.1]
      if env.VPU_EncOpen.1 ≠ .VPU_ENC_RET_SUCCESS then some (false, s5, ev5)
      else
        let r6 := set_format_configure env caps state { s5 with vpu_inst_opened := true }
        some (r6.1, r6.2.1, ev5 ++ r6.2.2)

/-! ## handle_frame -/

/-- What one `VPU_EncEncodeFrame` call returns: its return code and the output
fields it writes into the encode parameters. -/
structure EncodeFrameResponse where
  ret : VpuEncRetCode
  eOutRetCode : VpuEncBufRetCode
  nOutOutputSize : Nat

/-- What the hooks and calls of `gst_imx_vpu_base_enc_handle_frame` return. `w` is
the width of `gsize` and of pointers. The hooks of the derived class are `none`
when the class leaves them `NULL`: `set_frame_enc_params` maps the encode
parameters it is given to its result and the parameters it leaves;
`fill_output_buffer` maps the current offset, the output size and the
sequence-header flag to the number of bytes it wrote.
`gst_video_encoder_allocate_output_buffer` is asked per loop iteration (counted
from 0); `VPU_EncEncodeFrame` lists the hardware responses in the order of the calls. -/
structure HandleFrameEnv where
  w : Nat
  set_frame_enc_params : Option (VpuEncEncParam → Bool × VpuEncEncParam)
  fill_output_buffer : Option (Nat → Nat → Bool → Nat)
  gst_imx_phys_mem_buffer_pool_new : Option Nat
  gst_buffer_pool_is_active : Bool
  gst_buffer_pool_acquire_buffer : GstFlowReturn × Option GstBuffer
  gst_imx_vpu_framebuffers_new : Option GstImxVpuFramebuffers
  gst_imx_vpu_framebuffers_register_with_encoder : Bool
  gst_allocator_alloc : Option GstImxPhysMemory
  gst_video_encoder_allocate_output_buffer : Nat → Option Nat
  VPU_EncEncodeFrame : List EncodeFrameResponse

/-- The block of `handle_frame` that creates the internal bufferpool if there is
none; `false` when the function returns `GST_FLOW_ERROR` there. -/
def handle_frame_create_pool (env : HandleFrameEnv) (s : GstImxVpuBaseEnc) :
    Bool × GstImxVpuBaseEnc × List Event :=
  match s.internal_bufferpool with
  | some _ => (true, s, [])
  | none =>
    let s1 := { s with internal_bufferpool := env.gst_imx_phys_mem_buffer_pool_new }
    let ev : List Event :=
      [.gst_imx_phys_mem_buffer_pool_new, .gst_buffer_pool_set_config s.video_info.size]
    match s1.internal_bufferpool with
    | none => (false, s1, ev)
    | some _ => (true, s1, ev)

/-- The block of `handle_frame` that creates the internal input buffer if there is
none; a result other than `GST_FLOW_OK` is what the function returns there. -/
def handle_frame_acquire (env : HandleFrameEnv) (s : GstImxVpuBaseEnc) :
    GstFlowReturn × GstImxVpuBaseEnc × List Event :=
  match s.internal_input_buffer with
  | some _ => (.GST_FLOW_OK, s, [])
  | none =>
    let r1 := handle_frame_create_pool env s
    if !r1.1 then (.GST_FLOW_ERROR, r1.2.1, r1.2.2)
    else
      let ev2 : List Event :=
        if !env.gst_buffer_pool_is_active then [.gst_buffer_pool_set_active] else []
      let s2 := { r1.2.1 with internal_input_buffer := env.gst_buffer_pool_acquire_buffer.2 }
      (env.gst_buffer_pool_acquire_buffer.1, s2,
        r1.2.2 ++ ev2 ++ [.gst_buffer_pool_acquire_buffer env.gst_buffer_pool_acquire_buffer.1])

/-- The first part of `handle_frame`: the buffer the encoder reads and the physical
address of its `GstImxPhysMemMeta`, or the flow result the function returns early.
`none`: the internal input buffer or its physical-memory metadata is `NULL` where
the code dereferences it. -/
def handle_frame_input (env : HandleFrameEnv) (frame : GstVideoCodecFrame)
    (s : GstImxVpuBaseEnc) :
    Option (Except GstFlowReturn (GstBuffer × Nat) × GstImxVpuBaseEnc × List Event) :=
  match frame.input_buffer.phys_mem_meta with
  | some phys_addr => some (.ok (frame.input_buffer, phys_addr), s, [])
  | none =>
    let r1 := handle_frame_acquire env s
    if r1.1 ≠ .GST_FLOW_OK then some (.error r1.1, r1.2.1, r1.2.2)
    else
      match r1.2.1.internal_input_buffer with
      | none => none
      | some ib =>
        match ib.phys_mem_meta with
        | none => none
        | some phys_addr =>
          some (.ok (ib, phys_addr), r1.2.1,
            r1.2.2 ++ [.gst_video_frame_copy ib frame.input_buffer])

/-- The block of `handle_frame` that sets up the input framebuffer: the descriptor
and `src_stride`. The plane arrays hold `GST_VIDEO_MAX_PLANES` entries. -/
def handle_frame_input_framebuf (w : Nat) (s : GstImxVpuBaseEnc) (input_buffer : GstBuffer)
    (phys_ptr : Nat) : VpuFrameBuffer × Int :=
  let planes : List Nat × List Int := match input_buffer.video_meta with
    | some m => m
    | none => (s.video_info.offset, s.video_info.stride)
  ({ pbufY := phys_ptr
     pbufCb := (phys_ptr + planes.1.getD 1 0) % 2 ^ w
     pbufCr := (phys_ptr + planes.1.getD 2 0) % 2 ^ w
     pbufMvCol := 0
     nStrideY := planes.2.getD 0 0
     nStrideC := planes.2.getD 1 0 },
   planes.2.getD 0 0)

/-- The block of `handle_frame` that creates the framebuffers structure if there is
none; `false` when the function returns `GST_FLOW_ERROR` there. The result of
`gst_imx_vpu_framebuffers_register_with_encoder` is not looked at. -/
def handle_frame_framebuffers (env : HandleFrameEnv) (src_stride : Int)
    (s : GstImxVpuBaseEnc) : Bool × GstImxVpuBaseEnc × List Event :=
  match s.framebuffers with
  | some _ => (true, s, [])
  | none =>
    let s1 := { s with framebuffers := env.gst_imx_vpu_framebuffers_new }
    let ev : List Event :=
      [.gst_imx_vpu_framebuffers_new s.open_param.nPicWidth s.open_param.nPicHeight]
    match s1.framebuffers with
    | none => (false, s1, ev)
    | some _ =>
      (true, s1, ev ++ [.gst_imx_vpu_framebuffers_register_with_encoder s1.handle src_stride
        env.gst_imx_vpu_framebuffers_register_with_encoder])

/-- The block of `handle_frame` that allocates the physical output buffer if there
is none; `false` when the function returns `GST_FLOW_ERROR` there. -/
def handle_frame_output_phys_buffer (env : HandleFrameEnv) (s : GstImxVpuBaseEnc) :
    Option (Bool × GstImxVpuBaseEnc × List Event) :=
  match s.output_phys_buffer with
  | some _ => some (true, s, [])
  | none =>
    match s.framebuffers with
    | none => none
    | some fb =>
      let s1 := { s with output_phys_buffer := env.gst_allocator_alloc }
      match s1.output_phys_buffer with
      | none => some (false, s1, [.gst_allocator_alloc fb.total_size])
      | some _ => some (true, s1, [.gst_allocator_alloc fb.total_size])

/-- The local variables of the main encoding block of `handle_frame`, with the frame. -/
structure EncodeLoopState where
  output_buffer : Option Nat
  output_buffer_offset : Nat
  frame_finished : Bool
  frame : GstVideoCodecFrame
  deriving DecidableEq

/-- The `do ... while` loop of `handle_frame`, at iteration `k` with the hardware
responses still to come. `some (false, ..)`: `VPU_EncEncodeFrame` failed and the
function returns `GST_FLOW_ERROR`; `some (true, ..)`: the loop was left by `break`
or by its condition; `none`: the responses ran out, or `g_assert(output_buffer !=
NULL)` failed. -/
def encode_loop (env : HandleFrameEnv) (handle : Nat) (param : VpuEncEncParam)
    (out : GstImxPhysMemory) :
    Nat → List EncodeFrameResponse → EncodeLoopState →
      Option (Bool × EncodeLoopState × List Event)
  | _, [], _ => none
  | k, r :: rs, st =>
    let ev0 : List Event := [.VPU_EncEncodeFrame handle param r.ret]
    if r.ret ≠ .VPU_ENC_RET_SUCCESS then some (false, st, ev0 ++ [.VPU_EncReset handle])
    else if st.frame_finished then
      if r.eOutRetCode.VPU_ENC_INPUT_USED then some (true, st, ev0)
      else
        match encode_loop env handle param out (k + 1) rs st with
        | none => none
        | some (b, st2, ev) => some (b, st2, ev0 ++ ev)
    else if r.eOutRetCode.VPU_ENC_OUTPUT_DIS || r.eOutRetCode.VPU_ENC_OUTPUT_SEQHEADER then
      let st1 : EncodeLoopState := match st.output_buffer with
        | none =>
          { st with
            output_buffer := env.gst_video_encoder_allocate_output_buffer k
            frame := { st.frame with
              output_buffer := env.gst_video_encoder_allocate_output_buffer k } }
        | some _ => st
      let ev1 : List Event := match st.output_buffer with
        | none => [.gst_video_encoder_allocate_output_buffer out.size]
        | some _ => []
      let written : Nat := match env.fill_output_buffer with
        | some hook =>
          hook st1.output_buffer_offset r.nOutOutputSize
            r.eOutRetCode.VPU_ENC_OUTPUT_SEQHEADER
        | none => r.nOutOutputSize
      let ev2 : List Event := match env.fill_output_buffer with
        | some _ =>
          [.fill_output_buffer st1.output_buffer_offset r.nOutOutputSize
            r.eOutRetCode.VPU_ENC_OUTPUT_SEQHEADER]
        | none =>
          [.gst_buffer_fill st1.output_buffer st1.output_buffer_offset r.nOutOutputSize]
      let st2 : EncodeLoopState :=
        { st1 with output_buffer_offset := (st1.output_buffer_offset + written) % 2 ^ env.w }
      if r.eOutRetCode.VPU_ENC_OUTPUT_DIS then
        match st2.output_buffer with
        | none => none
        | some b =>
          let frame1 : GstVideoCodecFrame := { st2.frame with dts := st2.frame.pts }
          some (true,
            { st2 with output_buffer := none, frame_finished := true, frame := frame1 },
            ev0 ++ ev1 ++ ev2 ++
              [.gst_buffer_set_size b st2.output_buffer_offset,
               .gst_video_encoder_finish_frame frame1])
      else if r.eOutRetCode.VPU_ENC_INPUT_USED then some (true, st2, ev0 ++ ev1 ++ ev2)
      else
        match encode_loop env handle param out (k + 1) rs st2 with
        | none => none
        | some (b, st3, ev) => some (b, st3, ev0 ++ ev1 ++ ev2 ++ ev)
    else if r.eOutRetCode.VPU_ENC_INPUT_USED then some (true, st, ev0)
    else
      match encode_loop env handle param out (k + 1) rs st with
      | none => none
      | some (b, st2, ev) => some (b, st2, ev0 ++ ev)

/-- The main encoding block of `handle_frame` and its `return GST_FLOW_OK`, for the
encode parameters `param` the hook left. -/
def handle_frame_encode (env : HandleFrameEnv) (s : GstImxVpuBaseEnc)
    (param : VpuEncEncParam) (out : GstImxPhysMemory) (frame : GstVideoCodecFrame) :
    Option (GstFlowReturn × GstVideoCodecFrame × List Event) :=
  let st0 : EncodeLoopState :=
    { output_buffer := none
      output_buffer_offset := 0
      frame_finished := false
      frame := { frame with output_buffer := none } }
  match encode_loop env s.handle param out 0 env.VPU_EncEncodeFrame st0 with
  | none => none
  | some (false, st, ev) => some (.GST_FLOW_ERROR, st.frame, ev)
  | some (true, st, ev) =>
    match st.output_buffer with
    | some b =>
      let frame1 : GstVideoCodecFrame := { st.frame with output_buffer := none }
      some (.GST_FLOW_OK, frame1,
        ev ++ [.gst_buffer_unref_output b, .gst_video_encoder_finish_frame frame1])
    | none => some (.GST_FLOW_OK, st.frame, ev)

/-- The function `gst_imx_vpu_base_enc_handle_frame`: flow result, session, frame,
calls; `none` when `g_assert(klass->set_frame_enc_params != NULL)` fails or one of
its parts gives `none`. -/
def gst_imx_vpu_base_enc_handle_frame (env : HandleFrameEnv) (frame : GstVideoCodecFrame)
    (s : GstImxVpuBaseEnc) :
    Option (GstFlowReturn × GstImxVpuBaseEnc × GstVideoCodecFrame × List Event) :=
  match env.set_frame_enc_params with
  | none => none
  | some hook =>
    match handle_frame_input env frame s with
    | none => none
    | some (.error r, s1, ev1) => some (r, s1, frame, ev1)
    | some (.ok (input_buffer, phys_ptr), s1, ev1) =>
      let fb := handle_frame_input_framebuf env.w s1 input_buffer phys_ptr
      let r2 := handle_frame_framebuffers env fb.2 s1
      if !r2.1 then some (.GST_FLOW_ERROR, r2.2.1, frame, ev1 ++ r2.2.2)
      else
        match handle_frame_output_phys_buffer env r2.2.1 with
        | none => none
        | some (false, s3, ev3) => some (.GST_FLOW_ERROR, s3, frame, ev1 ++ r2.2.2 ++ ev3)
        | some (true, s3, ev3) =>
          match s3.output_phys_buffer, s3.framebuffers with
          | some out, some fbs =>
            let force : Bool := frame.force_keyframe || frame.force_keyframe_headers
            let frame1 : GstVideoCodecFrame :=
              if force then { frame with sync_point := true } else frame
            let param : VpuEncEncParam :=
              { nInVirtOutput := out.mapped_virt_addr % 4294967296
                nInPhyOutput := out.phys_addr % 4294967296
                nInOutputBufLen := out.size
                nPicWidth := fbs.pic_width
                nPicHeight := fbs.pic_height
                nFrameRate := s3.open_param.nFrameRate
                pInFrame := fb.1
                nForceIPicture := if force then 1 else 0 }
            let h := hook param
            let ev4 : List Event := ev1 ++ r2.2.2 ++ ev3 ++ [.set_frame_enc_params h.1]
            if !h.1 then some (.GST_FLOW_ERROR, s3, frame1, ev4)
            else
              match handle_frame_encode env s3 h.2 out frame1 with
              | none => none
              | some (r, frame2, ev5) => some (r, s3, frame2, ev4 ++ ev5)
          | _, _ => none

/-! ## Sequences of calls on one session -/

/-- A session with the process-wide `inst_counter` and the calls made so far. -/
structure World where
  enc : GstImxVpuBaseEnc
  inst_counter : Int
  trace : List Event

/-- One call of the GStreamer base class into the session, with what its hooks and
hardware calls return. -/
inductive Call where
  | set_format (env : SetFormatEnv) (state : GstVideoInfo)
  | handle_frame (env : HandleFrameEnv) (frame : GstVideoCodecFrame)
  | set_property (VPU_EncConfig : VpuEncRetCode) (prop_id : Nat) (value : GValue)
  | stop (env : StopEnv)

/-- The world after a call; `none` when the call does not return. -/
def Call.step : Call → World → Option World
  | .set_format env state, w =>
    match gst_imx_vpu_base_enc_set_format env state w.enc with
    | none => none
    | some (_, s, ev) => some { w with enc := s, trace := w.trace ++ ev }
  | .handle_frame env frame, w =>
    match gst_imx_vpu_base_enc_handle_frame env frame w.enc with
    | none => none
    | some (_, s, _, ev) => some { w with enc := s, trace := w.trace ++ ev }
  | .set_property r prop_id value, w =>
    let r1 := gst_imx_vpu_base_enc_set_property r prop_id value w.enc
    some { w with enc := r1.1, trace := w.trace ++ r1.2 }
  | .stop env, w =>
    let r1 := gst_imx_vpu_base_enc_stop env w.enc w.inst_counter
    some { enc := r1.2.1, inst_counter := r1.2.2.1, trace := w.trace ++ r1.2.2.2 }

/-- The worlds reached after each call of a sequence, up to the first call that
does not return. -/
def run : List Call → World → List World
  | [], _ => []
  | c :: cs, w =>
    match c.step w with
    | none => []
    | some w1 => w1 :: run cs w1

/-- The call opens or closes a hardware handle: a successful `VPU_EncOpen`, or a
`VPU_EncClose`. -/
def Event.touches_handle : Event → Bool
  | .VPU_EncOpen .VPU_ENC_RET_SUCCESS => true
  | .VPU_EncClose _ => true
  | _ => false

/-- No call of the list opens or closes a hardware handle. -/
def quiet (ev : List Event) : Bool :=
  ev.all (fun e => !e.touches_handle)

/-- Whether a handle is open after a call, given whether one was open before it;
`none` when the call closes with no handle open or opens with a handle still open. -/
def track_event (b : Bool) (e : Event) : Option Bool :=
  match e with
  | .VPU_EncClose _ => if b then some false else none
  | .VPU_EncOpen .VPU_ENC_RET_SUCCESS => if b then none else some true
  | _ => some b

/-- Whether a handle is open after a list of calls, given whether one was open before
it; `none` when some call closes with no handle open or opens with a handle still open. -/
def track : Bool → List Event → Option Bool
  | b, [] => some b
  | b, e :: tr =>
    match track_event b e with
    | none => none
    | some b1 => track b1 tr

/-- The call is a successful `VPU_EncOpen`. -/
def Event.is_open : Event → Bool
  | .VPU_EncOpen .VPU_ENC_RET_SUCCESS => true
  | _ => false

/-- The call is a `VPU_EncClose`. -/
def Event.is_close : Event → Bool
  | .VPU_EncClose _ => true
  | _ => false

/-- The number of successful `VPU_EncOpen` calls in a trace. -/
def opens (tr : List Event) : Nat :=
  tr.countP Event.is_open

/-- The number of `VPU_EncClose` calls in a trace. -/
def closes (tr : List Event) : Nat :=
  tr.countP Event.is_close

/-! ## The parts of handle_frame, and what its calls are counted by -/

/-- The part of `gst_imx_vpu_base_enc_handle_frame` before its main encoding block:
`.error` holds what the function returns when it returns there, `.ok` the session,
the encode parameters the hook left, the physical output buffer, the frame and the
calls made with which the main encoding block starts; `none` as for the function. -/
def handle_frame_setup (env : HandleFrameEnv) (frame : GstVideoCodecFrame)
    (s : GstImxVpuBaseEnc) :
    Option (Except (GstFlowReturn × GstImxVpuBaseEnc × GstVideoCodecFrame × List Event)
      (GstImxVpuBaseEnc × VpuEncEncParam × GstImxPhysMemory × GstVideoCodecFrame ×
        List Event)) :=
  match env.set_frame_enc_params with
  | none => none
  | some hook =>
    match handle_frame_input env frame s with
    | none => none
    | some (.error r, s1, ev1) => some (.error (r, s1, frame, ev1))
    | some (.ok (input_buffer, phys_ptr), s1, ev1) =>
      let fb := handle_frame_input_framebuf env.w s1 input_buffer phys_ptr
      let r2 := handle_frame_framebuffers env fb.2 s1
      if !r2.1 then some (.error (.GST_FLOW_ERROR, r2.2.1, frame, ev1 ++ r2.2.2))
      else
        match handle_frame_output_phys_buffer env r2.2.1 with
        | none => none
        | some (false, s3, ev3) =>
          some (.error (.GST_FLOW_ERROR, s3, frame, ev1 ++ r2.2.2 ++ ev3))
        | some (true, s3, ev3) =>
          match s3.output_phys_buffer, s3.framebuffers with
          | some out, some fbs =>
            let force : Bool := frame.force_keyframe || frame.force_keyframe_headers
            let frame1 : GstVideoCodecFrame :=
              if force then { frame with sync_point := true } else frame
            let param : VpuEncEncParam :=
              { nInVirtOutput := out.mapped_virt_addr % 4294967296
                nInPhyOutput := out.phys_addr % 4294967296
                nInOutputBufLen := out.size
                nPicWidth := fbs.pic_width
                nPicHeight := fbs.pic_height
                nFrameRate := s3.open_param.nFrameRate
                pInFrame := fb.1
                nForceIPicture := if force then 1 else 0 }
            let h := hook param
            let ev4 : List Event := ev1 ++ r2.2.2 ++ ev3 ++ [.set_frame_enc_params h.1]
            if !h.1 then some (.error (.GST_FLOW_ERROR, s3, frame1, ev4))
            else some (.ok (s3, h.2, out, frame1, ev4))
          | _, _ => none

/-- The call is made by the main encoding block of `handle_frame`. -/
def Event.in_main_block : Event → Bool
  | .VPU_EncEncodeFrame _ _ _ => true
  | .VPU_EncReset _ => true
  | .gst_video_encoder_allocate_output_buffer _ => true
  | .fill_output_buffer _ _ _ => true
  | .gst_buffer_fill _ _ _ => true
  | .gst_buffer_set_size _ _ => true
  | .gst_video_encoder_finish_frame _ => true
  | .gst_buffer_unref_output _ => true
  | _ => false

/-- The call is made by the part of `handle_frame` that provides the input buffer. -/
def Event.in_input_stage : Event → Bool
  | .gst_imx_phys_mem_buffer_pool_new => true
  | .gst_buffer_pool_set_config _ => true
  | .gst_buffer_pool_set_active => true
  | .gst_buffer_pool_acquire_buffer _ => true
  | .gst_video_frame_copy _ _ => true
  | _ => false

/-- The call is a `VPU_EncEncodeFrame`. -/
def Event.is_encode_frame : Event → Bool
  | .VPU_EncEncodeFrame _ _ _ => true
  | _ => false

/-- The call is a `VPU_EncReset`. -/
def Event.is_reset : Event → Bool
  | .VPU_EncReset _ => true
  | _ => false

/-- The call is a `gst_video_encoder_allocate_output_buffer`. -/
def Event.is_allocate_output : Event → Bool
  | .gst_video_encoder_allocate_output_buffer _ => true
  | _ => false

/-- The call is a `gst_buffer_pool_acquire_buffer`. -/
def Event.is_acquire : Event → Bool
  | .gst_buffer_pool_acquire_buffer _ => true
  | _ => false

/-- The call is a `gst_imx_phys_mem_buffer_pool_new`. -/
def Event.is_pool_new : Event → Bool
  | .gst_imx_phys_mem_buffer_pool_new => true
  | _ => false

/-- The frames `gst_video_encoder_finish_frame` was called with, in order. -/
def finished_frames (tr : List Event) : List GstVideoCodecFrame :=
  tr.filterMap (fun e => match e with
    | .gst_video_encoder_finish_frame f => some f
    | _ => none)

/-- The buffers and sizes `gst_buffer_set_size` was called with, in order. -/
def set_sizes (tr : List Event) : List (Nat × Nat) :=
  tr.filterMap (fun e => match e with
    | .gst_buffer_set_size b n => some (b, n)
    | _ => none)

/-- The destination buffers of the `gst_video_frame_copy` calls, in order. -/
def copy_dests (tr : List Event) : List GstBuffer :=
  tr.filterMap (fun e => match e with
    | .gst_video_frame_copy d _ => some d
    | _ => none)

/-- The encode parameters the `VPU_EncEncodeFrame` calls were made with, in order. -/
def encode_params (tr : List Event) : List VpuEncEncParam :=
  tr.filterMap (fun e => match e with
    | .VPU_EncEncodeFrame _ p _ => some p
    | _ => none)

/-- The response reports output: `VPU_ENC_OUTPUT_DIS` or `VPU_ENC_OUTPUT_SEQHEADER`. -/
def EncodeFrameResponse.has_output (r : EncodeFrameResponse) : Bool :=
  r.eOutRetCode.VPU_ENC_OUTPUT_DIS || r.eOutRetCode.VPU_ENC_OUTPUT_SEQHEADER

/-- The response is a success that neither finishes the frame nor reports the input
used, so that the loop goes on after it. -/
def EncodeFrameResponse.goes_on (r : EncodeFrameResponse) : Bool :=
  decide (r.ret = .VPU_ENC_RET_SUCCESS) && !r.eOutRetCode.VPU_ENC_OUTPUT_DIS &&
    !r.eOutRetCode.VPU_ENC_INPUT_USED

/-- The sum of `nOutOutputSize` over the responses that report output. -/
def output_sum : List EncodeFrameResponse → Nat
  | [] => 0
  | r :: rs => (if r.has_output then r.nOutOutputSize else 0) + output_sum rs

/-- The part of a loop iteration of `handle_frame` that takes the output the
response reports (`if (eOutRetCode & (VPU_ENC_OUTPUT_DIS | VPU_ENC_OUTPUT_SEQHEADER))`,
up to the test of `VPU_ENC_OUTPUT_DIS`): the output buffer is allocated if there is
none and filled at the current offset. The new locals and the calls made. -/
def encode_output (env : HandleFrameEnv) (out : GstImxPhysMemory) (k : Nat)
    (r : EncodeFrameResponse) (st : EncodeLoopState) : EncodeLoopState × List Event :=
  if r.has_output then
    let st1 : EncodeLoopState := match st.output_buffer with
      | none =>
        { st with
          output_buffer := env.gst_video_encoder_allocate_output_buffer k
          frame := { st.frame with
            output_buffer := env.gst_video_encoder_allocate_output_buffer k } }
      | some _ => st
    let ev1 : List Event := match st.output_buffer with
      | none => [.gst_video_encoder_allocate_output_buffer out.size]
      | some _ => []
    let written : Nat := match env.fill_output_buffer with
      | some hook =>
        hook st1.output_buffer_offset r.nOutOutputSize
          r.eOutRetCode.VPU_ENC_OUTPUT_SEQHEADER
      | none => r.nOutOutputSize
    let ev2 : List Event := match env.fill_output_buffer with
      | some _ =>
        [.fill_output_buffer st1.output_buffer_offset r.nOutOutputSize
          r.eOutRetCode.VPU_ENC_OUTPUT_SEQHEADER]
      | none =>
        [.gst_buffer_fill st1.output_buffer st1.output_buffer_offset r.nOutOutputSize]
    ({ st1 with output_buffer_offset := (st1.output_buffer_offset + written) % 2 ^ env.w },
      ev1 ++ ev2)
  else (st, [])

/-- The loop iterations of `handle_frame` for responses after each of which the loop
goes on, from iteration `k`: the locals after them and the calls made. -/
def encode_steps (env : HandleFrameEnv) (handle : Nat) (param : VpuEncEncParam)
    (out : GstImxPhysMemory) :
    Nat → List EncodeFrameResponse → EncodeLoopState → EncodeLoopState × List Event
  | _, [], st => (st, [])
  | k, r :: rs, st =>
    ((encode_steps env handle param out (k + 1) rs (encode_output env out k r st).1).1,
      [.VPU_EncEncodeFrame handle param r.ret] ++ (encode_output env out k r st).2 ++
        (encode_steps env handle param out (k + 1) rs (encode_output env out k r st).1).2)

/-- The local variables of the main encoding block of `handle_frame` when the loop
is entered: no output buffer, offset 0, frame not finished, `frame->output_buffer`
set to `NULL`. -/
def encode_init (frame : GstVideoCodecFrame) : EncodeLoopState :=
  { output_buffer := none
    output_buffer_offset := 0
    frame_finished := false
    frame := { frame with output_buffer := none } }

/-! ## Concrete inputs -/

/-- The hardware calls of `gst_imx_vpu_base_enc_load` all succeed. -/
def load_env_ok : LoadEnv :=
  { VPU_EncLoad := .VPU_ENC_RET_SUCCESS
    VPU_EncGetVersionInfo := .VPU_ENC_RET_SUCCESS
    VPU_EncGetWrapperVersionInfo := .VPU_ENC_RET_SUCCESS }

/-- Two sessions start and then stop: load, load, unload, unload. -/
def two_sessions : List LoadCall :=
  [.load load_env_ok, .load load_env_ok, .unload .VPU_ENC_RET_SUCCESS,
   .unload .VPU_ENC_RET_SUCCESS]

/-- A 32-bit allocator environment: the virtual allocator returns address 1001 and the
physical allocator a block mapped at 5003 with physical address 70001, for requests
of at most a million bytes. -/
def env32 : AllocEnv :=
  { w := 32
    gst_imx_vpu_alloc_virt_mem_block := fun _ sz =>
      if 0 ≤ sz ∧ sz ≤ 1000000 then some 1001 else none
    gst_allocator_alloc := fun _ sz =>
      if sz ≤ 1000000 then some { mapped_virt_addr := 5003, phys_addr := 70001, size := sz }
      else none }

/-- A session whose `mem_info` asks for a virtual block of 100 bytes aligned to 8 and
a physical block of 1000 bytes aligned to 4096. -/
def session_two_blocks : GstImxVpuBaseEnc :=
  { gst_imx_vpu_base_enc_init with
    mem_info :=
      { nSubBlockNum := 2
        MemSubBlock :=
          [{ nAlignment := 8, nSize := 100, MemType := .VPU_MEM_VIRT, pVirtAddr := 0, pPhyAddr := 0 },
           { nAlignment := 4096, nSize := 1000, MemType := .VPU_MEM_PHY, pVirtAddr := 0,
             pPhyAddr := 0 }] } }

/-- The second descriptor of `session_two_blocks`. -/
def block_phys_1000 : VpuMemSubBlockInfo :=
  { nAlignment := 4096, nSize := 1000, MemType := .VPU_MEM_PHY, pVirtAddr := 0, pPhyAddr := 0 }

/-- The session `session_two_blocks` after a successful allocation in `env32`. -/
def session_two_blocks_allocated : GstImxVpuBaseEnc :=
  { session_two_blocks with
    mem_info :=
      { nSubBlockNum := 2
        MemSubBlock :=
          [{ nAlignment := 8, nSize := 100, MemType := .VPU_MEM_VIRT, pVirtAddr := 1008,
             pPhyAddr := 0 },
           { nAlignment := 4096, nSize := 1000, MemType := .VPU_MEM_PHY, pVirtAddr := 8192,
             pPhyAddr := 73728 }] }
    virt_enc_mem_blocks := [1001]
    phys_enc_mem_blocks := [{ mapped_virt_addr := 5003, phys_addr := 70001, size := 5096 }] }

/-- The environment `env32` with a physical allocator that always fails. -/
def env32_phys_fails : AllocEnv :=
  { env32 with gst_allocator_alloc := fun _ _ => none }

/-- A `start()` environment: the VPU loads, `VPU_EncQueryMem` asks for the two blocks
of `session_two_blocks`, the virtual allocation succeeds and the physical one fails. -/
def start_env_phys_fails : StartEnv :=
  { load := load_env_ok
    VPU_EncQueryMem := (.VPU_ENC_RET_SUCCESS, session_two_blocks.mem_info)
    alloc := env32_phys_fails }

/-- A `stop()` environment in which every call succeeds. -/
def stop_env_ok : StopEnv :=
  { VPU_EncClose := .VPU_ENC_RET_SUCCESS
    free := { virt_free_ok := fun _ => true, phys_free_ok := fun _ => true }
    VPU_EncUnLoad := .VPU_ENC_RET_SUCCESS }

/-- A `set_format` environment in which the hooks are present and every call
succeeds; `VPU_EncOpen` hands out handle 42. -/
def set_format_env_ok : SetFormatEnv :=
  { set_open_params := some (fun p => (true, p))
    get_output_caps := some 7
    VPU_EncClose := .VPU_ENC_RET_SUCCESS
    VPU_EncOpen := (.VPU_ENC_RET_SUCCESS, 42)
    VPU_EncConfig := fun _ => .VPU_ENC_RET_SUCCESS
    VPU_EncGetInitialInfo := (.VPU_ENC_RET_SUCCESS, 1) }

/-- A negotiated 640x480 format at 30/1 frames per second. -/
def video_info_vga : GstVideoInfo :=
  { width := 640, height := 480, fps_n := 30, fps_d := 1, size := 460800,
    offset := [0, 307200, 384000], stride := [640, 320, 320] }

/-- A `handle_frame` environment in which every call succeeds; the hardware answers
with a sequence header of 30 bytes and then a finished frame of 500 bytes with the
input used. -/
def handle_frame_env_ok : HandleFrameEnv :=
  { w := 32
    set_frame_enc_params := some (fun p => (true, p))
    fill_output_buffer := none
    gst_imx_phys_mem_buffer_pool_new := some 3
    gst_buffer_pool_is_active := false
    gst_buffer_pool_acquire_buffer :=
      (.GST_FLOW_OK, some { id := 9, phys_mem_meta := some 200000, video_meta := none })
    gst_imx_vpu_framebuffers_new :=
      some { total_size := 1000000, pic_width := 640, pic_height := 480 }
    gst_imx_vpu_framebuffers_register_with_encoder := true
    gst_allocator_alloc :=
      some { mapped_virt_addr := 300000, phys_addr := 400000, size := 1000000 }
    gst_video_encoder_allocate_output_buffer := fun _ => some 11
    VPU_EncEncodeFrame :=
      [{ ret := .VPU_ENC_RET_SUCCESS
         eOutRetCode :=
           { VPU_ENC_INPUT_USED := false, VPU_ENC_OUTPUT_DIS := false,
             VPU_ENC_OUTPUT_SEQHEADER := true }
         nOutOutputSize := 30 },
       { ret := .VPU_ENC_RET_SUCCESS
         eOutRetCode :=
           { VPU_ENC_INPUT_USED := true, VPU_ENC_OUTPUT_DIS := true,
             VPU_ENC_OUTPUT_SEQHEADER := false }
         nOutOutputSize := 500 }] }

/-- An incoming frame whose buffer carries no physical-memory metadata. -/
def frame_plain : GstVideoCodecFrame :=
  { input_buffer := { id := 1, phys_mem_meta := none, video_meta := none }
    output_buffer := none
    pts := 5
    dts := 0
    force_keyframe := false
    force_keyframe_headers := false
    sync_point := false }

/-- A session life: format negotiation, a frame, a bitrate change, a format change
and the stop. -/
def session_calls : List Call :=
  [.set_format set_format_env_ok video_info_vga,
   .handle_frame handle_frame_env_ok frame_plain,
   .set_property .VPU_ENC_RET_SUCCESS PROP_BITRATE (.uint 1000),
   .set_format set_format_env_ok video_info_vga,
   .stop stop_env_ok]

/-- The world of a freshly initialised session, with the given `inst_counter`. -/
def initial_world (inst_counter : Int) : World :=
  { enc := gst_imx_vpu_base_enc_init, inst_counter := inst_counter, trace := [] }

/-- The session after a first successful format negotiation. -/
def session_formatted : GstImxVpuBaseEnc :=
  match gst_imx_vpu_base_enc_set_format set_format_env_ok video_info_vga
      gst_imx_vpu_base_enc_init with
  | some r => r.2.1
  | none => gst_imx_vpu_base_enc_init

/-- The environment `handle_frame_env_ok` with a hardware that answers once: input
used, no output. -/
def handle_frame_env_used_only : HandleFrameEnv :=
  { handle_frame_env_ok with
    VPU_EncEncodeFrame :=
      [{ ret := .VPU_ENC_RET_SUCCESS
         eOutRetCode :=
           { VPU_ENC_INPUT_USED := true, VPU_ENC_OUTPUT_DIS := false,
             VPU_ENC_OUTPUT_SEQHEADER := false }
         nOutOutputSize := 0 }] }

/-- The environment `handle_frame_env_ok` with a hardware that answers once: a finished
frame of 500 bytes, input not marked as used. -/
def handle_frame_env_dis_only : HandleFrameEnv :=
  { handle_frame_env_ok with
    VPU_EncEncodeFrame :=
      [{ ret := .VPU_ENC_RET_SUCCESS
         eOutRetCode :=
           { VPU_ENC_INPUT_USED := false, VPU_ENC_OUTPUT_DIS := true,
             VPU_ENC_OUTPUT_SEQHEADER := false }
         nOutOutputSize := 500 }] }

/-- The environment `handle_frame_env_ok` with a hardware that answers with a sequence
header of 30 bytes and then fails. -/
def handle_frame_env_encode_fails : HandleFrameEnv :=
  { handle_frame_env_ok with
    VPU_EncEncodeFrame :=
      [{ ret := .VPU_ENC_RET_SUCCESS
         eOutRetCode :=
           { VPU_ENC_INPUT_USED := false, VPU_ENC_OUTPUT_DIS := false,
             VPU_ENC_OUTPUT_SEQHEADER := true }
         nOutOutputSize := 30 },
       { ret := .VPU_ENC_RET_FAILURE 1
         eOutRetCode :=
           { VPU_ENC_INPUT_USED := false, VPU_ENC_OUTPUT_DIS := false,
             VPU_ENC_OUTPUT_SEQHEADER := false }
         nOutOutputSize := 0 }] }

/-- The world of the session after a first successful format negotiation. -/
def formatted_world : World :=
  { enc := session_formatted, inst_counter := 1, trace := [] }

/-- The environment `handle_frame_env_ok` with a failing registration of the
framebuffers with the encoder. -/
def handle_frame_env_register_fails : HandleFrameEnv :=
  { handle_frame_env_ok with gst_imx_vpu_framebuffers_register_with_encoder := false }

/-- The environment `handle_frame_env_ok` with a failing construction of the
framebuffers structure. -/
def handle_frame_env_no_framebuffers : HandleFrameEnv :=
  { handle_frame_env_ok with gst_imx_vpu_framebuffers_new := none }

/-- The environment `handle_frame_env_ok` with a hardware that answers with a sequence
header of 30 bytes and then reports the input used, with no output. -/
def handle_frame_env_unfinished : HandleFrameEnv :=
  { handle_frame_env_ok with
    VPU_EncEncodeFrame :=
      [{ ret := .VPU_ENC_RET_SUCCESS
         eOutRetCode :=
           { VPU_ENC_INPUT_USED := false, VPU_ENC_OUTPUT_DIS := false,
             VPU_ENC_OUTPUT_SEQHEADER := true }
         nOutOutputSize := 30 },
       { ret := .VPU_ENC_RET_SUCCESS
         eOutRetCode :=
           { VPU_ENC_INPUT_USED := true, VPU_ENC_OUTPUT_DIS := false,
             VPU_ENC_OUTPUT_SEQHEADER := false }
         nOutOutputSize := 0 }] }

/-- The environment `handle_frame_env_ok` with a buffer pool whose acquisition fails and
gives no buffer. -/
def handle_frame_env_acquire_fails : HandleFrameEnv :=
  { handle_frame_env_ok with gst_buffer_pool_acquire_buffer := (.GST_FLOW_ERROR, none) }

/-! ## The buffer pool for VPU framebuffers (`fb_buffer_pool.c`) -/

namespace FbBufferPool

/-- Return code of the VPU wrapper's decoder functions (`VpuDecRetCode`); every code
other than `VPU_DEC_RET_SUCCESS` is a failure, kept with its number. -/
inductive VpuDecRetCode where
  | VPU_DEC_RET_SUCCESS
  | VPU_DEC_RET_FAILURE (code : Nat)
  deriving DecidableEq

/-- The registration state of a framebuffers structure
(`GstImxVpuFramebuffersRegistrationState`). -/
inductive GstImxVpuFramebuffersRegistrationState where
  | GST_IMX_VPU_FRAMEBUFFERS_UNREGISTERED
  | GST_IMX_VPU_FRAMEBUFFERS_DECODER_REGISTERED
  | GST_IMX_VPU_FRAMEBUFFERS_ENCODER_REGISTERED
  deriving DecidableEq

/-- The fields of a `VpuFrameBuffer` that `fb_buffer_pool.c` reads: the physical and
the virtual address of the Y plane. -/
structure VpuFrameBuffer where
  pbufY : Nat
  pbufVirtY : Nat
  deriving DecidableEq

/-- The fields of `GstImxVpuFramebuffers` that `fb_buffer_pool.c` uses: the
registration state, the decoder state (`decenc_states.dec`), the three `int`
counters, and the sizes. -/
structure GstImxVpuFramebuffers where
  registration_state : GstImxVpuFramebuffersRegistrationState
  handle : Nat
  decoder_open : Bool
  num_available_framebuffers : Int
  decremented_availbuf_counter : Int
  num_framebuffers_in_buffers : Int
  total_size : Nat
  pic_width : Nat
  pic_height : Nat
  deriving DecidableEq

/-- The fields of `GstVideoMeta` that `fb_buffer_pool.c` reads. -/
structure GstVideoMeta where
  width : Nat
  height : Nat
  deriving DecidableEq

/-- The VPU metadata of a buffer (`GstImxVpuBufferMeta`): the framebuffer it wraps
(`none` for `NULL`) and whether that framebuffer still has to be marked as displayed. -/
structure GstImxVpuBufferMeta where
  framebuffer : Option VpuFrameBuffer
  not_displayed_yet : Bool
  deriving DecidableEq

/-- The physical-memory metadata of a buffer (`GstImxPhysMemMeta`). -/
structure GstImxPhysMemMeta where
  phys_addr : Nat
  x_padding : Nat
  y_padding : Nat
  deriving DecidableEq

/-- A memory block made by `gst_memory_new_wrapped`, with the arguments it was made
from. -/
structure GstMemory where
  no_share : Bool
  data : Nat
  maxsize : Nat
  offset : Nat
  size : Nat
  deriving DecidableEq

/-- A buffer as `fb_buffer_pool.c` sees it: its three kinds of metadata (`none` when
the lookup gives `NULL`) and its memory blocks. -/
structure GstBuffer where
  video_meta : Option GstVideoMeta
  vpu_meta : Option GstImxVpuBufferMeta
  phys_mem_meta : Option GstImxPhysMemMeta
  memory : List GstMemory
  deriving DecidableEq

/-- The pool (`GstImxVpuFbBufferPool`) with the framebuffers structure it points to. -/
structure GstImxVpuFbBufferPool where
  framebuffers : Option GstImxVpuFramebuffers
  deriving DecidableEq

/-- The calls `fb_buffer_pool.c` makes into the VPU wrapper library and GStreamer. -/
inductive PoolEvent where
  | VPU_DecOutFrameDisplayed (handle : Nat) (framebuffer : VpuFrameBuffer)
      (ret : VpuDecRetCode)
  | gst_buffer_remove_all_memory
  | g_cond_signal
  | release_buffer (buffer : GstBuffer)
  | gst_memory_new_wrapped (data : Nat) (maxsize : Nat) (offset : Nat) (size : Nat)
  | gst_buffer_append_memory (memory : GstMemory)
  deriving DecidableEq

/-- The call is a `VPU_DecOutFrameDisplayed`. -/
def PoolEvent.is_frame_displayed : PoolEvent → Bool
  | .VPU_DecOutFrameDisplayed _ _ _ => true
  | _ => false

/-- The part of `gst_imx_vpu_fb_buffer_pool_release_buffer` under
`GST_IMX_VPU_FRAMEBUFFERS_LOCK` up to `gst_buffer_remove_all_memory`, for the VPU
metadata `vpu_meta` of the buffer: the framebuffers structure, the VPU metadata and
the calls made. `ret` is what `VPU_DecOutFrameDisplayed` returns. -/
def release_buffer_clear (ret : VpuDecRetCode) (fbs : GstImxVpuFramebuffers)
    (vpu_meta : GstImxVpuBufferMeta) (phys_mem_meta : Option GstImxPhysMemMeta) :
    GstImxVpuFramebuffers × GstImxVpuBufferMeta × List PoolEvent :=
  match vpu_meta.framebuffer, phys_mem_meta with
  | some framebuffer, some pm =>
    if pm.phys_addr ≠ 0 then
      if vpu_meta.not_displayed_yet && fbs.decoder_open then
        let ev : List PoolEvent := [.VPU_DecOutFrameDisplayed fbs.handle framebuffer ret]
        if ret ≠ .VPU_DEC_RET_SUCCESS then (fbs, vpu_meta, ev)
        else
          let vpu_meta1 := { vpu_meta with not_displayed_yet := false }
          if fbs.decremented_availbuf_counter > 0 then
            ({ fbs with
               num_available_framebuffers := wrapInt32 (fbs.num_available_framebuffers + 1)
               decremented_availbuf_counter :=
                 wrapInt32 (fbs.decremented_availbuf_counter - 1)
               num_framebuffers_in_buffers :=
                 wrapInt32 (fbs.num_framebuffers_in_buffers - 1) },
             vpu_meta1, ev)
          else (fbs, vpu_meta1, ev)
      else (fbs, vpu_meta, [])
    else (fbs, vpu_meta, [])
  | _, _ => (fbs, vpu_meta, [])

/-- The function `gst_imx_vpu_fb_buffer_pool_release_buffer`: the pool with its
framebuffers structure, the buffer, and the calls made, the last of which is the
parent class's `release_buffer`. `ret` is what `VPU_DecOutFrameDisplayed` returns.
`none`: `g_assert(vpu_pool->framebuffers != NULL)` fails, or the buffer of a
decoder-registered pool has no VPU metadata, which the code dereferences. -/
def gst_imx_vpu_fb_buffer_pool_release_buffer (ret : VpuDecRetCode)
    (pool : GstImxVpuFbBufferPool) (buffer : GstBuffer) :
    Option (GstImxVpuFbBufferPool × GstBuffer × List PoolEvent) :=
  match pool.framebuffers with
  | none => none
  | some fbs =>
    if fbs.registration_state = .GST_IMX_VPU_FRAMEBUFFERS_DECODER_REGISTERED then
      match buffer.vpu_meta with
      | none => none
      | some vpu_meta =>
        let r := release_buffer_clear ret fbs vpu_meta buffer.phys_mem_meta
        let buffer1 : GstBuffer := { buffer with vpu_meta := some r.2.1, memory := [] }
        some ({ pool with framebuffers := some r.1 }, buffer1,
          r.2.2 ++ [.gst_buffer_remove_all_memory, .g_cond_signal, .release_buffer buffer1])
    else some (pool, buffer, [.release_buffer buffer])

/-- The library function `gst_memory_new_wrapped(flags, data, maxsize, offset, size,
NULL, NULL)` as `fb_buffer_pool.c` calls it, with `GST_MEMORY_FLAG_NO_SHARE`: a block
over the given data. -/
def gst_memory_new_wrapped (data maxsize offset size : Nat) : GstMemory :=
  { no_share := true, data := data, maxsize := maxsize, offset := offset, size := size }

/-- The function `gst_imx_vpu_set_buffer_contents`: its result, the buffer, the
framebuffers structure and the calls made. -/
def gst_imx_vpu_set_buffer_contents (buffer : GstBuffer)
    (framebuffers : GstImxVpuFramebuffers) (framebuffer : VpuFrameBuffer) :
    Bool × GstBuffer × GstImxVpuFramebuffers × List PoolEvent :=
  match buffer.video_meta with
  | none => (false, buffer, framebuffers, [])
  | some video_meta =>
    match buffer.vpu_meta with
    | none => (false, buffer, framebuffers, [])
    | some vpu_meta =>
      match buffer.phys_mem_meta with
      | none => (false, buffer, framebuffers, [])
      | some phys_mem_meta =>
        let x_padding : Nat :=
          if framebuffers.pic_width > video_meta.width then
            framebuffers.pic_width - video_meta.width
          else 0
        let y_padding : Nat :=
          if framebuffers.pic_height > video_meta.height then
            framebuffers.pic_height - video_meta.height
          else 0
        let memory := gst_memory_new_wrapped framebuffer.pbufVirtY framebuffers.total_size 0
          framebuffers.total_size
        (true,
          { buffer with
            vpu_meta := some { vpu_meta with framebuffer := some framebuffer }
            phys_mem_meta := some
              { phys_mem_meta with
                phys_addr := framebuffer.pbufY
                x_padding := x_padding
                y_padding := y_padding }
            memory := [memory] },
          { framebuffers with
            num_framebuffers_in_buffers :=
              wrapInt32 (framebuffers.num_framebuffers_in_buffers + 1) },
          [.gst_memory_new_wrapped framebuffer.pbufVirtY framebuffers.total_size 0
             framebuffers.total_size,
           .gst_buffer_remove_all_memory, .gst_buffer_append_memory memory])

/-- The function `gst_imx_vpu_mark_buf_as_not_displayed`; `none` when
`g_assert(vpu_meta != NULL)` fails. -/
def gst_imx_vpu_mark_buf_as_not_displayed (buffer : GstBuffer) : Option GstBuffer :=
  match buffer.vpu_meta with
  | none => none
  | some vpu_meta =>
    some { buffer with vpu_meta := some { vpu_meta with not_displayed_yet := true } }

/-! ### Concrete inputs -/

/-- A decoder-registered framebuffers structure for 640x480 pictures with an open
decoder, two available framebuffers, one of which was taken off the count, and three
framebuffers in buffers. -/
def framebuffers_decoding : GstImxVpuFramebuffers :=
  { registration_state := .GST_IMX_VPU_FRAMEBUFFERS_DECODER_REGISTERED
    handle := 7
    decoder_open := true
    num_available_framebuffers := 2
    decremented_availbuf_counter := 1
    num_framebuffers_in_buffers := 3
    total_size := 460800
    pic_width := 640
    pic_height := 480 }

/-- A framebuffer at physical address 4096, mapped at 8192. -/
def framebuffer_4096 : VpuFrameBuffer :=
  { pbufY := 4096, pbufVirtY := 8192 }

/-- A buffer of the pool, 638x478, that wraps `framebuffer_4096`, not displayed yet. -/
def buffer_decoded : GstBuffer :=
  { video_meta := some { width := 638, height := 478 }
    vpu_meta := some { framebuffer := some framebuffer_4096, not_displayed_yet := true }
    phys_mem_meta := some { phys_addr := 4096, x_padding := 2, y_padding := 2 }
    memory := [gst_memory_new_wrapped 8192 460800 0 460800] }

/-- A fresh buffer of the pool, 638x478, with the three kinds of metadata and a memory
block of its own. -/
def buffer_fresh : GstBuffer :=
  { video_meta := some { width := 638, height := 478 }
    vpu_meta := some { framebuffer := none, not_displayed_yet := false }
    phys_mem_meta := some { phys_addr := 0, x_padding := 0, y_padding := 0 }
    memory := [gst_memory_new_wrapped 12288 100 0 100] }

/-- The pool of `framebuffers_decoding`. -/
def pool_decoding : GstImxVpuFbBufferPool :=
  { framebuffers := some framebuffers_decoding }

/-- The pool of `framebuffers_decoding` with no framebuffer taken off the count. -/
def pool_none_decremented : GstImxVpuFbBufferPool :=
  { framebuffers := some { framebuffers_decoding with decremented_availbuf_counter := 0 } }

/-- The pool of `framebuffers_decoding` after the decoder was closed. -/
def pool_decoder_closed : GstImxVpuFbBufferPool :=
  { framebuffers := some { framebuffers_decoding with decoder_open := false } }

end FbBufferPool


/-! ## Properties of the work-memory allocation -/

theorem wrapInt32_of_range (x : Int) (h0 : -2147483648 ≤ x) (h1 : x < 2147483648) :
    wrapInt32 x = x := by
  unfold wrapInt32
  omega

theorem two_pow_31_le (w : Nat) (hw : 31 ≤ w) : (2147483648 : Int) ≤ 2 ^ w := by
  have h : (2 : Int) ^ 31 ≤ 2 ^ w := pow_le_pow_right₀ (by norm_num) hw
  norm_num at h
  exact h

/-- The address `ALIGN_VAL_TO` computes for a block that lies in the address space. -/
theorem ALIGN_VAL_TO_spec (w raw : Nat) (a s : Int) (ha : 0 < a) (hs : 0 ≤ s)
    (haw : a < 2 ^ w) (hsp : (raw : Int) + (a + s) ≤ 2 ^ w) :
    ∃ addr : Nat, ALIGN_VAL_TO w raw a = some addr ∧ (addr : Int) % a = 0 ∧
      (raw : Int) ≤ addr ∧ (addr : Int) + s ≤ raw + (a + s) := by
  have hd : a % (2 : Int) ^ w = a := Int.emod_eq_of_lt (le_of_lt ha) haw
  have hx0 : (0 : Int) ≤ (raw : Int) + a - 1 := by omega
  have hx1 : (raw : Int) + a - 1 < 2 ^ w := by omega
  have hx : ((raw : Int) + a - 1) % (2 : Int) ^ w = (raw : Int) + a - 1 :=
    Int.emod_eq_of_lt hx0 hx1
  have hq0 : 0 ≤ ((raw : Int) + a - 1) / a * a :=
    Int.mul_nonneg (Int.ediv_nonneg hx0 (le_of_lt ha)) (le_of_lt ha)
  have hqle : ((raw : Int) + a - 1) / a * a ≤ (raw : Int) + a - 1 :=
    Int.ediv_mul_le _ (ne_of_gt ha)
  have hqgt : (raw : Int) + a - 1 < ((raw : Int) + a - 1) / a * a + a := by
    have := Int.lt_ediv_add_one_mul_self ((raw : Int) + a - 1) ha
    linarith
  have hq : (((raw : Int) + a - 1) / a * a) % (2 : Int) ^ w = ((raw : Int) + a - 1) / a * a :=
    Int.emod_eq_of_lt hq0 (by omega)
  refine ⟨(((raw : Int) + a - 1) / a * a).toNat, ?_, ?_, ?_, ?_⟩
  · unfold ALIGN_VAL_TO
    simp only [hd, hx, hq]
    rw [if_neg (ne_of_gt ha)]
  · rw [Int.toNat_of_nonneg hq0]
    exact Int.mul_emod_left _ _
  · rw [Int.toNat_of_nonneg hq0]
    omega
  · rw [Int.toNat_of_nonneg hq0]
    omega

/-- The cases of the loop body of `gst_imx_vpu_base_enc_alloc_enc_mem_blocks`. -/
theorem alloc_enc_mem_block_cases (env : AllocEnv) (i : Nat) (s s' : GstImxVpuBaseEnc)
    (r : Bool) (ev : List Event) (h : alloc_enc_mem_block env i s = some (r, s', ev)) :
    ∃ b, s.mem_info.MemSubBlock[i]? = some b ∧
      ((b.MemType = .VPU_MEM_VIRT ∧
          env.gst_imx_vpu_alloc_virt_mem_block i (wrapInt32 (b.nAlignment + b.nSize)) = none ∧
          r = false ∧ s' = s ∧
          ev = [.gst_imx_vpu_alloc_virt_mem_block (wrapInt32 (b.nAlignment + b.nSize))]) ∨
       (b.MemType = .VPU_MEM_VIRT ∧ ∃ raw addr,
          env.gst_imx_vpu_alloc_virt_mem_block i (wrapInt32 (b.nAlignment + b.nSize)) = some raw ∧
          ALIGN_VAL_TO env.w raw b.nAlignment = some addr ∧ r = true ∧
          s' = { s with
              mem_info := { s.mem_info with
                MemSubBlock := s.mem_info.MemSubBlock.set i { b with pVirtAddr := addr } }
              virt_enc_mem_blocks := s.virt_enc_mem_blocks ++ [raw] } ∧
          ev = [.gst_imx_vpu_alloc_virt_mem_block (wrapInt32 (b.nAlignment + b.nSize))]) ∨
       (b.MemType = .VPU_MEM_PHY ∧
          env.gst_allocator_alloc i
            ((wrapInt32 (b.nAlignment + b.nSize)) % 2 ^ env.w).toNat = none ∧
          r = false ∧ s' = s ∧
          ev = [.gst_allocator_alloc ((wrapInt32 (b.nAlignment + b.nSize)) % 2 ^ env.w).toNat]) ∨
       (b.MemType = .VPU_MEM_PHY ∧ ∃ m vaddr paddr,
          env.gst_allocator_alloc i
            ((wrapInt32 (b.nAlignment + b.nSize)) % 2 ^ env.w).toNat = some m ∧
          ALIGN_VAL_TO env.w m.mapped_virt_addr b.nAlignment = some vaddr ∧
          ALIGN_VAL_TO env.w m.phys_addr b.nAlignment = some paddr ∧ r = true ∧
          s' = { s with
              mem_info := { s.mem_info with
                MemSubBlock := s.mem_info.MemSubBlock.set i
                  { b with pVirtAddr := vaddr, pPhyAddr := paddr } }
              phys_enc_mem_blocks := s.phys_enc_mem_blocks ++ [m] } ∧
          ev = [.gst_allocator_alloc ((wrapInt32 (b.nAlignment + b.nSize)) % 2 ^ env.w).toNat]) ∨
       (∃ v, b.MemType = .other v ∧ r = true ∧ s' = s ∧ ev = [])) := by
  unfold alloc_enc_mem_block at h
  cases hb : s.mem_info.MemSubBlock[i]? with
  | none => simp [hb] at h
  | some b =>
    refine ⟨b, rfl, ?_⟩
    simp only [hb] at h
    cases hty : b.MemType with
    | VPU_MEM_VIRT =>
      simp only [hty] at h
      cases hv : env.gst_imx_vpu_alloc_virt_mem_block i (wrapInt32 (b.nAlignment + b.nSize)) with
      | none =>
        simp only [hv, Option.some.injEq, Prod.mk.injEq] at h
        obtain ⟨h1, h2, h3⟩ := h
        left
        exact ⟨rfl, rfl, h1.symm, h2.symm, h3.symm⟩
      | some raw =>
        simp only [hv] at h
        cases ha : ALIGN_VAL_TO env.w raw b.nAlignment with
        | none => simp [ha] at h
        | some addr =>
          simp only [ha, Option.some.injEq, Prod.mk.injEq,
            gst_imx_vpu_append_virt_mem_block] at h
          obtain ⟨h1, h2, h3⟩ := h
          right; left
          exact ⟨rfl, raw, addr, rfl, ha, h1.symm, h2.symm, h3.symm⟩
    | VPU_MEM_PHY =>
      simp only [hty] at h
      cases hv : env.gst_allocator_alloc i
          ((wrapInt32 (b.nAlignment + b.nSize)) % 2 ^ env.w).toNat with
      | none =>
        simp only [hv, Option.some.injEq, Prod.mk.injEq] at h
        obtain ⟨h1, h2, h3⟩ := h
        right; right; left
        exact ⟨rfl, rfl, h1.symm, h2.symm, h3.symm⟩
      | some m =>
        simp only [hv] at h
        cases ha : ALIGN_VAL_TO env.w m.mapped_virt_addr b.nAlignment with
        | none => simp [ha] at h
        | some vaddr =>
          cases hp : ALIGN_VAL_TO env.w m.phys_addr b.nAlignment with
          | none => simp [ha, hp] at h
          | some paddr =>
            simp only [ha, hp, Option.some.injEq, Prod.mk.injEq,
              gst_imx_vpu_append_phys_mem_block] at h
            obtain ⟨h1, h2, h3⟩ := h
            right; right; right; left
            exact ⟨rfl, m, vaddr, paddr, rfl, ha, hp, h1.symm, h2.symm, h3.symm⟩
    | other v =>
      simp only [hty, Option.some.injEq, Prod.mk.injEq] at h
      obtain ⟨h1, h2, h3⟩ := h
      right; right; right; right
      exact ⟨v, rfl, h1.symm, h2.symm, h3.symm⟩

theorem list_set_self {α : Type} (l : List α) (i : Nat) (b : α) (h : l[i]? = some b) :
    l.set i b = l := by
  apply List.ext_getElem?
  intro j
  by_cases hij : i = j
  · subst hij
    rw [List.getElem?_set_self (List.getElem?_eq_some.mp h).1, h]
  · rw [List.getElem?_set_ne hij]

/-- A successful loop body rewrites entry `i` only, keeps its descriptor fields,
stores the aligned addresses and appends the raw block to its list. -/
theorem alloc_enc_mem_block_true (env : AllocEnv) (i : Nat) (s s' : GstImxVpuBaseEnc)
    (ev : List Event) (h : alloc_enc_mem_block env i s = some (true, s', ev)) :
    ∃ b b', s.mem_info.MemSubBlock[i]? = some b ∧
      s'.mem_info.MemSubBlock = s.mem_info.MemSubBlock.set i b' ∧
      s'.mem_info.nSubBlockNum = s.mem_info.nSubBlockNum ∧
      b'.nAlignment = b.nAlignment ∧ b'.nSize = b.nSize ∧ b'.MemType = b.MemType ∧
      ev = (sub_block_request env.w b).toList ∧
      (b.MemType = .VPU_MEM_VIRT → ∃ raw,
        env.gst_imx_vpu_alloc_virt_mem_block i (wrapInt32 (b.nAlignment + b.nSize)) = some raw ∧
        ALIGN_VAL_TO env.w raw b.nAlignment = some b'.pVirtAddr ∧
        s'.virt_enc_mem_blocks = s.virt_enc_mem_blocks ++ [raw] ∧
        s'.phys_enc_mem_blocks = s.phys_enc_mem_blocks) ∧
      (b.MemType = .VPU_MEM_PHY → ∃ m,
        env.gst_allocator_alloc i
          ((wrapInt32 (b.nAlignment + b.nSize)) % 2 ^ env.w).toNat = some m ∧
        ALIGN_VAL_TO env.w m.mapped_virt_addr b.nAlignment = some b'.pVirtAddr ∧
        ALIGN_VAL_TO env.w m.phys_addr b.nAlignment = some b'.pPhyAddr ∧
        s'.virt_enc_mem_blocks = s.virt_enc_mem_blocks ∧
        s'.phys_enc_mem_blocks = s.phys_enc_mem_blocks ++ [m]) ∧
      ((∃ v, b.MemType = .other v) →
        s'.virt_enc_mem_blocks = s.virt_enc_mem_blocks ∧
        s'.phys_enc_mem_blocks = s.phys_enc_mem_blocks) := by
  obtain ⟨b, hb, hc⟩ := alloc_enc_mem_block_cases env i s s' true ev h
  rcases hc with ⟨_, _, hr, _⟩ | ⟨hty, raw, addr, hv, ha, _, hs, hev⟩ | ⟨_, _, hr, _⟩ |
    ⟨hty, m, vaddr, paddr, hv, ha, hp, _, hs, hev⟩ | ⟨v, hty, _, hs, hev⟩
  · exact absurd hr (by decide)
  · refine ⟨b, { b with pVirtAddr := addr }, hb, ?_, ?_, rfl, rfl, rfl, ?_, ?_, ?_, ?_⟩
    · rw [hs]
    · rw [hs]
    · rw [hev]; simp [sub_block_request, hty]
    · intro _
      exact ⟨raw, hv, ha, by rw [hs], by rw [hs]⟩
    · intro h2; rw [hty] at h2; exact absurd h2 (by decide)
    · rintro ⟨v, h2⟩; rw [hty] at h2; exact absurd h2 (by simp)
  · exact absurd hr (by decide)
  · refine ⟨b, { b with pVirtAddr := vaddr, pPhyAddr := paddr }, hb, ?_, ?_, rfl, rfl, rfl,
      ?_, ?_, ?_, ?_⟩
    · rw [hs]
    · rw [hs]
    · rw [hev]; simp [sub_block_request, hty]
    · intro h2; rw [hty] at h2; exact absurd h2 (by decide)
    · intro _
      exact ⟨m, hv, ha, hp, by rw [hs], by rw [hs]⟩
    · rintro ⟨v, h2⟩; rw [hty] at h2; exact absurd h2 (by simp)
  · refine ⟨b, b, hb, ?_, ?_, rfl, rfl, rfl, ?_, ?_, ?_, ?_⟩
    · rw [hs, list_set_self _ _ _ hb]
    · rw [hs]
    · rw [hev]; simp [sub_block_request, hty]
    · intro h2; rw [hty] at h2; exact absurd h2 (by simp)
    · intro h2; rw [hty] at h2; exact absurd h2 (by simp)
    · intro _
      exact ⟨by rw [hs], by rw [hs]⟩

/-- A failing loop body leaves the session as it is. -/
theorem alloc_enc_mem_block_false (env : AllocEnv) (i : Nat) (s s' : GstImxVpuBaseEnc)
    (ev : List Event) (h : alloc_enc_mem_block env i s = some (false, s', ev)) :
    ∃ b, s.mem_info.MemSubBlock[i]? = some b ∧ s' = s ∧
      ev = (sub_block_request env.w b).toList ∧ ev ≠ [] := by
  obtain ⟨b, hb, hc⟩ := alloc_enc_mem_block_cases env i s s' false ev h
  rcases hc with ⟨hty, _, _, hs, hev⟩ | ⟨_, _, _, _, _, hr, _⟩ | ⟨hty, _, _, hs, hev⟩ |
    ⟨_, _, _, _, _, _, _, hr, _⟩ | ⟨_, _, hr, _⟩
  · exact ⟨b, hb, hs, by rw [hev]; simp [sub_block_request, hty], by rw [hev]; simp⟩
  · exact absurd hr (by decide)
  · exact ⟨b, hb, hs, by rw [hev]; simp [sub_block_request, hty], by rw [hev]; simp⟩
  · exact absurd hr (by decide)
  · exact absurd hr (by decide)

/-- One step of the allocation loop: the body fails, or it succeeds and the loop goes on. -/
theorem alloc_enc_mem_blocks_loop_succ (env : AllocEnv) (n i : Nat) (s s' : GstImxVpuBaseEnc)
    (r : Bool) (ev : List Event)
    (h : alloc_enc_mem_blocks_loop env (n + 1) i s = some (r, s', ev)) :
    (r = false ∧ alloc_enc_mem_block env i s = some (false, s', ev)) ∨
    (∃ s1 ev1 ev2, alloc_enc_mem_block env i s = some (true, s1, ev1) ∧
      alloc_enc_mem_blocks_loop env n (i + 1) s1 = some (r, s', ev2) ∧ ev = ev1 ++ ev2) := by
  rw [alloc_enc_mem_blocks_loop] at h
  cases hbody : alloc_enc_mem_block env i s with
  | none => simp [hbody] at h
  | some res =>
    obtain ⟨r1, s1, ev1⟩ := res
    cases r1 with
    | false =>
      simp only [hbody, Option.some.injEq, Prod.mk.injEq] at h
      obtain ⟨h1, h2, h3⟩ := h
      left
      subst h1 h2 h3
      exact ⟨rfl, rfl⟩
    | true =>
      simp only [hbody] at h
      cases hrest : alloc_enc_mem_blocks_loop env n (i + 1) s1 with
      | none => simp [hrest] at h
      | some res2 =>
        obtain ⟨r2, s2, ev2⟩ := res2
        simp only [hrest, Option.some.injEq, Prod.mk.injEq] at h
        obtain ⟨h1, h2, h3⟩ := h
        right
        subst h1 h2 h3
        exact ⟨s1, ev1, ev2, rfl, hrest, rfl⟩

/-- The allocation loop from index `i` leaves the entries below `i` as they are. -/
theorem alloc_enc_mem_blocks_loop_below (env : AllocEnv) (n : Nat) :
    ∀ (i : Nat) (s s' : GstImxVpuBaseEnc) (r : Bool) (ev : List Event),
      alloc_enc_mem_blocks_loop env n i s = some (r, s', ev) →
      ∀ j, j < i → s'.mem_info.MemSubBlock[j]? = s.mem_info.MemSubBlock[j]? := by
  induction n with
  | zero =>
    intro i s s' r ev h j _
    simp only [alloc_enc_mem_blocks_loop, Option.some.injEq, Prod.mk.injEq] at h
    rw [← h.2.1]
  | succ n ih =>
    intro i s s' r ev h j hj
    rcases alloc_enc_mem_blocks_loop_succ env n i s s' r ev h with ⟨_, hb⟩ | ⟨s1, ev1, ev2, hb, hl, _⟩
    · obtain ⟨_, _, hs, _⟩ := alloc_enc_mem_block_false env i s s' ev hb
      rw [hs]
    · obtain ⟨b, b', _, hset, _⟩ := alloc_enc_mem_block_true env i s s1 ev1 hb
      rw [ih (i + 1) s1 s' r ev2 hl j (by omega), hset,
        List.getElem?_set_ne (by omega)]

/-- After a successful run of the allocation loop from index `i`, every entry in its
range holds the aligned addresses of the block the allocator returned for it. -/
theorem alloc_enc_mem_blocks_loop_stored (env : AllocEnv) (n : Nat) :
    ∀ (i : Nat) (s s' : GstImxVpuBaseEnc) (ev : List Event),
      alloc_enc_mem_blocks_loop env n i s = some (true, s', ev) →
      ∀ j b, i ≤ j → j < i + n → s.mem_info.MemSubBlock[j]? = some b →
      ∃ b', s'.mem_info.MemSubBlock[j]? = some b' ∧
        (b.MemType = .VPU_MEM_VIRT → ∃ raw,
          env.gst_imx_vpu_alloc_virt_mem_block j (wrapInt32 (b.nAlignment + b.nSize)) = some raw ∧
          ALIGN_VAL_TO env.w raw b.nAlignment = some b'.pVirtAddr) ∧
        (b.MemType = .VPU_MEM_PHY → ∃ m,
          env.gst_allocator_alloc j
            ((wrapInt32 (b.nAlignment + b.nSize)) % 2 ^ env.w).toNat = some m ∧
          ALIGN_VAL_TO env.w m.mapped_virt_addr b.nAlignment = some b'.pVirtAddr ∧
          ALIGN_VAL_TO env.w m.phys_addr b.nAlignment = some b'.pPhyAddr) := by
  induction n with
  | zero =>
    intro i s s' ev _ j b h1 h2 _
    omega
  | succ n ih =>
    intro i s s' ev h j b h1 h2 hb
    rcases alloc_enc_mem_blocks_loop_succ env n i s s' true ev h with ⟨hr, _⟩ | ⟨s1, ev1, ev2, hbody, hl, _⟩
    · exact absurd hr (by decide)
    · obtain ⟨b0, b', hb0, hset, _, _, _, _, _, hvirt, hphys, _⟩ :=
        alloc_enc_mem_block_true env i s s1 ev1 hbody
      by_cases hji : j = i
      · subst hji
        rw [hb] at hb0
        cases hb0
        have hlt : j < s.mem_info.MemSubBlock.length := (List.getElem?_eq_some.mp hb).1
        refine ⟨b', ?_, ?_, ?_⟩
        · rw [alloc_enc_mem_blocks_loop_below env n (j + 1) s1 s' true ev2 hl j (by omega), hset,
            List.getElem?_set_self hlt]
        · intro hty
          obtain ⟨raw, hv, ha, _⟩ := hvirt hty
          exact ⟨raw, hv, ha⟩
        · intro hty
          obtain ⟨m, hv, ha, hp, _⟩ := hphys hty
          exact ⟨m, hv, ha, hp⟩
      · have hb1 : s1.mem_info.MemSubBlock[j]? = some b := by
          rw [hset, List.getElem?_set_ne (by omega), hb]
        exact ih (i + 1) s1 s' ev2 hl j b (by omega) (by omega) hb1

/-- C1: for a sub-block descriptor with alignment `a > 0` and size `s >= 0` (with
`a + s` a C `int`), the addresses `gst_imx_vpu_base_enc_alloc_enc_mem_blocks` stores
for the block are multiples of `a`, lie at or after the start `raw` of the raw
allocation, and leave at least `s` of its `a + s` bytes from that address onward.
The allocators return blocks that lie within the address space of `w >= 31` bits. -/
theorem alloc_enc_mem_blocks_aligned (env : AllocEnv) (s s' : GstImxVpuBaseEnc)
    (ev : List Event) (i : Nat) (b : VpuMemSubBlockInfo)
    (hw : 31 ≤ env.w)
    (hvirt : ∀ j sz raw, env.gst_imx_vpu_alloc_virt_mem_block j sz = some raw →
      (raw : Int) + sz ≤ 2 ^ env.w)
    (hphys : ∀ j sz m, env.gst_allocator_alloc j sz = some m →
      m.mapped_virt_addr + sz ≤ 2 ^ env.w ∧ m.phys_addr + sz ≤ 2 ^ env.w)
    (hres : gst_imx_vpu_base_enc_alloc_enc_mem_blocks env s = some (true, s', ev))
    (hi : (i : Int) < s.mem_info.nSubBlockNum)
    (hb : s.mem_info.MemSubBlock[i]? = some b)
    (ha : 0 < b.nAlignment) (hs : 0 ≤ b.nSize)
    (hsum : b.nAlignment + b.nSize < 2147483648) :
    ∃ b', s'.mem_info.MemSubBlock[i]? = some b' ∧
      (b.MemType = .VPU_MEM_VIRT → ∃ raw,
        env.gst_imx_vpu_alloc_virt_mem_block i (b.nAlignment + b.nSize) = some raw ∧
        (b'.pVirtAddr : Int) % b.nAlignment = 0 ∧ (raw : Int) ≤ b'.pVirtAddr ∧
        (b'.pVirtAddr : Int) + b.nSize ≤ raw + (b.nAlignment + b.nSize)) ∧
      (b.MemType = .VPU_MEM_PHY → ∃ m,
        env.gst_allocator_alloc i (b.nAlignment + b.nSize).toNat = some m ∧
        ((b'.pVirtAddr : Int) % b.nAlignment = 0 ∧ (m.mapped_virt_addr : Int) ≤ b'.pVirtAddr ∧
          (b'.pVirtAddr : Int) + b.nSize ≤ m.mapped_virt_addr + (b.nAlignment + b.nSize)) ∧
        ((b'.pPhyAddr : Int) % b.nAlignment = 0 ∧ (m.phys_addr : Int) ≤ b'.pPhyAddr ∧
          (b'.pPhyAddr : Int) + b.nSize ≤ m.phys_addr + (b.nAlignment + b.nSize))) := by
  have h31 := two_pow_31_le env.w hw
  have hwrap : wrapInt32 (b.nAlignment + b.nSize) = b.nAlignment + b.nSize :=
    wrapInt32_of_range _ (by omega) hsum
  have hmod : (b.nAlignment + b.nSize) % (2 : Int) ^ env.w = b.nAlignment + b.nSize :=
    Int.emod_eq_of_lt (by omega) (by omega)
  have haw : b.nAlignment < 2 ^ env.w := by omega
  obtain ⟨b', hb', hv, hp⟩ := alloc_enc_mem_blocks_loop_stored env
    s.mem_info.nSubBlockNum.toNat 0 s s' ev hres i b (Nat.zero_le _) (by omega) hb
  rw [hwrap] at hv
  rw [hwrap, hmod] at hp
  refine ⟨b', hb', ?_, ?_⟩
  · intro hty
    obtain ⟨raw, hraw, halign⟩ := hv hty
    obtain ⟨addr, h1, h2, h3, h4⟩ :=
      ALIGN_VAL_TO_spec env.w raw b.nAlignment b.nSize ha hs haw (hvirt i _ raw hraw)
    rw [halign] at h1
    cases h1
    exact ⟨raw, hraw, h2, h3, h4⟩
  · intro hty
    obtain ⟨m, hm, halignv, halignp⟩ := hp hty
    obtain ⟨hsv, hsp⟩ := hphys i _ m hm
    have hcast : (((b.nAlignment + b.nSize).toNat : Nat) : Int) = b.nAlignment + b.nSize :=
      Int.toNat_of_nonneg (by omega)
    have hsv2 : (m.mapped_virt_addr : Int) + (b.nAlignment + b.nSize) ≤ 2 ^ env.w := by
      rw [← hcast]; exact_mod_cast hsv
    have hsp2 : (m.phys_addr : Int) + (b.nAlignment + b.nSize) ≤ 2 ^ env.w := by
      rw [← hcast]; exact_mod_cast hsp
    obtain ⟨addr, h1, h2, h3, h4⟩ :=
      ALIGN_VAL_TO_spec env.w m.mapped_virt_addr b.nAlignment b.nSize ha hs haw hsv2
    obtain ⟨addr2, g1, g2, g3, g4⟩ :=
      ALIGN_VAL_TO_spec env.w m.phys_addr b.nAlignment b.nSize ha hs haw hsp2
    rw [halignv] at h1
    rw [halignp] at g1
    cases h1
    cases g1
    exact ⟨m, hm, ⟨h2, h3, h4⟩, ⟨g2, g3, g4⟩⟩

theorem env32_virt_in_space (j : Nat) (sz : Int) (raw : Nat)
    (h : env32.gst_imx_vpu_alloc_virt_mem_block j sz = some raw) :
    (raw : Int) + sz ≤ 2 ^ env32.w := by
  simp only [env32] at h ⊢
  split at h
  · cases h
    norm_num
    omega
  · cases h

theorem env32_phys_in_space (j sz : Nat) (m : GstImxPhysMemory)
    (h : env32.gst_allocator_alloc j sz = some m) :
    m.mapped_virt_addr + sz ≤ 2 ^ env32.w ∧ m.phys_addr + sz ≤ 2 ^ env32.w := by
  simp only [env32] at h ⊢
  split at h
  · cases h
    norm_num
    omega
  · cases h

/-- C1 at the physical sub-block of `session_two_blocks` (alignment 4096, size 1000)
allocated in `env32`: the stored addresses are 8192 and 73728. -/
theorem alloc_enc_mem_blocks_aligned_witness :
    gst_imx_vpu_base_enc_alloc_enc_mem_blocks env32 session_two_blocks =
      some (true, session_two_blocks_allocated,
        [.gst_imx_vpu_alloc_virt_mem_block 108, .gst_allocator_alloc 5096]) ∧
    ∃ b', session_two_blocks_allocated.mem_info.MemSubBlock[1]? = some b' ∧
      (block_phys_1000.MemType = .VPU_MEM_VIRT → ∃ raw,
        env32.gst_imx_vpu_alloc_virt_mem_block 1
          (block_phys_1000.nAlignment + block_phys_1000.nSize) = some raw ∧
        (b'.pVirtAddr : Int) % block_phys_1000.nAlignment = 0 ∧ (raw : Int) ≤ b'.pVirtAddr ∧
        (b'.pVirtAddr : Int) + block_phys_1000.nSize ≤
          raw + (block_phys_1000.nAlignment + block_phys_1000.nSize)) ∧
      (block_phys_1000.MemType = .VPU_MEM_PHY → ∃ m,
        env32.gst_allocator_alloc 1
          (block_phys_1000.nAlignment + block_phys_1000.nSize).toNat = some m ∧
        ((b'.pVirtAddr : Int) % block_phys_1000.nAlignment = 0 ∧
          (m.mapped_virt_addr : Int) ≤ b'.pVirtAddr ∧
          (b'.pVirtAddr : Int) + block_phys_1000.nSize ≤
            m.mapped_virt_addr + (block_phys_1000.nAlignment + block_phys_1000.nSize)) ∧
        ((b'.pPhyAddr : Int) % block_phys_1000.nAlignment = 0 ∧
          (m.phys_addr : Int) ≤ b'.pPhyAddr ∧
          (b'.pPhyAddr : Int) + block_phys_1000.nSize ≤
            m.phys_addr + (block_phys_1000.nAlignment + block_phys_1000.nSize))) :=
  ⟨by rfl,
   alloc_enc_mem_blocks_aligned env32 session_two_blocks session_two_blocks_allocated
    [.gst_imx_vpu_alloc_virt_mem_block 108, .gst_allocator_alloc 5096] 1 block_phys_1000
    (by decide) env32_virt_in_space env32_phys_in_space (by rfl) (by decide) (by rfl)
    (by decide) (by decide) (by decide)⟩

theorem filterMap_singleton_toList {α β : Type} (f : α → Option β) (a : α) :
    List.filterMap f [a] = (f a).toList := by
  cases h : f a <;> simp [List.filterMap_cons, h]

theorem filterMap_cons_toList {α β : Type} (f : α → Option β) (a : α) (l : List α) :
    List.filterMap f (a :: l) = (f a).toList ++ List.filterMap f l := by
  cases h : f a <;> simp [List.filterMap_cons, h]

/-- The allocator calls of the allocation loop from index `i`: one per descriptor of
known type, in order, for the first `k` descriptors from `i` on. -/
theorem alloc_enc_mem_blocks_loop_requests (env : AllocEnv) (n : Nat) :
    ∀ (i : Nat) (s s' : GstImxVpuBaseEnc) (r : Bool) (ev : List Event),
      alloc_enc_mem_blocks_loop env n i s = some (r, s', ev) →
      ∃ k, k ≤ n ∧ (r = true → k = n) ∧
        ev = (((s.mem_info.MemSubBlock.drop i).take k).filterMap (sub_block_request env.w)) := by
  induction n with
  | zero =>
    intro i s s' r ev h
    simp only [alloc_enc_mem_blocks_loop, Option.some.injEq, Prod.mk.injEq] at h
    exact ⟨0, le_refl _, fun _ => rfl, by rw [← h.2.2]; simp⟩
  | succ n ih =>
    intro i s s' r ev h
    rcases alloc_enc_mem_blocks_loop_succ env n i s s' r ev h with
      ⟨hr, hb⟩ | ⟨s1, ev1, ev2, hb, hl, hev⟩
    · obtain ⟨b, hget, _, hev, _⟩ := alloc_enc_mem_block_false env i s s' ev hb
      obtain ⟨hlt, hbi⟩ := List.getElem?_eq_some.mp hget
      refine ⟨1, by omega, ?_, ?_⟩
      · intro h2; rw [hr] at h2; exact absurd h2 (by decide)
      · rw [List.drop_eq_getElem_cons hlt, hbi, List.take_succ_cons, List.take_zero,
          filterMap_singleton_toList, hev]
    · obtain ⟨b, b', hget, hset, _, _, _, _, hev1, _⟩ :=
        alloc_enc_mem_block_true env i s s1 ev1 hb
      obtain ⟨hlt, hbi⟩ := List.getElem?_eq_some.mp hget
      obtain ⟨k, hk, hrk, hev2⟩ := ih (i + 1) s1 s' r ev2 hl
      refine ⟨k + 1, by omega, ?_, ?_⟩
      · intro h2; rw [hrk h2]
      · rw [List.drop_eq_getElem_cons hlt, hbi, List.take_succ_cons, filterMap_cons_toList,
          hev, hev1, hev2, hset, List.drop_set_of_lt b' _ (Nat.lt_succ_self i)]

/-- C2 (amended): the bytes `gst_imx_vpu_base_enc_alloc_enc_mem_blocks` asks the
virtual or physical allocator for, for a sub-block descriptor with size `s` and
alignment `a`, are `s + a`: its allocator calls are exactly those of the first `k`
descriptors, one call of `s + a` bytes per descriptor of known type, with `k =
nSubBlockNum` when it returns `TRUE`. -/
theorem alloc_enc_mem_blocks_request_size (env : AllocEnv) (s s' : GstImxVpuBaseEnc)
    (r : Bool) (ev : List Event) (hw : 31 ≤ env.w)
    (hrange : ∀ b ∈ s.mem_info.MemSubBlock,
      0 ≤ b.nAlignment + b.nSize ∧ b.nAlignment + b.nSize < 2147483648)
    (hres : gst_imx_vpu_base_enc_alloc_enc_mem_blocks env s = some (r, s', ev)) :
    ∃ k, k ≤ s.mem_info.nSubBlockNum.toNat ∧
      (r = true → k = s.mem_info.nSubBlockNum.toNat) ∧
      ev = (s.mem_info.MemSubBlock.take k).filterMap sub_block_request_sum := by
  obtain ⟨k, hk, hrk, hev⟩ := alloc_enc_mem_blocks_loop_requests env
    s.mem_info.nSubBlockNum.toNat 0 s s' r ev hres
  refine ⟨k, hk, hrk, ?_⟩
  rw [hev, List.drop_zero]
  apply List.filterMap_congr
  intro b hb
  obtain ⟨h0, h1⟩ := hrange b (List.mem_of_mem_take hb)
  have h31 := two_pow_31_le env.w hw
  have hwrap : wrapInt32 (b.nAlignment + b.nSize) = b.nAlignment + b.nSize :=
    wrapInt32_of_range _ (by omega) h1
  have hmod : (b.nAlignment + b.nSize) % (2 : Int) ^ env.w = b.nAlignment + b.nSize :=
    Int.emod_eq_of_lt h0 (by omega)
  unfold sub_block_request sub_block_request_sum
  rw [hwrap, hmod, add_comm b.nAlignment b.nSize]

theorem session_two_blocks_range : ∀ b ∈ session_two_blocks.mem_info.MemSubBlock,
    0 ≤ b.nAlignment + b.nSize ∧ b.nAlignment + b.nSize < 2147483648 := by
  intro b hb
  simp only [session_two_blocks, List.mem_cons, List.mem_singleton, List.not_mem_nil,
    or_false] at hb
  rcases hb with rfl | rfl <;> decide

/-- C2 (amended) at `session_two_blocks` allocated in `env32`: requests of 108 and
5096 bytes. -/
theorem alloc_enc_mem_blocks_request_size_witness :
    ∃ k, k ≤ session_two_blocks.mem_info.nSubBlockNum.toNat ∧
      (true = true → k = session_two_blocks.mem_info.nSubBlockNum.toNat) ∧
      [Event.gst_imx_vpu_alloc_virt_mem_block 108, Event.gst_allocator_alloc 5096] =
        (session_two_blocks.mem_info.MemSubBlock.take k).filterMap sub_block_request_sum :=
  alloc_enc_mem_blocks_request_size env32 session_two_blocks session_two_blocks_allocated
    true [.gst_imx_vpu_alloc_virt_mem_block 108, .gst_allocator_alloc 5096] (by decide)
    session_two_blocks_range (by rfl)

/-- C2 (as stated, refuted): for the virtual sub-block with size 100 and alignment 8
the allocator is asked for 108 bytes, not `100 + 8 - 1`; for the physical sub-block
with size 1000 and alignment 4096 it is asked for 5096 bytes, not `1000 + 4096 - 1`. -/
theorem alloc_enc_mem_blocks_request_size_counterexample :
    (gst_imx_vpu_base_enc_alloc_enc_mem_blocks env32 session_two_blocks).map
        (fun res => res.2.2) =
      some [.gst_imx_vpu_alloc_virt_mem_block 108, .gst_allocator_alloc 5096] ∧
    (108 : Int) ≠ 100 + 8 - 1 ∧ (5096 : Nat) ≠ 1000 + 4096 - 1 :=
  ⟨by rfl, by decide, by decide⟩

theorem ALIGN_VAL_TO_isSome (w raw : Nat) (a : Int) (h : a % 2 ^ w ≠ 0) :
    ∃ addr, ALIGN_VAL_TO w raw a = some addr := by
  unfold ALIGN_VAL_TO
  simp only
  rw [if_neg h]
  exact ⟨_, rfl⟩

/-- The loop body succeeds on a sub-block that passes. -/
theorem alloc_enc_mem_block_of_passes (env : AllocEnv) (i : Nat) (s : GstImxVpuBaseEnc)
    (b : VpuMemSubBlockInfo) (hb : s.mem_info.MemSubBlock[i]? = some b)
    (hp : alloc_passes env i b = true) :
    ∃ s1 ev1, alloc_enc_mem_block env i s = some (true, s1, ev1) := by
  unfold alloc_passes at hp
  unfold alloc_enc_mem_block
  simp only [hb]
  cases hty : b.MemType with
  | VPU_MEM_VIRT =>
    simp only [hty, Bool.and_eq_true, decide_eq_true_eq] at hp ⊢
    obtain ⟨h1, h2⟩ := hp
    obtain ⟨raw, hraw⟩ := Option.isSome_iff_exists.mp h1
    obtain ⟨addr, haddr⟩ := ALIGN_VAL_TO_isSome env.w raw b.nAlignment h2
    simp only [hraw, haddr]
    exact ⟨_, _, rfl⟩
  | VPU_MEM_PHY =>
    simp only [hty, Bool.and_eq_true, decide_eq_true_eq] at hp ⊢
    obtain ⟨h1, h2⟩ := hp
    obtain ⟨m, hm⟩ := Option.isSome_iff_exists.mp h1
    obtain ⟨a1, ha1⟩ := ALIGN_VAL_TO_isSome env.w m.mapped_virt_addr b.nAlignment h2
    obtain ⟨a2, ha2⟩ := ALIGN_VAL_TO_isSome env.w m.phys_addr b.nAlignment h2
    simp only [hm, ha1, ha2]
    exact ⟨_, _, rfl⟩
  | other v =>
    exact ⟨_, _, rfl⟩

/-- The loop body returns `FALSE` on a sub-block whose allocation fails, and leaves
the session as it is. -/
theorem alloc_enc_mem_block_of_fails (env : AllocEnv) (i : Nat) (s : GstImxVpuBaseEnc)
    (b : VpuMemSubBlockInfo) (hb : s.mem_info.MemSubBlock[i]? = some b)
    (hf : alloc_fails env i b = true) :
    ∃ ev1, alloc_enc_mem_block env i s = some (false, s, ev1) := by
  unfold alloc_fails at hf
  unfold alloc_enc_mem_block
  simp only [hb]
  cases hty : b.MemType with
  | VPU_MEM_VIRT =>
    simp only [hty, Option.isNone_iff_eq_none] at hf ⊢
    simp only [hf]
    exact ⟨_, rfl⟩
  | VPU_MEM_PHY =>
    simp only [hty, Option.isNone_iff_eq_none] at hf ⊢
    simp only [hf]
    exact ⟨_, rfl⟩
  | other v =>
    simp [hty] at hf

/-- The allocation loop when sub-block `i + k` is the first whose allocation fails:
it returns `FALSE`, and every block that was on a list before or was allocated for
an earlier sub-block is on its list afterwards. -/
theorem alloc_enc_mem_blocks_loop_fails (env : AllocEnv) (k : Nat) :
    ∀ (n i : Nat) (s : GstImxVpuBaseEnc), k < n →
      (∀ j, j < k → ∃ b, s.mem_info.MemSubBlock[i + j]? = some b ∧
        alloc_passes env (i + j) b = true) →
      ∀ bk, s.mem_info.MemSubBlock[i + k]? = some bk → alloc_fails env (i + k) bk = true →
      ∃ s' ev, alloc_enc_mem_blocks_loop env n i s = some (false, s', ev) ∧
        (∀ p ∈ s.virt_enc_mem_blocks, p ∈ s'.virt_enc_mem_blocks) ∧
        (∀ m ∈ s.phys_enc_mem_blocks, m ∈ s'.phys_enc_mem_blocks) ∧
        (∀ j b raw, j < k → s.mem_info.MemSubBlock[i + j]? = some b →
          b.MemType = .VPU_MEM_VIRT →
          env.gst_imx_vpu_alloc_virt_mem_block (i + j) (wrapInt32 (b.nAlignment + b.nSize)) =
            some raw →
          raw ∈ s'.virt_enc_mem_blocks) ∧
        (∀ j b m, j < k → s.mem_info.MemSubBlock[i + j]? = some b →
          b.MemType = .VPU_MEM_PHY →
          env.gst_allocator_alloc (i + j)
            ((wrapInt32 (b.nAlignment + b.nSize)) % 2 ^ env.w).toNat = some m →
          m ∈ s'.phys_enc_mem_blocks) := by
  induction k with
  | zero =>
    intro n i s hn _ bk hbk hf
    obtain ⟨n', rfl⟩ : ∃ n', n = n' + 1 := ⟨n - 1, by omega⟩
    obtain ⟨ev1, hbody⟩ := alloc_enc_mem_block_of_fails env i s bk hbk hf
    refine ⟨s, ev1, ?_, fun p hp => hp, fun m hm => hm, ?_, ?_⟩
    · rw [alloc_enc_mem_blocks_loop, hbody]
    · intro j b raw hj
      omega
    · intro j b m hj
      omega
  | succ k ih =>
    intro n i s hn hpass bk hbk hf
    obtain ⟨n', rfl⟩ : ∃ n', n = n' + 1 := ⟨n - 1, by omega⟩
    obtain ⟨b0, hb0, hp0⟩ := hpass 0 (by omega)
    obtain ⟨s1, ev1, hbody⟩ := alloc_enc_mem_block_of_passes env i s b0 hb0 hp0
    obtain ⟨b, b', hget, hset, _, _, _, _, _, hvirt, hphys, hother⟩ :=
      alloc_enc_mem_block_true env i s s1 ev1 hbody
    have hsame : ∀ j, s1.mem_info.MemSubBlock[i + 1 + j]? = s.mem_info.MemSubBlock[i + (j + 1)]? := by
      intro j
      rw [hset, List.getElem?_set_ne (by omega)]
      congr 1
      omega
    have hpass1 : ∀ j, j < k → ∃ b, s1.mem_info.MemSubBlock[i + 1 + j]? = some b ∧
        alloc_passes env (i + 1 + j) b = true := by
      intro j hj
      obtain ⟨bj, h1, h2⟩ := hpass (j + 1) (by omega)
      refine ⟨bj, by rw [hsame, h1], ?_⟩
      have : i + 1 + j = i + (j + 1) := by omega
      rw [this]
      exact h2
    have hbk1 : s1.mem_info.MemSubBlock[i + 1 + k]? = some bk := by rw [hsame, hbk]
    have hf1 : alloc_fails env (i + 1 + k) bk = true := by
      have : i + 1 + k = i + (k + 1) := by omega
      rw [this]
      exact hf
    obtain ⟨s', ev2, hloop, hv, hp, hnewv, hnewp⟩ :=
      ih n' (i + 1) s1 (by omega) hpass1 bk hbk1 hf1
    have hv1 : ∀ p ∈ s.virt_enc_mem_blocks, p ∈ s1.virt_enc_mem_blocks := by
      intro p hp
      cases hty : b.MemType with
      | VPU_MEM_VIRT =>
        obtain ⟨raw, _, _, h1, _⟩ := hvirt hty
        rw [h1]
        exact List.mem_append_left _ hp
      | VPU_MEM_PHY =>
        obtain ⟨m, _, _, _, h1, _⟩ := hphys hty
        rw [h1]
        exact hp
      | other v =>
        rw [(hother ⟨v, hty⟩).1]
        exact hp
    have hp1 : ∀ m ∈ s.phys_enc_mem_blocks, m ∈ s1.phys_enc_mem_blocks := by
      intro p hp
      cases hty : b.MemType with
      | VPU_MEM_VIRT =>
        obtain ⟨raw, _, _, _, h1⟩ := hvirt hty
        rw [h1]
        exact hp
      | VPU_MEM_PHY =>
        obtain ⟨m, _, _, _, _, h1⟩ := hphys hty
        rw [h1]
        exact List.mem_append_left _ hp
      | other v =>
        rw [(hother ⟨v, hty⟩).2]
        exact hp
    refine ⟨s', ev1 ++ ev2, ?_, fun p hp => hv p (hv1 p hp), fun m hm => hp m (hp1 m hm), ?_, ?_⟩
    · rw [alloc_enc_mem_blocks_loop, hbody]
      simp only [hloop]
    · intro j bj raw hj hbj hty hraw
      cases j with
      | zero =>
        rw [Nat.add_zero] at hbj hraw
        rw [hget] at hbj
        cases hbj
        obtain ⟨raw1, h1, _, h2, _⟩ := hvirt hty
        rw [hraw] at h1
        cases h1
        apply hv
        rw [h2]
        exact List.mem_append_right _ (List.mem_singleton_self _)
      | succ j =>
        have hidx : i + 1 + j = i + (j + 1) := by omega
        exact hnewv j bj raw (by omega) (by rw [hsame, hbj]) hty (by rw [hidx]; exact hraw)
    · intro j bj m hj hbj hty hm
      cases j with
      | zero =>
        rw [Nat.add_zero] at hbj hm
        rw [hget] at hbj
        cases hbj
        obtain ⟨m1, h1, _, _, _, h2⟩ := hphys hty
        rw [hm] at h1
        cases h1
        apply hp
        rw [h2]
        exact List.mem_append_right _ (List.mem_singleton_self _)
      | succ j =>
        have hidx : i + 1 + j = i + (j + 1) := by omega
        exact hnewp j bj m (by omega) (by rw [hsame, hbj]) hty (by rw [hidx]; exact hm)

/-! ## Properties of start, stop and the instance counter -/

/-- The calls `gst_imx_vpu_base_enc_load` makes are load, version and unload calls. -/
theorem load_events (env : LoadEnv) (c : Int) :
    ∀ e ∈ (gst_imx_vpu_base_enc_load env c).2.2,
      e = .VPU_EncLoad ∨ e = .VPU_EncGetVersionInfo ∨ e = .VPU_EncGetWrapperVersionInfo ∨
        e = .VPU_EncUnLoad := by
  intro e he
  unfold gst_imx_vpu_base_enc_load at he
  split_ifs at he <;> simp at he <;> tauto

/-- C3 (amended): if the allocation of a sub-block fails during `start()` (sub-block
`k` is the first whose allocation fails), `start()` returns `FALSE` without any
rollback: it calls neither list free, and every block that was on a list before or
was allocated for an earlier sub-block is still on its list when `start()` returns. -/
theorem start_alloc_failure_no_rollback (env : StartEnv) (s : GstImxVpuBaseEnc) (c : Int)
    (k : Nat) (bk : VpuMemSubBlockInfo)
    (hload : (gst_imx_vpu_base_enc_load env.load c).1 = true)
    (hquery : env.VPU_EncQueryMem.1 = .VPU_ENC_RET_SUCCESS)
    (hk : (k : Int) < env.VPU_EncQueryMem.2.nSubBlockNum)
    (hbefore : ∀ j, j < k → ∃ b, env.VPU_EncQueryMem.2.MemSubBlock[j]? = some b ∧
      alloc_passes env.alloc j b = true)
    (hbk : env.VPU_EncQueryMem.2.MemSubBlock[k]? = some bk)
    (hfail : alloc_fails env.alloc k bk = true) :
    ∃ s' c' ev, gst_imx_vpu_base_enc_start env s c = some (false, s', c', ev) ∧
      (∀ l, Event.gst_imx_vpu_free_virt_mem_blocks l ∉ ev) ∧
      (∀ l, Event.gst_imx_vpu_free_phys_mem_blocks l ∉ ev) ∧
      (∀ p ∈ s.virt_enc_mem_blocks, p ∈ s'.virt_enc_mem_blocks) ∧
      (∀ m ∈ s.phys_enc_mem_blocks, m ∈ s'.phys_enc_mem_blocks) ∧
      (∀ j b raw, j < k → env.VPU_EncQueryMem.2.MemSubBlock[j]? = some b →
        b.MemType = .VPU_MEM_VIRT →
        env.alloc.gst_imx_vpu_alloc_virt_mem_block j (wrapInt32 (b.nAlignment + b.nSize)) =
          some raw →
        raw ∈ s'.virt_enc_mem_blocks) ∧
      (∀ j b m, j < k → env.VPU_EncQueryMem.2.MemSubBlock[j]? = some b →
        b.MemType = .VPU_MEM_PHY →
        env.alloc.gst_allocator_alloc j
          ((wrapInt32 (b.nAlignment + b.nSize)) % 2 ^ env.alloc.w).toNat = some m →
        m ∈ s'.phys_enc_mem_blocks) := by
  obtain ⟨s', ev2, hloop, hv, hp, hnewv, hnewp⟩ :=
    alloc_enc_mem_blocks_loop_fails env.alloc k env.VPU_EncQueryMem.2.nSubBlockNum.toNat 0
      { s with mem_info := env.VPU_EncQueryMem.2 } (by omega)
      (by intro j hj; rw [Nat.zero_add]; exact hbefore j hj) bk
      (by rw [Nat.zero_add]; exact hbk) (by rw [Nat.zero_add]; exact hfail)
  obtain ⟨k2, _, _, hev2⟩ := alloc_enc_mem_blocks_loop_requests env.alloc _ 0 _ s' false ev2 hloop
  have hevl := load_events env.load c
  have hev2mem : ∀ e ∈ ev2, ∃ b, sub_block_request env.alloc.w b = some e := by
    intro e he
    rw [hev2] at he
    obtain ⟨b, _, hb⟩ := List.mem_filterMap.mp he
    exact ⟨b, hb⟩
  have hnofree : ∀ e ∈ ev2, (∀ l, e ≠ Event.gst_imx_vpu_free_virt_mem_blocks l) ∧
      (∀ l, e ≠ Event.gst_imx_vpu_free_phys_mem_blocks l) := by
    intro e he
    obtain ⟨b, hb⟩ := hev2mem e he
    unfold sub_block_request at hb
    split at hb <;> simp at hb <;> subst hb <;> simp
  rcases hres : gst_imx_vpu_base_enc_load env.load c with ⟨ok, c1, ev1⟩
  rw [hres] at hload hevl
  simp only at hload hevl
  subst hload
  refine ⟨s', c1, ev1 ++ [.VPU_EncQueryMem] ++ ev2, ?_, ?_, ?_, hv, hp, ?_, ?_⟩
  · unfold gst_imx_vpu_base_enc_start
    simp only [hres, hquery, ne_eq, not_true_eq_false, if_false,
      gst_imx_vpu_base_enc_alloc_enc_mem_blocks, hloop]
  · intro l hmem
    simp only [List.mem_append, List.mem_singleton] at hmem
    rcases hmem with (h1 | h1) | h1
    · rcases hevl _ h1 with h | h | h | h <;> cases h
    · cases h1
    · exact (hnofree _ h1).1 l rfl
  · intro l hmem
    simp only [List.mem_append, List.mem_singleton] at hmem
    rcases hmem with (h1 | h1) | h1
    · rcases hevl _ h1 with h | h | h | h <;> cases h
    · cases h1
    · exact (hnofree _ h1).2 l rfl
  · intro j b raw hj hb hty hraw
    exact hnewv j b raw hj (by rw [Nat.zero_add]; exact hb) hty (by rw [Nat.zero_add]; exact hraw)
  · intro j b m hj hb hty hm
    exact hnewp j b m hj (by rw [Nat.zero_add]; exact hb) hty (by rw [Nat.zero_add]; exact hm)

/-- C3 (amended) at a `start()` whose virtual allocation succeeds and whose physical
allocation, for sub-block 1, fails. -/
theorem start_alloc_failure_no_rollback_witness :
    ∃ s' c' ev, gst_imx_vpu_base_enc_start start_env_phys_fails gst_imx_vpu_base_enc_init 0 =
        some (false, s', c', ev) ∧
      (∀ l, Event.gst_imx_vpu_free_virt_mem_blocks l ∉ ev) ∧
      (∀ l, Event.gst_imx_vpu_free_phys_mem_blocks l ∉ ev) ∧
      (∀ p ∈ gst_imx_vpu_base_enc_init.virt_enc_mem_blocks, p ∈ s'.virt_enc_mem_blocks) ∧
      (∀ m ∈ gst_imx_vpu_base_enc_init.phys_enc_mem_blocks, m ∈ s'.phys_enc_mem_blocks) ∧
      (∀ j b raw, j < 1 → start_env_phys_fails.VPU_EncQueryMem.2.MemSubBlock[j]? = some b →
        b.MemType = .VPU_MEM_VIRT →
        start_env_phys_fails.alloc.gst_imx_vpu_alloc_virt_mem_block j
          (wrapInt32 (b.nAlignment + b.nSize)) = some raw →
        raw ∈ s'.virt_enc_mem_blocks) ∧
      (∀ j b m, j < 1 → start_env_phys_fails.VPU_EncQueryMem.2.MemSubBlock[j]? = some b →
        b.MemType = .VPU_MEM_PHY →
        start_env_phys_fails.alloc.gst_allocator_alloc j
          ((wrapInt32 (b.nAlignment + b.nSize)) % 2 ^ start_env_phys_fails.alloc.w).toNat =
            some m →
        m ∈ s'.phys_enc_mem_blocks) :=
  start_alloc_failure_no_rollback start_env_phys_fails gst_imx_vpu_base_enc_init 0 1
    block_phys_1000 (by rfl) (by rfl) (by decide)
    (by
      intro j hj
      obtain rfl : j = 0 := by omega
      exact ⟨_, rfl, by rfl⟩)
    (by rfl) (by rfl)

/-- C3 (as stated, refuted): with a virtual sub-block whose allocation succeeds and a
physical sub-block whose allocation fails, `start()` returns `FALSE` with the
virtual block 1001 still on the virtual-only list, and no free call among its calls. -/
theorem start_rollback_counterexample :
    (gst_imx_vpu_base_enc_start start_env_phys_fails gst_imx_vpu_base_enc_init 0).map
        (fun res => (res.1, res.2.1.virt_enc_mem_blocks, res.2.1.phys_enc_mem_blocks,
          res.2.2.2)) =
      some (false, [1001], [],
        [.VPU_EncLoad, .VPU_EncGetVersionInfo, .VPU_EncGetWrapperVersionInfo, .VPU_EncQueryMem,
         .gst_imx_vpu_alloc_virt_mem_block 108, .gst_allocator_alloc 5096]) := by
  rfl

/-- C4: `gst_imx_vpu_base_enc_free_enc_mem_blocks` calls the virtual-list free and then
the physical-list free, whatever the first returns, and its result is `TRUE` exactly
when both individual results are `TRUE`. -/
theorem free_enc_mem_blocks_both (env : FreeEnv) (s : GstImxVpuBaseEnc) :
    (gst_imx_vpu_base_enc_free_enc_mem_blocks env s).2.2 =
      [.gst_imx_vpu_free_virt_mem_blocks s.virt_enc_mem_blocks,
       .gst_imx_vpu_free_phys_mem_blocks s.phys_enc_mem_blocks] ∧
    ((gst_imx_vpu_base_enc_free_enc_mem_blocks env s).1 = true ↔
      (gst_imx_vpu_free_virt_mem_blocks env.virt_free_ok s.virt_enc_mem_blocks).1 = true ∧
      (gst_imx_vpu_free_phys_mem_blocks env.phys_free_ok s.phys_enc_mem_blocks).1 = true) := by
  unfold gst_imx_vpu_base_enc_free_enc_mem_blocks
  simp [gst_imx_vpu_free_virt_mem_blocks, gst_imx_vpu_free_phys_mem_blocks]

theorem load_step_spec (c : LoadCall) (k : Int) (hc : c.succeeds = true)
    (hk0 : -2147483648 ≤ k) (hk1 : k < 2147483648) :
    (-2147483648 ≤ (c.step k).after ∧ (c.step k).after < 2147483648) ∧
    ((c.step k).events.count .VPU_EncLoad =
      if c.isLoad = true ∧ (c.step k).before = 0 ∧ (c.step k).after = 1 then 1 else 0) ∧
    ((c.step k).events.count .VPU_EncUnLoad =
      if c.isLoad = false ∧ (c.step k).before = 1 ∧ (c.step k).after = 0 then 1 else 0) := by
  cases c with
  | load env =>
    simp only [LoadCall.succeeds, Bool.and_eq_true, decide_eq_true_eq] at hc
    obtain ⟨⟨h1, h2⟩, h3⟩ := hc
    simp only [LoadCall.step, LoadCall.isLoad, gst_imx_vpu_base_enc_load, h1, h2, h3]
    by_cases hk : k = 0
    · subst hk
      simp [wrapInt32]
    · simp [hk, wrapInt32]
      omega
  | unload r =>
    simp only [LoadCall.step, LoadCall.isLoad, gst_imx_vpu_base_enc_unload]
    by_cases hpos : k > 0
    · by_cases hz : wrapInt32 (k - 1) = 0
      · have hk : k = 1 := by unfold wrapInt32 at hz; omega
        subst hk
        cases r <;> simp [wrapInt32]
      · have hk : k ≠ 1 := by
          intro h; subst h; exact hz (by simp [wrapInt32])
        simp only [hpos, hz, if_true, if_false]
        refine ⟨?_, by simp, by simp [hk]⟩
        unfold wrapInt32
        omega
    · simp only [hpos, if_false]
      refine ⟨⟨hk0, hk1⟩, by simp, ?_⟩
      have hk : k ≠ 1 := by omega
      simp [hk]

theorem load_steps_spec (calls : List LoadCall) :
    ∀ (k : Int), (∀ c ∈ calls, c.succeeds = true) → -2147483648 ≤ k → k < 2147483648 →
    ∀ st ∈ load_steps calls k,
      (st.events.count .VPU_EncLoad =
        if st.call.isLoad = true ∧ st.before = 0 ∧ st.after = 1 then 1 else 0) ∧
      (st.events.count .VPU_EncUnLoad =
        if st.call.isLoad = false ∧ st.before = 1 ∧ st.after = 0 then 1 else 0) := by
  induction calls with
  | nil =>
    intro k _ _ _ st hst
    simp [load_steps] at hst
  | cons c cs ih =>
    intro k hok hk0 hk1 st hst
    have hc := hok c (List.mem_cons_self _ _)
    obtain ⟨hrange, hl, hu⟩ := load_step_spec c k hc hk0 hk1
    simp only [load_steps, List.mem_cons] at hst
    rcases hst with rfl | hst
    · have hcall : (c.step k).call = c := by cases c <;> rfl
      rw [hcall]
      exact ⟨hl, hu⟩
    · exact ih (c.step k).after (fun c2 h2 => hok c2 (List.mem_cons_of_mem _ h2))
        hrange.1 hrange.2 st hst

/-- C5: in every sequence of `gst_imx_vpu_base_enc_load` and
`gst_imx_vpu_base_enc_unload` calls from `inst_counter = 0` whose hardware calls
succeed, `VPU_EncLoad` is called once by each load call that moves the counter from 0
to 1 and by no other call, and `VPU_EncUnLoad` once by each unload call that moves it
from 1 to 0 and by no other call; for load, load, unload, unload the counter goes 0,
1, 2, 1, 0 and each of the two is called exactly once. -/
theorem load_unload_once (calls : List LoadCall) (e1 e2 : LoadEnv) (r1 r2 : VpuEncRetCode)
    (hok : ∀ c ∈ calls, c.succeeds = true)
    (h1 : (LoadCall.load e1).succeeds = true) (h2 : (LoadCall.load e2).succeeds = true) :
    (∀ st ∈ load_steps calls 0,
      (st.events.count .VPU_EncLoad =
        if st.call.isLoad = true ∧ st.before = 0 ∧ st.after = 1 then 1 else 0) ∧
      (st.events.count .VPU_EncUnLoad =
        if st.call.isLoad = false ∧ st.before = 1 ∧ st.after = 0 then 1 else 0)) ∧
    ((load_steps [.load e1, .load e2, .unload r1, .unload r2] 0).map
        (fun st => (st.before, st.after)) = [(0, 1), (1, 2), (2, 1), (1, 0)] ∧
      (steps_events (load_steps [.load e1, .load e2, .unload r1, .unload r2] 0)).count
        .VPU_EncLoad = 1 ∧
      (steps_events (load_steps [.load e1, .load e2, .unload r1, .unload r2] 0)).count
        .VPU_EncUnLoad = 1) := by
  refine ⟨load_steps_spec calls 0 hok (by decide) (by decide), ?_⟩
  simp only [LoadCall.succeeds, Bool.and_eq_true, decide_eq_true_eq] at h1 h2
  obtain ⟨⟨a1, a2⟩, a3⟩ := h1
  obtain ⟨⟨b1, b2⟩, b3⟩ := h2
  cases r1 <;> cases r2 <;>
    simp [load_steps, steps_events, LoadCall.step, gst_imx_vpu_base_enc_load,
      gst_imx_vpu_base_enc_unload, wrapInt32, a1, a2, a3, b1, b2, b3]

/-- C5 at the calls of two sessions that start and then stop. -/
theorem load_unload_once_witness :
    (∀ st ∈ load_steps two_sessions 0,
      (st.events.count .VPU_EncLoad =
        if st.call.isLoad = true ∧ st.before = 0 ∧ st.after = 1 then 1 else 0) ∧
      (st.events.count .VPU_EncUnLoad =
        if st.call.isLoad = false ∧ st.before = 1 ∧ st.after = 0 then 1 else 0)) ∧
    ((load_steps two_sessions 0).map
        (fun st => (st.before, st.after)) = [(0, 1), (1, 2), (2, 1), (1, 0)] ∧
      (steps_events (load_steps two_sessions 0)).count .VPU_EncLoad = 1 ∧
      (steps_events (load_steps two_sessions 0)).count .VPU_EncUnLoad = 1) :=
  load_unload_once two_sessions load_env_ok load_env_ok .VPU_ENC_RET_SUCCESS
    .VPU_ENC_RET_SUCCESS
    (by
      intro c hc
      simp only [two_sessions, List.mem_cons, List.mem_singleton, List.not_mem_nil,
        or_false] at hc
      rcases hc with rfl | rfl | rfl | rfl <;> rfl)
    (by rfl) (by rfl)

/-- C7: `gst_imx_vpu_base_enc_close_encoder` is idempotent: applied to the session it
left, it leaves that session as it is and makes no call at all (no `VPU_EncClose`, no
buffer, pool or memory release); and the number of `VPU_EncClose` calls of one
application is 1 on an opened session and 0 on a session that is not opened. -/
theorem close_encoder_idempotent (r1 r2 : VpuEncRetCode) (s : GstImxVpuBaseEnc) :
    gst_imx_vpu_base_enc_close_encoder r2 (gst_imx_vpu_base_enc_close_encoder r1 s).1 =
      ((gst_imx_vpu_base_enc_close_encoder r1 s).1, []) ∧
    closes (gst_imx_vpu_base_enc_close_encoder r1 s).2 =
      (if s.vpu_inst_opened = true then 1 else 0) := by
  obtain ⟨opened, handle, mem_info, open_param, init_info, out, fbs, pool, ib, virt, phys,
    info, gop, bitrate, slice, intra⟩ := s
  cases opened <;> cases out <;> cases pool <;> cases ib <;> cases r1 <;> cases r2 <;>
    simp [gst_imx_vpu_base_enc_close_encoder, closes, List.countP_cons, Event.is_close]

/-- The session `gst_imx_vpu_base_enc_close_encoder` leaves is closed and holds no
internal input buffer, no internal bufferpool and no physical output buffer. -/
theorem close_encoder_closed (r : VpuEncRetCode) (s : GstImxVpuBaseEnc) :
    (gst_imx_vpu_base_enc_close_encoder r s).1 =
      { s with
        vpu_inst_opened := false
        internal_input_buffer := none
        internal_bufferpool := none
        output_phys_buffer := none } := by
  obtain ⟨opened, handle, mem_info, open_param, init_info, out, fbs, pool, ib, virt, phys,
    info, gop, bitrate, slice, intra⟩ := s
  cases opened <;> cases r <;> simp [gst_imx_vpu_base_enc_close_encoder]

/-- The session `gst_imx_vpu_base_enc_stop` leaves. -/
theorem stop_session (env : StopEnv) (s : GstImxVpuBaseEnc) (c : Int) :
    (gst_imx_vpu_base_enc_stop env s c).2.1 =
      { s with
        vpu_inst_opened := false
        framebuffers := none
        internal_input_buffer := none
        internal_bufferpool := none
        output_phys_buffer := none
        virt_enc_mem_blocks := []
        phys_enc_mem_blocks := [] } := by
  simp [gst_imx_vpu_base_enc_stop, close_encoder_closed,
    gst_imx_vpu_base_enc_free_enc_mem_blocks, gst_imx_vpu_free_virt_mem_blocks,
    gst_imx_vpu_free_phys_mem_blocks]

/-- The calls of `gst_imx_vpu_base_enc_stop` on a session that a `stop()` left. -/
theorem stop_events_after_stop (env1 env2 : StopEnv) (s : GstImxVpuBaseEnc) (c1 c2 : Int) :
    (gst_imx_vpu_base_enc_stop env2 (gst_imx_vpu_base_enc_stop env1 s c1).2.1 c2).2.2.2 =
      [.gst_imx_vpu_free_virt_mem_blocks [], .gst_imx_vpu_free_phys_mem_blocks []] ++
        (gst_imx_vpu_base_enc_unload env2.VPU_EncUnLoad c2).2 := by
  rw [stop_session]
  simp [gst_imx_vpu_base_enc_stop, gst_imx_vpu_base_enc_close_encoder,
    gst_imx_vpu_base_enc_free_enc_mem_blocks, gst_imx_vpu_free_virt_mem_blocks,
    gst_imx_vpu_free_phys_mem_blocks]

theorem unload_counter (r : VpuEncRetCode) (c : Int) :
    (gst_imx_vpu_base_enc_unload r c).1 = if c > 0 then wrapInt32 (c - 1) else c := by
  unfold gst_imx_vpu_base_enc_unload
  by_cases h : c > 0
  · by_cases hz : wrapInt32 (c - 1) = 0
    · cases r <;> simp [h, hz]
    · simp [h, hz]
  · simp [h]

theorem unload_events (r : VpuEncRetCode) (c : Int) :
    (gst_imx_vpu_base_enc_unload r c).2 =
      if c > 0 ∧ wrapInt32 (c - 1) = 0 then [.VPU_EncUnLoad] else [] := by
  unfold gst_imx_vpu_base_enc_unload
  by_cases h : c > 0
  · by_cases hz : wrapInt32 (c - 1) = 0
    · cases r <;> simp [h, hz]
    · simp [h, hz]
  · simp [h]

/-- C6 (amended): a second `stop()` right after a first one leaves the session as it
is, frees no memory block (both free calls get empty lists) and closes no handle;
it leaves `inst_counter` unchanged exactly when `inst_counter` was at most 1 before
the first `stop()`, and it calls `VPU_EncUnLoad` exactly when `inst_counter` was 2
before the first `stop()`. -/
theorem stop_twice (env1 env2 : StopEnv) (s : GstImxVpuBaseEnc) (c : Int)
    (hc0 : -2147483648 ≤ c) (hc1 : c < 2147483648) :
    (gst_imx_vpu_base_enc_stop env2 (gst_imx_vpu_base_enc_stop env1 s c).2.1
        (gst_imx_vpu_base_enc_stop env1 s c).2.2.1).2.1 =
      (gst_imx_vpu_base_enc_stop env1 s c).2.1 ∧
    (gst_imx_vpu_base_enc_stop env2 (gst_imx_vpu_base_enc_stop env1 s c).2.1
        (gst_imx_vpu_base_enc_stop env1 s c).2.2.1).2.2.2 =
      [.gst_imx_vpu_free_virt_mem_blocks [], .gst_imx_vpu_free_phys_mem_blocks []] ++
        (if c = 2 then [.VPU_EncUnLoad] else []) ∧
    ((gst_imx_vpu_base_enc_stop env2 (gst_imx_vpu_base_enc_stop env1 s c).2.1
        (gst_imx_vpu_base_enc_stop env1 s c).2.2.1).2.2.1 =
      (gst_imx_vpu_base_enc_stop env1 s c).2.2.1 ↔ c ≤ 1) := by
  have hcnt : ∀ (env : StopEnv) (s : GstImxVpuBaseEnc) (c : Int),
      (gst_imx_vpu_base_enc_stop env s c).2.2.1 =
        (gst_imx_vpu_base_enc_unload env.VPU_EncUnLoad c).1 := fun _ _ _ => rfl
  refine ⟨?_, ?_, ?_⟩
  · simp only [stop_session]
  · rw [stop_events_after_stop, hcnt, unload_counter, unload_events]
    congr 1
    by_cases h : c > 0
    · rw [if_pos h]
      by_cases h2 : c = 2
      · subst h2
        simp [wrapInt32]
      · rw [if_neg h2, if_neg]
        unfold wrapInt32
        omega
    · rw [if_neg h, if_neg (by omega), if_neg (by omega)]
  · rw [hcnt, hcnt, unload_counter, unload_counter]
    by_cases h : c > 0
    · rw [if_pos h]
      by_cases h2 : wrapInt32 (c - 1) > 0
      · rw [if_pos h2]
        unfold wrapInt32 at h2 ⊢
        omega
      · rw [if_neg h2]
        unfold wrapInt32 at h2
        omega
    · rw [if_neg h, if_neg h]
      omega

/-- C6 (amended) at a session with allocated blocks and `inst_counter = 1`. -/
theorem stop_twice_witness :
    (gst_imx_vpu_base_enc_stop stop_env_ok
        (gst_imx_vpu_base_enc_stop stop_env_ok session_two_blocks_allocated 1).2.1
        (gst_imx_vpu_base_enc_stop stop_env_ok session_two_blocks_allocated 1).2.2.1).2.1 =
      (gst_imx_vpu_base_enc_stop stop_env_ok session_two_blocks_allocated 1).2.1 ∧
    (gst_imx_vpu_base_enc_stop stop_env_ok
        (gst_imx_vpu_base_enc_stop stop_env_ok session_two_blocks_allocated 1).2.1
        (gst_imx_vpu_base_enc_stop stop_env_ok session_two_blocks_allocated 1).2.2.1).2.2.2 =
      [.gst_imx_vpu_free_virt_mem_blocks [], .gst_imx_vpu_free_phys_mem_blocks []] ++
        (if (1 : Int) = 2 then [.VPU_EncUnLoad] else []) ∧
    ((gst_imx_vpu_base_enc_stop stop_env_ok
        (gst_imx_vpu_base_enc_stop stop_env_ok session_two_blocks_allocated 1).2.1
        (gst_imx_vpu_base_enc_stop stop_env_ok session_two_blocks_allocated 1).2.2.1).2.2.1 =
      (gst_imx_vpu_base_enc_stop stop_env_ok session_two_blocks_allocated 1).2.2.1 ↔
        (1 : Int) ≤ 1) :=
  stop_twice stop_env_ok stop_env_ok session_two_blocks_allocated 1 (by decide) (by decide)

/-- C6 (as stated, refuted): with `inst_counter = 2` (two sessions started), the first
`stop()` of a session leaves `inst_counter = 1`, and a second `stop()` of the same
session moves it to 0 and calls `VPU_EncUnLoad`. -/
theorem stop_twice_counterexample :
    (gst_imx_vpu_base_enc_stop stop_env_ok gst_imx_vpu_base_enc_init 2).2.2.1 = 1 ∧
    (gst_imx_vpu_base_enc_stop stop_env_ok
        (gst_imx_vpu_base_enc_stop stop_env_ok gst_imx_vpu_base_enc_init 2).2.1 1).2.2 =
      (0, [.gst_imx_vpu_free_virt_mem_blocks [], .gst_imx_vpu_free_phys_mem_blocks [],
        .VPU_EncUnLoad]) := by
  constructor <;> rfl

/-! ## Opening and closing the hardware handle -/

theorem quiet_append (a b : List Event) : quiet (a ++ b) = (quiet a && quiet b) := by
  simp [quiet, List.all_append]

theorem quiet_nil : quiet [] = true := rfl

theorem track_event_quiet (b : Bool) (e : Event) (h : e.touches_handle = false) :
    track_event b e = some b := by
  cases e <;> simp_all [track_event, Event.touches_handle]
  case VPU_EncOpen r => cases r <;> simp_all [Event.touches_handle]

theorem track_quiet (ev : List Event) : ∀ b, quiet ev = true → track b ev = some b := by
  induction ev with
  | nil => intro b _; rfl
  | cons e tr ih =>
    intro b h
    simp only [quiet, List.all_cons, Bool.and_eq_true, Bool.not_eq_true'] at h
    rw [track, track_event_quiet b e h.1]
    exact ih b (by simpa [quiet] using h.2)

theorem track_append (a : List Event) : ∀ (b : Bool) (c : List Event),
    track b (a ++ c) = (track b a).bind (fun b1 => track b1 c) := by
  induction a with
  | nil => intro b c; rfl
  | cons e tr ih =>
    intro b c
    simp only [List.cons_append, track]
    cases track_event b e with
    | none => rfl
    | some b1 => exact ih b1 c

theorem track_event_counts (b b1 : Bool) (e : Event) (h : track_event b e = some b1) :
    (if e.is_open = true then 1 else 0) + (if b = true then 1 else 0) =
      (if e.is_close = true then 1 else 0) + (if b1 = true then 1 else 0) := by
  cases e
  case VPU_EncOpen r =>
    cases r <;> cases b <;> simp_all [track_event, Event.is_open, Event.is_close]
  case VPU_EncClose hd =>
    cases b <;> simp_all [track_event, Event.is_open, Event.is_close]
  all_goals
    simp only [track_event, Option.some.injEq] at h
    subst h
    simp [Event.is_open, Event.is_close]

theorem track_counts (tr : List Event) : ∀ b b', track b tr = some b' →
    opens tr + (if b = true then 1 else 0) = closes tr + (if b' = true then 1 else 0) := by
  induction tr with
  | nil =>
    intro b b' h
    simp only [track, Option.some.injEq] at h
    subst h
    simp [opens, closes]
  | cons e tr ih =>
    intro b b' h
    simp only [track] at h
    cases hte : track_event b e with
    | none => simp [hte] at h
    | some b1 =>
      simp only [hte] at h
      have h1 := ih b1 b' h
      have h2 := track_event_counts b b1 e hte
      simp only [opens, closes, List.countP_cons] at h1 ⊢
      omega

theorem track_close_encoder (r : VpuEncRetCode) (s : GstImxVpuBaseEnc) :
    track s.vpu_inst_opened (gst_imx_vpu_base_enc_close_encoder r s).2 = some false := by
  obtain ⟨opened, handle, mem_info, open_param, init_info, out, fbs, pool, ib, virt, phys,
    info, gop, bitrate, slice, intra⟩ := s
  cases opened <;> cases out <;> cases pool <;> cases ib <;> cases r <;>
    simp [gst_imx_vpu_base_enc_close_encoder, track, track_event]

theorem quiet_unload (r : VpuEncRetCode) (c : Int) :
    quiet (gst_imx_vpu_base_enc_unload r c).2 = true := by
  rw [unload_events]
  split_ifs <;> simp [quiet, Event.touches_handle]

theorem track_stop (env : StopEnv) (s : GstImxVpuBaseEnc) (c : Int) :
    track s.vpu_inst_opened (gst_imx_vpu_base_enc_stop env s c).2.2.2 = some false ∧
    (gst_imx_vpu_base_enc_stop env s c).2.1.vpu_inst_opened = false := by
  refine ⟨?_, by rw [stop_session]⟩
  have hq1 : ∀ o : Option GstImxVpuFramebuffers, quiet (match o with
      | some fb => [Event.gst_object_unref_framebuffers fb]
      | none => []) = true := by
    intro o; cases o <;> simp [quiet, Event.touches_handle]
  have hq2 : ∀ o : Option GstImxPhysMemory, quiet (match o with
      | some m => [Event.gst_allocator_free m]
      | none => []) = true := by
    intro o; cases o <;> simp [quiet, Event.touches_handle]
  simp only [gst_imx_vpu_base_enc_stop, track_append]
  rw [track_quiet _ _ (hq1 _)]
  simp only [Option.some_bind]
  rw [track_quiet _ _ (hq2 _)]
  simp only [Option.some_bind]
  have hc := track_close_encoder env.VPU_EncClose
    { s with framebuffers := none, output_phys_buffer := none }
  simp only at hc
  rw [hc]
  simp only [Option.some_bind]
  rw [track_quiet _ _ (by simp [quiet, gst_imx_vpu_base_enc_free_enc_mem_blocks,
    Event.touches_handle])]
  simp only [Option.some_bind]
  exact track_quiet _ _ (quiet_unload _ _)

theorem quiet_set_bitrate (r : VpuEncRetCode) (s : GstImxVpuBaseEnc) :
    quiet (gst_imx_vpu_base_enc_set_bitrate r s).2 = true := by
  unfold gst_imx_vpu_base_enc_set_bitrate
  split_ifs <;> simp [quiet, Event.touches_handle]

theorem quiet_set_property (r : VpuEncRetCode) (prop_id : Nat) (value : GValue)
    (s : GstImxVpuBaseEnc) :
    quiet (gst_imx_vpu_base_enc_set_property r prop_id value s).2 = true ∧
    (gst_imx_vpu_base_enc_set_property r prop_id value s).1.vpu_inst_opened =
      s.vpu_inst_opened := by
  unfold gst_imx_vpu_base_enc_set_property
  dsimp only
  split_ifs <;> first | exact ⟨quiet_set_bitrate _ _, rfl⟩ | exact ⟨rfl, rfl⟩

theorem quiet_set_format_configure (env : SetFormatEnv) (caps : Nat) (state : GstVideoInfo)
    (s : GstImxVpuBaseEnc) :
    quiet (set_format_configure env caps state s).2.2 = true ∧
    (set_format_configure env caps state s).2.1.vpu_inst_opened = s.vpu_inst_opened := by
  unfold set_format_configure
  simp only
  split_ifs <;> simp [quiet, Event.touches_handle]

theorem quiet_unref_framebuffers (o : Option GstImxVpuFramebuffers) :
    quiet (match o with
      | some fb => [Event.gst_object_unref_framebuffers fb]
      | none => []) = true := by
  cases o <;> simp [quiet, Event.touches_handle]

theorem quiet_free_output (o : Option GstImxPhysMemory) :
    quiet (match o with
      | some m => [Event.gst_allocator_free m]
      | none => []) = true := by
  cases o <;> simp [quiet, Event.touches_handle]

theorem close_encoder_opened (r : VpuEncRetCode) (s : GstImxVpuBaseEnc) :
    (gst_imx_vpu_base_enc_close_encoder r s).1.vpu_inst_opened = false := by
  rw [close_encoder_closed]

/-- The calls of `gst_imx_vpu_base_enc_set_format` up to the hook call close the old
handle if one is open and touch no handle otherwise. -/
theorem track_set_format_head (env : SetFormatEnv) (s : GstImxVpuBaseEnc) (ok : Bool) :
    track s.vpu_inst_opened
      ((gst_imx_vpu_base_enc_close_encoder env.VPU_EncClose s).2 ++
        (match (gst_imx_vpu_base_enc_close_encoder env.VPU_EncClose s).1.framebuffers with
          | some fb => [Event.gst_object_unref_framebuffers fb]
          | none => []) ++
        (match ({ (gst_imx_vpu_base_enc_close_encoder env.VPU_EncClose s).1 with
              framebuffers := none } : GstImxVpuBaseEnc).output_phys_buffer with
          | some m => [Event.gst_allocator_free m]
          | none => []) ++
        [Event.set_open_params ok]) = some false := by
  simp only [track_append, track_close_encoder, Option.some_bind]
  rw [track_quiet _ _ (quiet_unref_framebuffers _)]
  simp only [Option.some_bind]
  rw [track_quiet _ _ (quiet_free_output _)]
  simp only [Option.some_bind]
  exact track_quiet _ _ (by simp [quiet, Event.touches_handle])

/-- Over the calls of `gst_imx_vpu_base_enc_set_format`, a handle that is open is
closed before a new one is opened, and one is open afterwards exactly when
`vpu_inst_opened` is set. -/
theorem track_set_format (env : SetFormatEnv) (state : GstVideoInfo) (s s' : GstImxVpuBaseEnc)
    (r : Bool) (ev : List Event)
    (h : gst_imx_vpu_base_enc_set_format env state s = some (r, s', ev)) :
    track s.vpu_inst_opened ev = some s'.vpu_inst_opened := by
  unfold gst_imx_vpu_base_enc_set_format at h
  split at h
  · cases h
  · cases h
  · rename_i hook caps _ _
    dsimp only at h
    split_ifs at h with h1 h2
    · simp only [Option.some.injEq, Prod.mk.injEq] at h
      obtain ⟨_, hs, hev⟩ := h
      rw [← hs, ← hev, track_set_format_head]
      simp only [close_encoder_opened]
    · simp only [Option.some.injEq, Prod.mk.injEq] at h
      obtain ⟨_, hs, hev⟩ := h
      rw [← hs, ← hev, track_append, track_set_format_head]
      simp only [Option.some_bind, close_encoder_opened]
      cases hr : env.VPU_EncOpen.1 with
      | VPU_ENC_RET_SUCCESS => exact absurd hr h2
      | VPU_ENC_RET_FAILURE code => simp [track, track_event]
    · simp only [Option.some.injEq, Prod.mk.injEq] at h
      obtain ⟨_, hs, hev⟩ := h
      have hr : env.VPU_EncOpen.1 = .VPU_ENC_RET_SUCCESS := by
        by_contra hne
        exact h2 hne
      rw [← hs, ← hev, track_append, track_append, track_set_format_head]
      simp only [Option.some_bind, hr, track, track_event]
      simp only [Bool.false_eq_true, if_false, Option.some_bind]
      rw [track_quiet _ _ (quiet_set_format_configure _ _ _ _).1,
        (quiet_set_format_configure _ _ _ _).2]

theorem quiet_create_pool (env : HandleFrameEnv) (s : GstImxVpuBaseEnc) :
    quiet (handle_frame_create_pool env s).2.2 = true ∧
    (handle_frame_create_pool env s).2.1.vpu_inst_opened = s.vpu_inst_opened := by
  unfold handle_frame_create_pool
  cases s.internal_bufferpool with
  | some p => exact ⟨rfl, rfl⟩
  | none =>
    cases env.gst_imx_phys_mem_buffer_pool_new <;> simp [quiet, Event.touches_handle]

theorem quiet_acquire (env : HandleFrameEnv) (s : GstImxVpuBaseEnc) :
    quiet (handle_frame_acquire env s).2.2 = true ∧
    (handle_frame_acquire env s).2.1.vpu_inst_opened = s.vpu_inst_opened := by
  unfold handle_frame_acquire
  cases s.internal_input_buffer with
  | some b => exact ⟨rfl, rfl⟩
  | none =>
    dsimp only
    split_ifs
    all_goals first
      | exact quiet_create_pool env s
      | (refine ⟨?_, (quiet_create_pool env s).2⟩
         simp only [quiet_append, (quiet_create_pool env s).1]
         simp [quiet, Event.touches_handle])

theorem quiet_input (env : HandleFrameEnv) (frame : GstVideoCodecFrame)
    (s s1 : GstImxVpuBaseEnc) (r : Except GstFlowReturn (GstBuffer × Nat)) (ev : List Event)
    (h : handle_frame_input env frame s = some (r, s1, ev)) :
    quiet ev = true ∧ s1.vpu_inst_opened = s.vpu_inst_opened := by
  unfold handle_frame_input at h
  split at h
  · simp only [Option.some.injEq, Prod.mk.injEq] at h
    obtain ⟨_, hs, hev⟩ := h
    rw [← hs, ← hev]
    exact ⟨rfl, rfl⟩
  · dsimp only at h
    split_ifs at h
    · simp only [Option.some.injEq, Prod.mk.injEq] at h
      obtain ⟨_, hs, hev⟩ := h
      rw [← hs, ← hev]
      exact quiet_acquire env s
    · split at h
      · cases h
      · split at h
        · cases h
        · simp only [Option.some.injEq, Prod.mk.injEq] at h
          obtain ⟨_, hs, hev⟩ := h
          rw [← hs, ← hev]
          refine ⟨?_, (quiet_acquire env s).2⟩
          simp only [quiet_append, (quiet_acquire env s).1]
          simp [quiet, Event.touches_handle]

theorem quiet_framebuffers (env : HandleFrameEnv) (stride : Int) (s : GstImxVpuBaseEnc) :
    quiet (handle_frame_framebuffers env stride s).2.2 = true ∧
    (handle_frame_framebuffers env stride s).2.1.vpu_inst_opened = s.vpu_inst_opened := by
  unfold handle_frame_framebuffers
  cases s.framebuffers with
  | some p => exact ⟨rfl, rfl⟩
  | none =>
    cases env.gst_imx_vpu_framebuffers_new <;> simp [quiet, Event.touches_handle]

theorem quiet_output_phys_buffer (env : HandleFrameEnv) (s s1 : GstImxVpuBaseEnc) (r : Bool)
    (ev : List Event) (h : handle_frame_output_phys_buffer env s = some (r, s1, ev)) :
    quiet ev = true ∧ s1.vpu_inst_opened = s.vpu_inst_opened := by
  unfold handle_frame_output_phys_buffer at h
  split at h
  · simp only [Option.some.injEq, Prod.mk.injEq] at h
    obtain ⟨_, hs, hev⟩ := h
    rw [← hs, ← hev]
    exact ⟨rfl, rfl⟩
  · split at h
    · cases h
    · dsimp only at h
      split at h <;>
      · simp only [Option.some.injEq, Prod.mk.injEq] at h
        obtain ⟨_, hs, hev⟩ := h
        rw [← hs, ← hev]
        exact ⟨by simp [quiet, Event.touches_handle], rfl⟩

theorem quiet_alloc_output (o : Option Nat) (n : Nat) :
    quiet (match o with
      | none => [Event.gst_video_encoder_allocate_output_buffer n]
      | some _ => []) = true := by
  cases o <;> simp [quiet, Event.touches_handle]

theorem quiet_fill (o : Option (Nat → Nat → Bool → Nat)) (ob : Option Nat) (a b : Nat)
    (c : Bool) :
    quiet (match o with
      | some _ => [Event.fill_output_buffer a b c]
      | none => [Event.gst_buffer_fill ob a b]) = true := by
  cases o <;> simp [quiet, Event.touches_handle]

theorem quiet_encode_loop (env : HandleFrameEnv) (handle : Nat) (param : VpuEncEncParam)
    (out : GstImxPhysMemory) (rs : List EncodeFrameResponse) :
    ∀ (k : Nat) (st st' : EncodeLoopState) (b : Bool) (ev : List Event),
      encode_loop env handle param out k rs st = some (b, st', ev) → quiet ev = true := by
  induction rs with
  | nil =>
    intro k st st' b ev h
    simp [encode_loop] at h
  | cons r rs ih =>
    intro k st st' b ev h
    rw [encode_loop] at h
    dsimp only at h
    have hq0 : quiet [Event.VPU_EncEncodeFrame handle param r.ret] = true := by
      simp [quiet, Event.touches_handle]
    split_ifs at h
    all_goals (try split at h)
    all_goals (try cases h)
    all_goals
      simp only [quiet_append, hq0, quiet_alloc_output, quiet_fill, Bool.and_true,
        Bool.true_and]
    all_goals first
      | exact ih _ _ _ _ _ (by assumption)
      | simp [quiet, Event.touches_handle]

theorem quiet_encode (env : HandleFrameEnv) (s : GstImxVpuBaseEnc) (param : VpuEncEncParam)
    (out : GstImxPhysMemory) (frame frame' : GstVideoCodecFrame) (r : GstFlowReturn)
    (ev : List Event) (h : handle_frame_encode env s param out frame = some (r, frame', ev)) :
    quiet ev = true := by
  unfold handle_frame_encode at h
  dsimp only at h
  split at h
  · cases h
  · rename_i st ev1 hloop
    have hq := quiet_encode_loop env _ _ _ _ _ _ _ _ _ hloop
    simp only [Option.some.injEq, Prod.mk.injEq] at h
    obtain ⟨_, _, hev⟩ := h
    rw [← hev]
    exact hq
  · rename_i st ev1 hloop
    have hq := quiet_encode_loop env _ _ _ _ _ _ _ _ _ hloop
    split at h <;>
    · simp only [Option.some.injEq, Prod.mk.injEq] at h
      obtain ⟨_, _, hev⟩ := h
      rw [← hev]
      simp only [quiet_append, hq]
      try simp [quiet, Event.touches_handle]

/-- The calls of `gst_imx_vpu_base_enc_handle_frame` neither open nor close a
hardware handle, and it leaves `vpu_inst_opened` as it is. -/
theorem quiet_handle_frame (env : HandleFrameEnv) (frame frame' : GstVideoCodecFrame)
    (s s' : GstImxVpuBaseEnc) (r : GstFlowReturn) (ev : List Event)
    (h : gst_imx_vpu_base_enc_handle_frame env frame s = some (r, s', frame', ev)) :
    quiet ev = true ∧ s'.vpu_inst_opened = s.vpu_inst_opened := by
  unfold gst_imx_vpu_base_enc_handle_frame at h
  split at h
  · cases h
  · split at h
    · cases h
    · rename_i hin
      obtain ⟨hq1, ho1⟩ := quiet_input env frame s _ _ _ hin
      simp only [Option.some.injEq, Prod.mk.injEq] at h
      obtain ⟨_, hs, _, hev⟩ := h
      rw [← hs, ← hev]
      exact ⟨hq1, ho1⟩
    · rename_i input_buffer phys_ptr s1 ev1 hin
      obtain ⟨hq1, ho1⟩ := quiet_input env frame s _ _ _ hin
      dsimp only at h
      have hfb := quiet_framebuffers env
        (handle_frame_input_framebuf env.w s1 input_buffer phys_ptr).2 s1
      have hqs : ∀ b : Bool, quiet [Event.set_frame_enc_params b] = true := by
        intro b; simp [quiet, Event.touches_handle]
      cases hforce : (frame.force_keyframe || frame.force_keyframe_headers) <;>
        simp only [hforce, Bool.false_eq_true, if_false, if_true] at h <;>
        (split at h
         · simp only [Option.some.injEq, Prod.mk.injEq] at h
           obtain ⟨_, hs, _, hev⟩ := h
           rw [← hs, ← hev, quiet_append, hq1, hfb.1, hfb.2, ho1]
           exact ⟨rfl, rfl⟩
         · split at h
           · cases h
           · rename_i s3 ev3 hout
             obtain ⟨hq3, ho3⟩ := quiet_output_phys_buffer env _ _ _ _ hout
             simp only [Option.some.injEq, Prod.mk.injEq] at h
             obtain ⟨_, hs, _, hev⟩ := h
             rw [← hs, ← hev, quiet_append, quiet_append, hq1, hfb.1, hq3, ho3, hfb.2, ho1]
             exact ⟨rfl, rfl⟩
           · rename_i s3 ev3 hout
             obtain ⟨hq3, ho3⟩ := quiet_output_phys_buffer env _ _ _ _ hout
             split at h
             · split at h
               · simp only [Option.some.injEq, Prod.mk.injEq] at h
                 obtain ⟨_, hs, _, hev⟩ := h
                 rw [← hs, ← hev]
                 simp only [quiet_append, hq1, hfb.1, hq3, hqs, ho3, hfb.2, ho1]
                 exact ⟨rfl, trivial⟩
               · split at h
                 · cases h
                 · rename_i r5 frame5 ev5 henc
                   have hq5 := quiet_encode env _ _ _ _ _ _ _ henc
                   simp only [Option.some.injEq, Prod.mk.injEq] at h
                   obtain ⟨_, hs, _, hev⟩ := h
                   rw [← hs, ← hev]
                   simp only [quiet_append, hq1, hfb.1, hq3, hq5, hqs, ho3, hfb.2, ho1]
                   exact ⟨rfl, trivial⟩
             · cases h)

/-- A call that returns keeps the handle tracking: if a handle is open after the
trace so far exactly when `vpu_inst_opened` is set, the same holds after the call. -/
theorem track_step (c : Call) (w w1 : World) (h : c.step w = some w1)
    (hinv : track false w.trace = some w.enc.vpu_inst_opened) :
    track false w1.trace = some w1.enc.vpu_inst_opened := by
  cases c with
  | set_format env state =>
    simp only [Call.step] at h
    split at h
    · cases h
    · rename_i r s ev hsf
      simp only [Option.some.injEq] at h
      rw [← h]
      simp only [track_append, hinv, Option.some_bind]
      exact track_set_format env state w.enc s r ev hsf
  | handle_frame env frame =>
    simp only [Call.step] at h
    split at h
    · cases h
    · rename_i r s frame1 ev hhf
      obtain ⟨hq, ho⟩ := quiet_handle_frame env frame frame1 w.enc s r ev hhf
      simp only [Option.some.injEq] at h
      rw [← h]
      simp only [track_append, hinv, Option.some_bind]
      rw [track_quiet _ _ hq, ho]
  | set_property r prop_id value =>
    simp only [Call.step, Option.some.injEq] at h
    obtain ⟨hq, ho⟩ := quiet_set_property r prop_id value w.enc
    rw [← h]
    simp only [track_append, hinv, Option.some_bind]
    rw [track_quiet _ _ hq, ho]
  | stop env =>
    simp only [Call.step, Option.some.injEq] at h
    obtain ⟨ht, ho⟩ := track_stop env w.enc w.inst_counter
    rw [← h]
    simp only [track_append, hinv, Option.some_bind]
    rw [ht, ho]

theorem track_run (calls : List Call) : ∀ (w : World),
    track false w.trace = some w.enc.vpu_inst_opened →
    ∀ w1 ∈ run calls w, track false w1.trace = some w1.enc.vpu_inst_opened := by
  induction calls with
  | nil =>
    intro w _ w1 h1
    simp [run] at h1
  | cons c cs ih =>
    intro w hinv w1 h1
    simp only [run] at h1
    split at h1
    · simp at h1
    · rename_i w2 hstep
      have hinv2 := track_step c w w2 hstep hinv
      simp only [List.mem_cons] at h1
      rcases h1 with rfl | h1
      · exact hinv2
      · exact ih w2 hinv2 w1 h1

theorem track_balanced (tr : List Event) (b : Bool) (h : track false tr = some b) :
    opens tr = closes tr + (if b = true then 1 else 0) ∧
    ∀ pre post, tr = pre ++ post → opens pre = closes pre ∨ opens pre = closes pre + 1 := by
  constructor
  · have := track_counts tr false b h
    simpa using this
  · intro pre post hpre
    rw [hpre, track_append] at h
    cases hp : track false pre with
    | none => simp [hp] at h
    | some b1 =>
      have := track_counts pre false b1 hp
      cases b1 <;> simp at this <;> omega

/-- On an opened session `gst_imx_vpu_base_enc_close_encoder` calls `VPU_EncClose` on
the session's handle, after calls that touch no handle. -/
theorem close_encoder_events_opened (r : VpuEncRetCode) (s : GstImxVpuBaseEnc)
    (h : s.vpu_inst_opened = true) :
    ∃ pre, (gst_imx_vpu_base_enc_close_encoder r s).2 = pre ++ [.VPU_EncClose s.handle] ∧
      quiet pre = true := by
  obtain ⟨opened, handle, mem_info, open_param, init_info, out, fbs, pool, ib, virt, phys,
    info, gop, bitrate, slice, intra⟩ := s
  simp only at h
  subst h
  refine ⟨(match ib with
      | some b => [Event.gst_buffer_unref b]
      | none => []) ++ (match pool with
      | some p => [Event.gst_object_unref_bufferpool p]
      | none => []) ++ (match out with
      | some m => [Event.gst_allocator_free m]
      | none => []), ?_, ?_⟩
  · cases r <;> simp [gst_imx_vpu_base_enc_close_encoder]
  · cases ib <;> cases pool <;> cases out <;> simp [quiet, Event.touches_handle]

/-- The calls of `gst_imx_vpu_base_enc_set_format` start with those of
`gst_imx_vpu_base_enc_close_encoder`. -/
theorem set_format_events_head (env : SetFormatEnv) (state : GstVideoInfo)
    (s s' : GstImxVpuBaseEnc) (r : Bool) (ev : List Event)
    (h : gst_imx_vpu_base_enc_set_format env state s = some (r, s', ev)) :
    ∃ rest, ev = (gst_imx_vpu_base_enc_close_encoder env.VPU_EncClose s).2 ++ rest := by
  unfold gst_imx_vpu_base_enc_set_format at h
  split at h
  · cases h
  · cases h
  · dsimp only at h
    split_ifs at h <;>
    · simp only [Option.some.injEq, Prod.mk.injEq] at h
      obtain ⟨_, _, hev⟩ := h
      rw [← hev]
      simp only [List.append_assoc]
      exact ⟨_, rfl⟩

/-- C8: for every sequence of `set_format`, `handle_frame`, `set_property` and `stop`
calls on a freshly initialised session, whatever the hooks and the hardware return,
after each call (and for every initial part of the calls made so far) the number of
successful `VPU_EncOpen` calls minus the number of `VPU_EncClose` calls is 0 or 1, and
it is 1 exactly when `vpu_inst_opened` is set; `set_format` on an opened session
calls `VPU_EncClose` on the old handle before any call that touches a handle; and
after `stop()` the session is closed. -/
theorem open_close_balance (calls : List Call) (c : Int) :
    (∀ w ∈ initial_world c :: run calls (initial_world c),
      opens w.trace = closes w.trace + (if w.enc.vpu_inst_opened = true then 1 else 0) ∧
      ∀ pre post, w.trace = pre ++ post →
        opens pre = closes pre ∨ opens pre = closes pre + 1) ∧
    (∀ env state s r s' ev, gst_imx_vpu_base_enc_set_format env state s = some (r, s', ev) →
      s.vpu_inst_opened = true →
      ∃ pre post, ev = pre ++ Event.VPU_EncClose s.handle :: post ∧ quiet pre = true) ∧
    (∀ env s c1, (gst_imx_vpu_base_enc_stop env s c1).2.1.vpu_inst_opened = false) := by
  refine ⟨?_, ?_, ?_⟩
  · intro w hw
    have h0 : track false (initial_world c).trace =
        some (initial_world c).enc.vpu_inst_opened := rfl
    simp only [List.mem_cons] at hw
    rcases hw with rfl | hw
    · exact track_balanced _ _ h0
    · exact track_balanced _ _ (track_run calls _ h0 w hw)
  · intro env state s r s' ev hsf hop
    obtain ⟨rest, hrest⟩ := set_format_events_head env state s s' r ev hsf
    obtain ⟨pre, hpre, hq⟩ := close_encoder_events_opened env.VPU_EncClose s hop
    refine ⟨pre, rest, ?_, hq⟩
    rw [hrest, hpre, List.append_assoc]
    rfl
  · intro env s c1
    exact (track_stop env s c1).2

/-- C8 at the calls of `session_calls`, where the session is opened, reopened by the
second `set_format` and closed by `stop()`. -/
theorem open_close_balance_witness :
    ((∀ w ∈ initial_world 1 :: run session_calls (initial_world 1),
      opens w.trace = closes w.trace + (if w.enc.vpu_inst_opened = true then 1 else 0) ∧
      ∀ pre post, w.trace = pre ++ post →
        opens pre = closes pre ∨ opens pre = closes pre + 1) ∧
    (∀ env state s r s' ev, gst_imx_vpu_base_enc_set_format env state s = some (r, s', ev) →
      s.vpu_inst_opened = true →
      ∃ pre post, ev = pre ++ Event.VPU_EncClose s.handle :: post ∧ quiet pre = true) ∧
    (∀ env s c1, (gst_imx_vpu_base_enc_stop env s c1).2.1.vpu_inst_opened = false)) ∧
    (run session_calls (initial_world 1)).map
        (fun w => (w.enc.vpu_inst_opened, opens w.trace, closes w.trace)) =
      [(true, 1, 0), (true, 1, 0), (true, 1, 0), (true, 2, 1), (false, 2, 2)] :=
  ⟨open_close_balance session_calls 1, by rfl⟩

/-! ## Properties of set_format -/

/-- The function `gst_imx_vpu_base_enc_handle_frame` is its setup part followed by its
main encoding block. -/
theorem handle_frame_eq_setup (env : HandleFrameEnv) (frame : GstVideoCodecFrame)
    (s : GstImxVpuBaseEnc) :
    gst_imx_vpu_base_enc_handle_frame env frame s =
      match handle_frame_setup env frame s with
      | none => none
      | some (.error res) => some res
      | some (.ok (s3, param, out, frame1, ev4)) =>
        match handle_frame_encode env s3 param out frame1 with
        | none => none
        | some (r, frame2, ev5) => some (r, s3, frame2, ev4 ++ ev5) := by
  unfold gst_imx_vpu_base_enc_handle_frame handle_frame_setup
  cases h1 : env.set_frame_enc_params with
  | none => rfl
  | some hook =>
    dsimp only
    cases h2 : handle_frame_input env frame s with
    | none => rfl
    | some res =>
      obtain ⟨rin, s1, ev1⟩ := res
      cases rin with
      | error r => rfl
      | ok p =>
        obtain ⟨ib, addr⟩ := p
        dsimp only
        cases h3 : (handle_frame_framebuffers env
            (handle_frame_input_framebuf env.w s1 ib addr).2 s1).1 with
        | false => rfl
        | true =>
          simp only [Bool.not_true, Bool.false_eq_true, if_false]
          cases h4 : handle_frame_output_phys_buffer env
              (handle_frame_framebuffers env
                (handle_frame_input_framebuf env.w s1 ib addr).2 s1).2.1 with
          | none => rfl
          | some res4 =>
            obtain ⟨b4, s3, ev3⟩ := res4
            cases b4 with
            | false => rfl
            | true =>
              dsimp only
              cases h5 : s3.output_phys_buffer with
              | none => rfl
              | some out =>
                cases h6 : s3.framebuffers with
                | none => rfl
                | some fbs =>
                  dsimp only
                  split_ifs <;> rfl

/-- The framebuffers block leaves the internal input buffer and its pool alone, and
its calls belong neither to the input stage nor to the main encoding block. -/
theorem framebuffers_frame (env : HandleFrameEnv) (stride : Int) (s : GstImxVpuBaseEnc) :
    (handle_frame_framebuffers env stride s).2.1.internal_input_buffer =
      s.internal_input_buffer ∧
    (handle_frame_framebuffers env stride s).2.1.internal_bufferpool =
      s.internal_bufferpool ∧
    (handle_frame_framebuffers env stride s).2.1.handle = s.handle ∧
    (handle_frame_framebuffers env stride s).2.2.all
      (fun e => !e.in_input_stage && !e.in_main_block) = true := by
  unfold handle_frame_framebuffers
  cases s.framebuffers with
  | some p => exact ⟨rfl, rfl, rfl, rfl⟩
  | none =>
    cases env.gst_imx_vpu_framebuffers_new <;>
      simp [Event.in_input_stage, Event.in_main_block]

/-- The output-buffer block leaves the internal input buffer and its pool alone, and
its calls belong neither to the input stage nor to the main encoding block. -/
theorem output_phys_buffer_frame (env : HandleFrameEnv) (s s1 : GstImxVpuBaseEnc) (r : Bool)
    (ev : List Event) (h : handle_frame_output_phys_buffer env s = some (r, s1, ev)) :
    s1.internal_input_buffer = s.internal_input_buffer ∧
    s1.internal_bufferpool = s.internal_bufferpool ∧
    s1.handle = s.handle ∧
    ev.all (fun e => !e.in_input_stage && !e.in_main_block) = true := by
  unfold handle_frame_output_phys_buffer at h
  split at h
  · simp only [Option.some.injEq, Prod.mk.injEq] at h
    obtain ⟨_, hs, hev⟩ := h
    rw [← hs, ← hev]
    exact ⟨rfl, rfl, rfl, rfl⟩
  · split at h
    · cases h
    · dsimp only at h
      split at h <;>
      · simp only [Option.some.injEq, Prod.mk.injEq] at h
        obtain ⟨_, hs, hev⟩ := h
        rw [← hs, ← hev]
        exact ⟨rfl, rfl, rfl, by simp [Event.in_input_stage, Event.in_main_block]⟩

/-- What the setup part of `handle_frame` hands to the main encoding block: the calls
of the input stage followed by calls that belong neither to the input stage nor to
the main encoding block, with the input stage's internal input buffer and pool. -/
theorem handle_frame_setup_ok (env : HandleFrameEnv) (frame frame1 : GstVideoCodecFrame)
    (s s3 : GstImxVpuBaseEnc) (param : VpuEncEncParam) (out : GstImxPhysMemory)
    (ev4 : List Event)
    (h : handle_frame_setup env frame s = some (.ok (s3, param, out, frame1, ev4))) :
    ∃ ib addr s1 ev1 mid,
      handle_frame_input env frame s = some (.ok (ib, addr), s1, ev1) ∧
      ev4 = ev1 ++ mid ∧
      mid.all (fun e => !e.in_input_stage && !e.in_main_block) = true ∧
      s3.internal_input_buffer = s1.internal_input_buffer ∧
      s3.internal_bufferpool = s1.internal_bufferpool ∧
      s3.handle = s1.handle := by
  unfold handle_frame_setup at h
  split at h
  · cases h
  · split at h
    · cases h
    · cases h
    · rename_i ib addr s1 ev1 hin
      dsimp only at h
      have hfb := framebuffers_frame env (handle_frame_input_framebuf env.w s1 ib addr).2 s1
      cases hforce : (frame.force_keyframe || frame.force_keyframe_headers) <;>
        simp only [hforce, Bool.false_eq_true, if_false, if_true] at h <;>
        (split at h
         · cases h
         · split at h
           · cases h
           · cases h
           · rename_i s3a ev3 hout
             obtain ⟨ho1, ho2, ho3, ho4⟩ := output_phys_buffer_frame env _ _ _ _ hout
             split at h
             · split at h
               · cases h
               · simp only [Option.some.injEq, Except.ok.injEq, Prod.mk.injEq] at h
                 obtain ⟨hs, _, _, _, hev⟩ := h
                 subst hs
                 obtain ⟨x, hx⟩ : ∃ x, ev1 ++ (handle_frame_framebuffers env
                     (handle_frame_input_framebuf env.w s1 ib addr).2 s1).2.2 ++ ev3 ++
                     [Event.set_frame_enc_params x] = ev4 := ⟨_, hev⟩
                 refine ⟨ib, addr, s1, ev1, (handle_frame_framebuffers env
                     (handle_frame_input_framebuf env.w s1 ib addr).2 s1).2.2 ++
                     (ev3 ++ [Event.set_frame_enc_params x]), hin, ?_, ?_, ?_, ?_, ?_⟩
                 · rw [← hx, List.append_assoc, List.append_assoc]
                 · simp only [List.all_append, hfb.2.2.2, ho4, Bool.true_and]
                   simp [Event.in_input_stage, Event.in_main_block]
                 · rw [ho1, hfb.1]
                 · rw [ho2, hfb.2.1]
                 · rw [ho3, hfb.2.2.1]
             · cases h)

/-- A loop iteration whose response lets the loop go on: the output is taken and the
loop continues with the next response. -/
theorem encode_loop_goes_on (env : HandleFrameEnv) (handle : Nat) (param : VpuEncEncParam)
    (out : GstImxPhysMemory) (k : Nat) (r : EncodeFrameResponse)
    (rs : List EncodeFrameResponse) (st : EncodeLoopState)
    (hgo : r.goes_on = true) (hff : st.frame_finished = false) :
    encode_loop env handle param out k (r :: rs) st =
      match encode_loop env handle param out (k + 1) rs (encode_output env out k r st).1 with
      | none => none
      | some (b, st2, ev) =>
        some (b, st2, [.VPU_EncEncodeFrame handle param r.ret] ++
          (encode_output env out k r st).2 ++ ev) := by
  simp only [EncodeFrameResponse.goes_on, Bool.and_eq_true, decide_eq_true_eq,
    Bool.not_eq_true'] at hgo
  obtain ⟨⟨h1, h2⟩, h3⟩ := hgo
  rw [encode_loop]
  simp only [h1, h2, h3, hff, ne_eq, not_true_eq_false, if_false, Bool.false_eq_true,
    Bool.false_or, encode_output, EncodeFrameResponse.has_output]
  cases hs : r.eOutRetCode.VPU_ENC_OUTPUT_SEQHEADER
  · simp only [Bool.false_eq_true, if_false, List.append_nil]
  · simp only [if_true, List.append_assoc]

/-- Taking output never finishes the frame. -/
theorem encode_output_frame_finished (env : HandleFrameEnv) (out : GstImxPhysMemory)
    (k : Nat) (r : EncodeFrameResponse) (st : EncodeLoopState) :
    (encode_output env out k r st).1.frame_finished = st.frame_finished := by
  unfold encode_output
  split
  · cases st.output_buffer <;> rfl
  · rfl

/-- The iterations after which the loop goes on never finish the frame. -/
theorem encode_steps_frame_finished (env : HandleFrameEnv) (handle : Nat)
    (param : VpuEncEncParam) (out : GstImxPhysMemory) (pre : List EncodeFrameResponse) :
    ∀ (k : Nat) (st : EncodeLoopState),
      (encode_steps env handle param out k pre st).1.frame_finished = st.frame_finished := by
  induction pre with
  | nil => intro k st; rfl
  | cons r rs ih =>
    intro k st
    rw [encode_steps]
    simp only [ih, encode_output_frame_finished]

/-- The loop over responses that begin with ones after which it goes on: these
iterations are the ones of `encode_steps`, and the loop continues after them. -/
theorem encode_loop_steps (env : HandleFrameEnv) (handle : Nat) (param : VpuEncEncParam)
    (out : GstImxPhysMemory) (pre rest : List EncodeFrameResponse) :
    ∀ (k : Nat) (st : EncodeLoopState), (∀ r ∈ pre, r.goes_on = true) →
      st.frame_finished = false →
      encode_loop env handle param out k (pre ++ rest) st =
        match encode_loop env handle param out (k + pre.length) rest
            (encode_steps env handle param out k pre st).1 with
        | none => none
        | some (b, st2, ev) =>
          some (b, st2, (encode_steps env handle param out k pre st).2 ++ ev) := by
  induction pre with
  | nil =>
    intro k st _ _
    simp only [List.nil_append, List.length_nil, Nat.add_zero, encode_steps]
    cases encode_loop env handle param out k rest st <;> rfl
  | cons r rs ih =>
    intro k st hpre hff
    have hr : r.goes_on = true := hpre r (List.mem_cons_self _ _)
    have hrs : ∀ x ∈ rs, x.goes_on = true := fun x hx => hpre x (List.mem_cons_of_mem _ hx)
    rw [List.cons_append, encode_loop_goes_on env handle param out k r (rs ++ rest) st hr hff,
      ih (k + 1) (encode_output env out k r st).1 hrs
        (by rw [encode_output_frame_finished]; exact hff)]
    have hk : k + 1 + rs.length = k + (r :: rs).length := by
      simp only [List.length_cons]; omega
    rw [hk, encode_steps]
    cases encode_loop env handle param out (k + (r :: rs).length) rest
      (encode_steps env handle param out (k + 1) rs (encode_output env out k r st).1).1 with
    | none => rfl
    | some x => simp only [List.append_assoc]

/-- The loop has no result when after every response it goes on. -/
theorem encode_loop_exhausted (env : HandleFrameEnv) (handle : Nat) (param : VpuEncEncParam)
    (out : GstImxPhysMemory) (pre : List EncodeFrameResponse) (k : Nat)
    (st : EncodeLoopState) (hpre : ∀ r ∈ pre, r.goes_on = true)
    (hff : st.frame_finished = false) :
    encode_loop env handle param out k pre st = none := by
  have h := encode_loop_steps env handle param out pre [] k st hpre hff
  rw [List.append_nil] at h
  rw [h, encode_loop]

/-- An iteration whose call fails: the hardware is reset and the loop is left. -/
theorem encode_loop_error (env : HandleFrameEnv) (handle : Nat) (param : VpuEncEncParam)
    (out : GstImxPhysMemory) (k : Nat) (r : EncodeFrameResponse)
    (rs : List EncodeFrameResponse) (st : EncodeLoopState)
    (hr : r.ret ≠ .VPU_ENC_RET_SUCCESS) :
    encode_loop env handle param out k (r :: rs) st =
      some (false, st, [.VPU_EncEncodeFrame handle param r.ret, .VPU_EncReset handle]) := by
  rw [encode_loop]
  simp only [hr, ne_eq, not_false_eq_true, if_true, List.singleton_append]

/-- An iteration whose response is display-ready: the output is taken, its size set and
the frame finished, unless there is no output buffer. -/
theorem encode_loop_dis (env : HandleFrameEnv) (handle : Nat) (param : VpuEncEncParam)
    (out : GstImxPhysMemory) (k : Nat) (r : EncodeFrameResponse)
    (rs : List EncodeFrameResponse) (st : EncodeLoopState)
    (hr : r.ret = .VPU_ENC_RET_SUCCESS) (hdis : r.eOutRetCode.VPU_ENC_OUTPUT_DIS = true)
    (hff : st.frame_finished = false) :
    encode_loop env handle param out k (r :: rs) st =
      match (encode_output env out k r st).1.output_buffer with
      | none => none
      | some b =>
        some (true,
          { (encode_output env out k r st).1 with
            output_buffer := none
            frame_finished := true
            frame := { (encode_output env out k r st).1.frame with
              dts := (encode_output env out k r st).1.frame.pts } },
          [.VPU_EncEncodeFrame handle param r.ret] ++ (encode_output env out k r st).2 ++
            [.gst_buffer_set_size b (encode_output env out k r st).1.output_buffer_offset,
             .gst_video_encoder_finish_frame
               { (encode_output env out k r st).1.frame with
                 dts := (encode_output env out k r st).1.frame.pts }]) := by
  rw [encode_loop]
  simp only [hr, hdis, hff, ne_eq, not_true_eq_false, if_false, Bool.false_eq_true,
    Bool.true_or, if_true, encode_output, EncodeFrameResponse.has_output, List.append_assoc]

/-- An iteration whose response marks the input used without being display-ready: the
output is taken and the loop is left. -/
theorem encode_loop_used (env : HandleFrameEnv) (handle : Nat) (param : VpuEncEncParam)
    (out : GstImxPhysMemory) (k : Nat) (r : EncodeFrameResponse)
    (rs : List EncodeFrameResponse) (st : EncodeLoopState)
    (hr : r.ret = .VPU_ENC_RET_SUCCESS) (hdis : r.eOutRetCode.VPU_ENC_OUTPUT_DIS = false)
    (hused : r.eOutRetCode.VPU_ENC_INPUT_USED = true) (hff : st.frame_finished = false) :
    encode_loop env handle param out k (r :: rs) st =
      some (true, (encode_output env out k r st).1,
        [.VPU_EncEncodeFrame handle param r.ret] ++ (encode_output env out k r st).2) := by
  rw [encode_loop]
  simp only [hr, hdis, hused, hff, ne_eq, not_true_eq_false, if_false, Bool.false_eq_true,
    Bool.false_or, if_true, encode_output, EncodeFrameResponse.has_output]
  cases hs : r.eOutRetCode.VPU_ENC_OUTPUT_SEQHEADER
  · simp only [Bool.false_eq_true, if_false, List.append_nil]
  · simp only [if_true, List.append_assoc]

/-- A call of the input stage is not a call of the main encoding block. -/
theorem in_input_stage_not_main (e : Event) (h : e.in_input_stage = true) :
    e.in_main_block = false := by
  cases e <;> simp_all [Event.in_input_stage, Event.in_main_block]

/-- The frames finished by two traces in a row. -/
theorem finished_frames_append (a b : List Event) :
    finished_frames (a ++ b) = finished_frames a ++ finished_frames b := by
  simp only [finished_frames, List.filterMap_append]

/-- The sizes set by two traces in a row. -/
theorem set_sizes_append (a b : List Event) :
    set_sizes (a ++ b) = set_sizes a ++ set_sizes b := by
  simp only [set_sizes, List.filterMap_append]

/-- The copy destinations of two traces in a row. -/
theorem copy_dests_append (a b : List Event) :
    copy_dests (a ++ b) = copy_dests a ++ copy_dests b := by
  simp only [copy_dests, List.filterMap_append]

/-- A call outside the main encoding block is no encode, reset, allocation, size or
finish call. -/
theorem not_main_event (e : Event) (h : e.in_main_block = false) :
    e.is_encode_frame = false ∧ e.is_reset = false ∧ e.is_allocate_output = false ∧
    finished_frames [e] = [] ∧ set_sizes [e] = [] := by
  cases e <;>
    first
    | exact ⟨rfl, rfl, rfl, rfl, rfl⟩
    | exact absurd h (by simp [Event.in_main_block])

/-- A call outside the input stage acquires no buffer, creates no pool and copies no
frame. -/
theorem not_input_event (e : Event) (h : e.in_input_stage = false) :
    e.is_acquire = false ∧ e.is_pool_new = false ∧ copy_dests [e] = [] := by
  cases e <;>
    first
    | exact ⟨rfl, rfl, rfl⟩
    | exact absurd h (by simp [Event.in_input_stage])

/-- Calls outside the main encoding block are no encode, reset, allocation, size or
finish calls. -/
theorem counts_of_not_main (tr : List Event)
    (h : tr.all (fun e => !e.in_main_block) = true) :
    tr.countP Event.is_encode_frame = 0 ∧ tr.countP Event.is_reset = 0 ∧
    tr.countP Event.is_allocate_output = 0 ∧ finished_frames tr = [] ∧
    set_sizes tr = [] := by
  induction tr with
  | nil => exact ⟨rfl, rfl, rfl, rfl, rfl⟩
  | cons e es ih =>
    simp only [List.all_cons, Bool.and_eq_true, Bool.not_eq_true'] at h
    obtain ⟨i1, i2, i3, i4, i5⟩ := ih h.2
    obtain ⟨e1, e2, e3, e4, e5⟩ := not_main_event e h.1
    have hc : e :: es = [e] ++ es := rfl
    refine ⟨?_, ?_, ?_, ?_, ?_⟩
    · rw [List.countP_cons, i1, e1]; rfl
    · rw [List.countP_cons, i2, e2]; rfl
    · rw [List.countP_cons, i3, e3]; rfl
    · rw [hc, finished_frames_append, e4, i4]; rfl
    · rw [hc, set_sizes_append, e5, i5]; rfl

/-- Calls outside the input stage acquire no buffer, create no pool and copy no frame. -/
theorem counts_of_not_input (tr : List Event)
    (h : tr.all (fun e => !e.in_input_stage) = true) :
    tr.countP Event.is_acquire = 0 ∧ tr.countP Event.is_pool_new = 0 ∧
    copy_dests tr = [] := by
  induction tr with
  | nil => exact ⟨rfl, rfl, rfl⟩
  | cons e es ih =>
    simp only [List.all_cons, Bool.and_eq_true, Bool.not_eq_true'] at h
    obtain ⟨i1, i2, i3⟩ := ih h.2
    obtain ⟨e1, e2, e3⟩ := not_input_event e h.1
    have hc : e :: es = [e] ++ es := rfl
    refine ⟨?_, ?_, ?_⟩
    · rw [List.countP_cons, i1, e1]; rfl
    · rw [List.countP_cons, i2, e2]; rfl
    · rw [hc, copy_dests_append, e3, i3]; rfl

/-- Calls of the main encoding block are outside the input stage. -/
theorem not_input_of_main (tr : List Event) (h : tr.all Event.in_main_block = true) :
    tr.all (fun e => !e.in_input_stage) = true := by
  rw [List.all_eq_true] at h ⊢
  intro e he
  have h1 := h e he
  cases hi : e.in_input_stage
  · rfl
  · rw [in_input_stage_not_main e hi] at h1
    cases h1

/-- Calls of the input stage are outside the main encoding block. -/
theorem not_main_of_input (tr : List Event) (h : tr.all Event.in_input_stage = true) :
    tr.all (fun e => !e.in_main_block) = true := by
  rw [List.all_eq_true] at h ⊢
  intro e he
  rw [in_input_stage_not_main e (h e he)]
  rfl

/-- Calls that belong to neither part are outside both. -/
theorem not_both (tr : List Event)
    (h : tr.all (fun e => !e.in_input_stage && !e.in_main_block) = true) :
    tr.all (fun e => !e.in_input_stage) = true ∧
    tr.all (fun e => !e.in_main_block) = true := by
  rw [List.all_eq_true] at h
  constructor <;>
  · rw [List.all_eq_true]
    intro e he
    have h1 := h e he
    simp only [Bool.and_eq_true] at h1
    first | exact h1.1 | exact h1.2

/-- The calls of the acquire block are calls of the input stage, and it leaves the
framebuffers, the output buffer and the handle alone. -/
theorem acquire_frame (env : HandleFrameEnv) (s : GstImxVpuBaseEnc) :
    (handle_frame_acquire env s).2.2.all Event.in_input_stage = true ∧
    (handle_frame_acquire env s).2.1.framebuffers = s.framebuffers ∧
    (handle_frame_acquire env s).2.1.output_phys_buffer = s.output_phys_buffer ∧
    (handle_frame_acquire env s).2.1.handle = s.handle := by
  unfold handle_frame_acquire handle_frame_create_pool
  cases s.internal_input_buffer with
  | some b => exact ⟨rfl, rfl, rfl, rfl⟩
  | none =>
    cases s.internal_bufferpool <;> cases env.gst_imx_phys_mem_buffer_pool_new <;>
      cases env.gst_buffer_pool_is_active <;> simp [Event.in_input_stage]

/-- The calls of the input stage are calls of the input stage, and it leaves the
framebuffers, the output buffer and the handle alone. -/
theorem input_frame (env : HandleFrameEnv) (frame : GstVideoCodecFrame)
    (s s1 : GstImxVpuBaseEnc) (r : Except GstFlowReturn (GstBuffer × Nat)) (ev : List Event)
    (h : handle_frame_input env frame s = some (r, s1, ev)) :
    ev.all Event.in_input_stage = true ∧ s1.framebuffers = s.framebuffers ∧
    s1.output_phys_buffer = s.output_phys_buffer ∧ s1.handle = s.handle := by
  obtain ⟨a1, a2, a3, a4⟩ := acquire_frame env s
  unfold handle_frame_input at h
  split at h
  · simp only [Option.some.injEq, Prod.mk.injEq] at h
    obtain ⟨_, hs, hev⟩ := h
    rw [← hs, ← hev]
    exact ⟨rfl, rfl, rfl, rfl⟩
  · dsimp only at h
    split at h
    · simp only [Option.some.injEq, Prod.mk.injEq] at h
      obtain ⟨_, hs, hev⟩ := h
      rw [← hs, ← hev]
      exact ⟨a1, a2, a3, a4⟩
    · split at h
      · cases h
      · split at h
        · cases h
        · simp only [Option.some.injEq, Prod.mk.injEq] at h
          obtain ⟨_, hs, hev⟩ := h
          rw [← hs, ← hev]
          refine ⟨?_, a2, a3, a4⟩
          simp only [List.all_append, a1, Bool.true_and]
          simp [Event.in_input_stage]

/-- The calls made while output is taken: calls of the main encoding block, none of
them an encode, reset, size or finish call. -/
theorem encode_output_events (env : HandleFrameEnv) (out : GstImxPhysMemory)
    (k : Nat) (r : EncodeFrameResponse) (st : EncodeLoopState) :
    (encode_output env out k r st).2.all Event.in_main_block = true ∧
    (encode_output env out k r st).2.countP Event.is_encode_frame = 0 ∧
    (encode_output env out k r st).2.countP Event.is_reset = 0 ∧
    finished_frames (encode_output env out k r st).2 = [] ∧
    set_sizes (encode_output env out k r st).2 = [] := by
  unfold encode_output
  split
  · cases st.output_buffer <;> cases env.fill_output_buffer <;>
      simp [Event.in_main_block, Event.is_encode_frame, Event.is_reset, finished_frames,
        set_sizes]
  · exact ⟨rfl, rfl, rfl, rfl, rfl⟩

/-- The calls of the iterations after which the loop goes on: one encode call per
response, calls of the main encoding block, none of them a reset, size or finish call. -/
theorem encode_steps_events (env : HandleFrameEnv) (handle : Nat)
    (param : VpuEncEncParam) (out : GstImxPhysMemory) (pre : List EncodeFrameResponse) :
    ∀ (k : Nat) (st : EncodeLoopState),
      (encode_steps env handle param out k pre st).2.all Event.in_main_block = true ∧
      (encode_steps env handle param out k pre st).2.countP Event.is_encode_frame =
        pre.length ∧
      (encode_steps env handle param out k pre st).2.countP Event.is_reset = 0 ∧
      finished_frames (encode_steps env handle param out k pre st).2 = [] ∧
      set_sizes (encode_steps env handle param out k pre st).2 = [] := by
  induction pre with
  | nil => intro k st; exact ⟨rfl, rfl, rfl, rfl, rfl⟩
  | cons r rs ih =>
    intro k st
    obtain ⟨i1, i2, i3, i4, i5⟩ := ih (k + 1) (encode_output env out k r st).1
    obtain ⟨o1, o2, o3, o4, o5⟩ := encode_output_events env out k r st
    rw [encode_steps]
    simp only [List.all_append, List.countP_append, finished_frames_append, set_sizes_append,
      i1, i2, i3, i4, i5, o1, o2, o3, o4, o5, List.length_cons]
    simp [Event.in_main_block, Event.is_encode_frame, Event.is_reset, finished_frames,
      set_sizes, List.countP_cons]
    omega

/-- Responses either all let the loop go on, or there is a first one that does not. -/
theorem goes_on_split (rs : List EncodeFrameResponse) :
    (∀ r ∈ rs, r.goes_on = true) ∨
    ∃ pre x post, rs = pre ++ x :: post ∧ (∀ r ∈ pre, r.goes_on = true) ∧
      x.goes_on = false := by
  induction rs with
  | nil => left; intro r hr; cases hr
  | cons r rs ih =>
    cases hr : r.goes_on with
    | false => right; exact ⟨[], r, rs, rfl, (fun x hx => by cases hx), hr⟩
    | true =>
      rcases ih with h | ⟨pre, x, post, h1, h2, h3⟩
      · left
        intro y hy
        rcases List.mem_cons.mp hy with h0 | h0
        · rw [h0]; exact hr
        · exact h y h0
      · right
        refine ⟨r :: pre, x, post, by rw [h1]; rfl, ?_, h3⟩
        intro y hy
        rcases List.mem_cons.mp hy with h0 | h0
        · rw [h0]; exact hr
        · exact h2 y h0

/-- The output sizes of two runs of responses in a row. -/
theorem output_sum_append (a b : List EncodeFrameResponse) :
    output_sum (a ++ b) = output_sum a + output_sum b := by
  induction a with
  | nil => simp [output_sum]
  | cons r rs ih => rw [List.cons_append, output_sum, output_sum, ih]; omega

/-- With the default fill path, taking output advances the offset by the output size. -/
theorem encode_output_offset (env : HandleFrameEnv) (out : GstImxPhysMemory)
    (k : Nat) (r : EncodeFrameResponse) (st : EncodeLoopState)
    (hfill : env.fill_output_buffer = none) :
    (encode_output env out k r st).1.output_buffer_offset % 2 ^ env.w =
      (st.output_buffer_offset + (if r.has_output then r.nOutOutputSize else 0)) %
        2 ^ env.w := by
  unfold encode_output
  split
  · cases st.output_buffer <;> simp [hfill]
  · simp

/-- With the default fill path, the iterations after which the loop goes on advance
the offset by the sum of their output sizes. -/
theorem encode_steps_offset (env : HandleFrameEnv) (handle : Nat)
    (param : VpuEncEncParam) (out : GstImxPhysMemory) (pre : List EncodeFrameResponse)
    (hfill : env.fill_output_buffer = none) :
    ∀ (k : Nat) (st : EncodeLoopState),
      (encode_steps env handle param out k pre st).1.output_buffer_offset % 2 ^ env.w =
        (st.output_buffer_offset + output_sum pre) % 2 ^ env.w := by
  induction pre with
  | nil => intro k st; simp [encode_steps, output_sum]
  | cons r rs ih =>
    intro k st
    rw [encode_steps]
    simp only [ih, output_sum]
    rw [Nat.add_mod, encode_output_offset env out k r st hfill, ← Nat.add_mod, Nat.add_assoc]

/-- When allocation succeeds, taking output allocates exactly when there is output and
no buffer yet, and there is a buffer afterwards exactly when there was one or there
is output. -/
theorem encode_output_alloc (env : HandleFrameEnv) (out : GstImxPhysMemory)
    (k : Nat) (r : EncodeFrameResponse) (st : EncodeLoopState)
    (halloc : ∀ i, (env.gst_video_encoder_allocate_output_buffer i).isSome = true) :
    (encode_output env out k r st).2.countP Event.is_allocate_output =
      (if st.output_buffer.isSome then 0 else if r.has_output then 1 else 0) ∧
    (encode_output env out k r st).1.output_buffer.isSome =
      (st.output_buffer.isSome || r.has_output) := by
  unfold encode_output
  cases hr : r.has_output
  · simp
  · cases hob : st.output_buffer <;> cases env.fill_output_buffer <;>
      simp [halloc, hob, Event.is_allocate_output, List.countP_cons]

/-- When allocation succeeds, the iterations after which the loop goes on allocate
once if there was no buffer and one of them has output, and not otherwise. -/
theorem encode_steps_alloc (env : HandleFrameEnv) (handle : Nat)
    (param : VpuEncEncParam) (out : GstImxPhysMemory) (pre : List EncodeFrameResponse)
    (halloc : ∀ i, (env.gst_video_encoder_allocate_output_buffer i).isSome = true) :
    ∀ (k : Nat) (st : EncodeLoopState),
      (encode_steps env handle param out k pre st).2.countP Event.is_allocate_output =
        (if st.output_buffer.isSome then 0
         else if pre.any EncodeFrameResponse.has_output then 1 else 0) ∧
      (encode_steps env handle param out k pre st).1.output_buffer.isSome =
        (st.output_buffer.isSome || pre.any EncodeFrameResponse.has_output) := by
  induction pre with
  | nil => intro k st; simp [encode_steps]
  | cons r rs ih =>
    intro k st
    obtain ⟨i1, i2⟩ := ih (k + 1) (encode_output env out k r st).1
    obtain ⟨o1, o2⟩ := encode_output_alloc env out k r st halloc
    rw [encode_steps]
    simp only [List.countP_append, i1, i2, o1, o2, List.any_cons]
    rcases Bool.eq_false_or_eq_true st.output_buffer.isSome with h1 | h1 <;>
      rcases Bool.eq_false_or_eq_true r.has_output with h2 | h2 <;>
      rcases Bool.eq_false_or_eq_true (rs.any EncodeFrameResponse.has_output) with h3 | h3 <;>
      simp [h1, h2, h3, Event.is_allocate_output, List.countP_cons]

/-- Taking output keeps `frame->output_buffer` equal to the local `output_buffer` and
changes nothing else of the frame. -/
theorem encode_output_inv (env : HandleFrameEnv) (out : GstImxPhysMemory)
    (k : Nat) (r : EncodeFrameResponse) (st : EncodeLoopState) (f0 : GstVideoCodecFrame)
    (h : st.frame = { f0 with output_buffer := st.output_buffer }) :
    (encode_output env out k r st).1.frame =
      { f0 with output_buffer := (encode_output env out k r st).1.output_buffer } := by
  unfold encode_output
  split
  · cases hob : st.output_buffer with
    | none => simp only [h]
    | some b => simp only [h, hob]
  · exact h

/-- The iterations after which the loop goes on keep `frame->output_buffer` equal to
the local `output_buffer` and change nothing else of the frame. -/
theorem encode_steps_inv (env : HandleFrameEnv) (handle : Nat)
    (param : VpuEncEncParam) (out : GstImxPhysMemory) (pre : List EncodeFrameResponse)
    (f0 : GstVideoCodecFrame) :
    ∀ (k : Nat) (st : EncodeLoopState),
      st.frame = { f0 with output_buffer := st.output_buffer } →
      (encode_steps env handle param out k pre st).1.frame =
        { f0 with
          output_buffer := (encode_steps env handle param out k pre st).1.output_buffer } := by
  induction pre with
  | nil => intro k st h; exact h
  | cons r rs ih =>
    intro k st h
    rw [encode_steps]
    exact ih (k + 1) _ (encode_output_inv env out k r st f0 h)

/-- The main encoding block when, after responses that let the loop go on, a call
fails: the hardware is reset and the result is `GST_FLOW_ERROR`. -/
theorem handle_frame_encode_error (env : HandleFrameEnv) (s : GstImxVpuBaseEnc)
    (param : VpuEncEncParam) (out : GstImxPhysMemory) (frame : GstVideoCodecFrame)
    (pre post : List EncodeFrameResponse) (x : EncodeFrameResponse)
    (hresp : env.VPU_EncEncodeFrame = pre ++ x :: post)
    (hpre : ∀ r ∈ pre, r.goes_on = true) (hx : x.ret ≠ .VPU_ENC_RET_SUCCESS) :
    handle_frame_encode env s param out frame =
      some (.GST_FLOW_ERROR,
        (encode_steps env s.handle param out 0 pre (encode_init frame)).1.frame,
        (encode_steps env s.handle param out 0 pre (encode_init frame)).2 ++
          [.VPU_EncEncodeFrame s.handle param x.ret, .VPU_EncReset s.handle]) := by
  have h := encode_loop_steps env s.handle param out pre (x :: post) 0 (encode_init frame)
    hpre rfl
  rw [encode_loop_error env s.handle param out _ x post _ hx] at h
  unfold handle_frame_encode
  rw [hresp]
  change (match encode_loop env s.handle param out 0 (pre ++ x :: post) (encode_init frame)
    with | none => none | some (false, st, ev) => _ | some (true, st, ev) => _) = _
  rw [h]

/-- The main encoding block when, after responses that let the loop go on, a response
is display-ready: the size is set and the frame finished, `GST_FLOW_OK`. -/
theorem handle_frame_encode_dis (env : HandleFrameEnv) (s : GstImxVpuBaseEnc)
    (param : VpuEncEncParam) (out : GstImxPhysMemory) (frame : GstVideoCodecFrame)
    (pre post : List EncodeFrameResponse) (x : EncodeFrameResponse)
    (hresp : env.VPU_EncEncodeFrame = pre ++ x :: post)
    (hpre : ∀ r ∈ pre, r.goes_on = true) (hx : x.ret = .VPU_ENC_RET_SUCCESS)
    (hdis : x.eOutRetCode.VPU_ENC_OUTPUT_DIS = true) :
    handle_frame_encode env s param out frame =
      match (encode_output env out (0 + pre.length) x
        (encode_steps env s.handle param out 0 pre (encode_init frame)).1).1.output_buffer with
      | none => none
      | some b =>
        some (.GST_FLOW_OK,
          { (encode_output env out (0 + pre.length) x
              (encode_steps env s.handle param out 0 pre (encode_init frame)).1).1.frame with
            dts := (encode_output env out (0 + pre.length) x
              (encode_steps env s.handle param out 0 pre (encode_init frame)).1).1.frame.pts },
          (encode_steps env s.handle param out 0 pre (encode_init frame)).2 ++
            ([.VPU_EncEncodeFrame s.handle param x.ret] ++
              (encode_output env out (0 + pre.length) x
                (encode_steps env s.handle param out 0 pre (encode_init frame)).1).2 ++
              [.gst_buffer_set_size b
                (encode_output env out (0 + pre.length) x
                  (encode_steps env s.handle param out 0 pre
                    (encode_init frame)).1).1.output_buffer_offset,
               .gst_video_encoder_finish_frame
                 { (encode_output env out (0 + pre.length) x
                     (encode_steps env s.handle param out 0 pre
                       (encode_init frame)).1).1.frame with
                   dts := (encode_output env out (0 + pre.length) x
                     (encode_steps env s.handle param out 0 pre
                       (encode_init frame)).1).1.frame.pts }])) := by
  have h := encode_loop_steps env s.handle param out pre (x :: post) 0 (encode_init frame)
    hpre rfl
  rw [encode_loop_dis env s.handle param out _ x post _ hx hdis
    (by rw [encode_steps_frame_finished]; rfl)] at h
  unfold handle_frame_encode
  rw [hresp]
  change (match encode_loop env s.handle param out 0 (pre ++ x :: post) (encode_init frame)
    with | none => none | some (false, st, ev) => _ | some (true, st, ev) => _) = _
  rw [h]
  cases (encode_output env out (0 + pre.length) x
    (encode_steps env s.handle param out 0 pre (encode_init frame)).1).1.output_buffer <;> rfl

/-- The main encoding block when, after responses that let the loop go on, a response
marks the input used without being display-ready: an output buffer there is at that
point is dropped with the frame, `GST_FLOW_OK`. -/
theorem handle_frame_encode_used (env : HandleFrameEnv) (s : GstImxVpuBaseEnc)
    (param : VpuEncEncParam) (out : GstImxPhysMemory) (frame : GstVideoCodecFrame)
    (pre post : List EncodeFrameResponse) (x : EncodeFrameResponse)
    (hresp : env.VPU_EncEncodeFrame = pre ++ x :: post)
    (hpre : ∀ r ∈ pre, r.goes_on = true) (hx : x.ret = .VPU_ENC_RET_SUCCESS)
    (hdis : x.eOutRetCode.VPU_ENC_OUTPUT_DIS = false)
    (hused : x.eOutRetCode.VPU_ENC_INPUT_USED = true) :
    handle_frame_encode env s param out frame =
      match (encode_output env out (0 + pre.length) x
        (encode_steps env s.handle param out 0 pre (encode_init frame)).1).1.output_buffer with
      | some b =>
        some (.GST_FLOW_OK,
          { (encode_output env out (0 + pre.length) x
              (encode_steps env s.handle param out 0 pre (encode_init frame)).1).1.frame with
            output_buffer := none },
          (encode_steps env s.handle param out 0 pre (encode_init frame)).2 ++
            ([.VPU_EncEncodeFrame s.handle param x.ret] ++
              (encode_output env out (0 + pre.length) x
                (encode_steps env s.handle param out 0 pre (encode_init frame)).1).2) ++
            [.gst_buffer_unref_output b,
             .gst_video_encoder_finish_frame
               { (encode_output env out (0 + pre.length) x
                   (encode_steps env s.handle param out 0 pre
                     (encode_init frame)).1).1.frame with
                 output_buffer := none }])
      | none =>
        some (.GST_FLOW_OK,
          (encode_output env out (0 + pre.length) x
            (encode_steps env s.handle param out 0 pre (encode_init frame)).1).1.frame,
          (encode_steps env s.handle param out 0 pre (encode_init frame)).2 ++
            ([.VPU_EncEncodeFrame s.handle param x.ret] ++
              (encode_output env out (0 + pre.length) x
                (encode_steps env s.handle param out 0 pre (encode_init frame)).1).2)) := by
  have h := encode_loop_steps env s.handle param out pre (x :: post) 0 (encode_init frame)
    hpre rfl
  rw [encode_loop_used env s.handle param out _ x post _ hx hdis hused
    (by rw [encode_steps_frame_finished]; rfl)] at h
  unfold handle_frame_encode
  rw [hresp]
  change (match encode_loop env s.handle param out 0 (pre ++ x :: post) (encode_init frame)
    with | none => none | some (false, st, ev) => _ | some (true, st, ev) => _) = _
  rw [h]

/-- The main encoding block has no result when every response lets the loop go on. -/
theorem handle_frame_encode_exhausted (env : HandleFrameEnv) (s : GstImxVpuBaseEnc)
    (param : VpuEncEncParam) (out : GstImxPhysMemory) (frame : GstVideoCodecFrame)
    (hall : ∀ r ∈ env.VPU_EncEncodeFrame, r.goes_on = true) :
    handle_frame_encode env s param out frame = none := by
  have h := encode_loop_exhausted env s.handle param out env.VPU_EncEncodeFrame 0
    (encode_init frame) hall rfl
  unfold handle_frame_encode
  change (match encode_loop env s.handle param out 0 env.VPU_EncEncodeFrame (encode_init frame)
    with | none => none | some (false, st, ev) => _ | some (true, st, ev) => _) = _
  rw [h]

/-- The calls of the setup part of `handle_frame` are outside the main encoding block. -/
theorem setup_ok_not_main (env : HandleFrameEnv) (frame frame1 : GstVideoCodecFrame)
    (s s3 : GstImxVpuBaseEnc) (param : VpuEncEncParam) (out : GstImxPhysMemory)
    (ev4 : List Event)
    (h : handle_frame_setup env frame s = some (.ok (s3, param, out, frame1, ev4))) :
    ev4.all (fun e => !e.in_main_block) = true := by
  obtain ⟨ib, addr, s1, ev1, mid, hin, hev, hmid, _, _, _⟩ :=
    handle_frame_setup_ok env frame frame1 s s3 param out ev4 h
  rw [hev, List.all_append, not_main_of_input ev1 (input_frame env frame s s1 _ ev1 hin).1,
    (not_both mid hmid).2]
  rfl

/-- Taking output leaves the offset within the `gsize` range when there is output. -/
theorem encode_output_offset_lt (env : HandleFrameEnv) (out : GstImxPhysMemory)
    (k : Nat) (r : EncodeFrameResponse) (st : EncodeLoopState)
    (hr : r.has_output = true) :
    (encode_output env out k r st).1.output_buffer_offset < 2 ^ env.w := by
  unfold encode_output
  rw [if_pos hr]
  exact Nat.mod_lt _ (Nat.two_pow_pos env.w)

/-- C11: when `handle_frame` reaches its encode loop with the default fill path (no
`fill_output_buffer` hook), output buffers can be allocated, the hardware answers
with successful responses that neither finish the frame nor mark the input used and
then with a successful display-ready response, and the output sizes add up within
the `gsize` range, then `handle_frame` returns `GST_FLOW_OK`, exactly one output
buffer is allocated, `gst_buffer_set_size` is called once, on that buffer, with the
sum of `nOutOutputSize` over the responses that reported output, and
`gst_video_encoder_finish_frame` is called exactly once, with the frame that carries
that buffer. -/
theorem handle_frame_output_once (env : HandleFrameEnv) (frame frame1 : GstVideoCodecFrame)
    (s s3 : GstImxVpuBaseEnc) (param : VpuEncEncParam) (out : GstImxPhysMemory)
    (ev4 : List Event) (pre post : List EncodeFrameResponse) (last : EncodeFrameResponse)
    (hsetup : handle_frame_setup env frame s = some (.ok (s3, param, out, frame1, ev4)))
    (hresp : env.VPU_EncEncodeFrame = pre ++ last :: post)
    (hfill : env.fill_output_buffer = none)
    (halloc : ∀ i, (env.gst_video_encoder_allocate_output_buffer i).isSome = true)
    (hpre : ∀ r ∈ pre, r.goes_on = true)
    (hlast : last.ret = .VPU_ENC_RET_SUCCESS ∧ last.eOutRetCode.VPU_ENC_OUTPUT_DIS = true)
    (hsum : output_sum (pre ++ [last]) < 2 ^ env.w) :
    ∃ b ev,
      gst_imx_vpu_base_enc_handle_frame env frame s =
        some (.GST_FLOW_OK, s3,
          { frame1 with output_buffer := some b, dts := frame1.pts }, ev) ∧
      ev.countP Event.is_allocate_output = 1 ∧
      set_sizes ev = [(b, output_sum (pre ++ [last]))] ∧
      finished_frames ev = [{ frame1 with output_buffer := some b, dts := frame1.pts }] := by
  have hout : last.has_output = true := by
    simp only [EncodeFrameResponse.has_output, hlast.2, Bool.true_or]
  obtain ⟨m1, m2, m3, m4, m5⟩ :=
    counts_of_not_main ev4 (setup_ok_not_main env frame frame1 s s3 param out ev4 hsetup)
  obtain ⟨p1, p2, p3, p4, p5⟩ :=
    encode_steps_events env s3.handle param out pre 0 (encode_init frame1)
  obtain ⟨a1, a2⟩ := encode_steps_alloc env s3.handle param out pre halloc 0
    (encode_init frame1)
  have hinv := encode_steps_inv env s3.handle param out pre frame1 0 (encode_init frame1) rfl
  have hoff := encode_steps_offset env s3.handle param out pre hfill 0 (encode_init frame1)
  obtain ⟨o1, o2, o3, o4, o5⟩ := encode_output_events env out (0 + pre.length) last
    (encode_steps env s3.handle param out 0 pre (encode_init frame1)).1
  obtain ⟨b1, b2⟩ := encode_output_alloc env out (0 + pre.length) last
    (encode_steps env s3.handle param out 0 pre (encode_init frame1)).1 halloc
  have hinv2 := encode_output_inv env out (0 + pre.length) last
    (encode_steps env s3.handle param out 0 pre (encode_init frame1)).1 frame1 hinv
  have hoff2 := encode_output_offset env out (0 + pre.length) last
    (encode_steps env s3.handle param out 0 pre (encode_init frame1)).1 hfill
  have hlt := encode_output_offset_lt env out (0 + pre.length) last
    (encode_steps env s3.handle param out 0 pre (encode_init frame1)).1 hout
  have henc := handle_frame_encode_dis env s3 param out frame1 pre post last hresp hpre
    hlast.1 hlast.2
  rw [hout, Bool.or_true] at b2
  obtain ⟨b, hb⟩ := Option.isSome_iff_exists.mp b2
  rw [hb] at henc hinv2
  have hsize : (encode_output env out (0 + pre.length) last
      (encode_steps env s3.handle param out 0 pre
        (encode_init frame1)).1).1.output_buffer_offset = output_sum (pre ++ [last]) := by
    rw [← Nat.mod_eq_of_lt hlt, hoff2, if_pos hout, Nat.add_mod, hoff, ← Nat.add_mod,
      output_sum_append]
    simp only [encode_init, output_sum, if_pos hout, Nat.zero_add, Nat.add_zero]
    exact Nat.mod_eq_of_lt (by simpa [output_sum_append, output_sum, hout] using hsum)
  refine ⟨b, ev4 ++ ((encode_steps env s3.handle param out 0 pre (encode_init frame1)).2 ++
    ([.VPU_EncEncodeFrame s3.handle param last.ret] ++
      (encode_output env out (0 + pre.length) last
        (encode_steps env s3.handle param out 0 pre (encode_init frame1)).1).2 ++
      [.gst_buffer_set_size b (encode_output env out (0 + pre.length) last
        (encode_steps env s3.handle param out 0 pre
          (encode_init frame1)).1).1.output_buffer_offset,
       .gst_video_encoder_finish_frame
         { frame1 with output_buffer := some b, dts := frame1.pts }])), ?_, ?_, ?_, ?_⟩
  · rw [handle_frame_eq_setup, hsetup]
    simp only [henc, hinv2]
  · simp only [List.countP_append]
    rw [m3, a1, b1, a2]
    simp only [hout, encode_init, Option.isSome_none, Bool.false_or]
    rcases Bool.eq_false_or_eq_true (pre.any EncodeFrameResponse.has_output) with h3 | h3 <;>
      simp [h3, Event.is_allocate_output, List.countP_cons]
  · simp only [set_sizes_append, m5, p5, o5, hsize]
    simp [set_sizes]
  · simp only [finished_frames_append, m4, p4, o4]
    simp [finished_frames]

/-- The first frame of a formatted session, with a sequence header of 30 bytes and then
a finished frame of 500 bytes: one output buffer, of size 530, one finished frame. -/
theorem handle_frame_output_once_witness :
    ∃ x : GstImxVpuBaseEnc × VpuEncEncParam × GstImxPhysMemory × GstVideoCodecFrame ×
        List Event,
      handle_frame_setup handle_frame_env_ok frame_plain session_formatted = some (.ok x) ∧
      ∃ b ev,
        gst_imx_vpu_base_enc_handle_frame handle_frame_env_ok frame_plain session_formatted =
          some (.GST_FLOW_OK, x.1,
            { x.2.2.2.1 with output_buffer := some b, dts := x.2.2.2.1.pts }, ev) ∧
        ev.countP Event.is_allocate_output = 1 ∧
        set_sizes ev = [(b, 530)] ∧
        finished_frames ev =
          [{ x.2.2.2.1 with output_buffer := some b, dts := x.2.2.2.1.pts }] :=
  ⟨_, rfl,
    handle_frame_output_once handle_frame_env_ok frame_plain _ session_formatted _ _ _ _
      [{ ret := .VPU_ENC_RET_SUCCESS
         eOutRetCode :=
           { VPU_ENC_INPUT_USED := false, VPU_ENC_OUTPUT_DIS := false,
             VPU_ENC_OUTPUT_SEQHEADER := true }
         nOutOutputSize := 30 }] []
      { ret := .VPU_ENC_RET_SUCCESS
        eOutRetCode :=
          { VPU_ENC_INPUT_USED := true, VPU_ENC_OUTPUT_DIS := true,
            VPU_ENC_OUTPUT_SEQHEADER := false }
        nOutOutputSize := 500 }
      rfl rfl rfl (fun _ => rfl) (by decide) ⟨rfl, rfl⟩ (by decide)⟩

/-- C12: when the only hardware response is "input used" with neither output nor a
sequence header, `handle_frame` returns `GST_FLOW_OK` with a single encode call, and
`gst_video_encoder_finish_frame` is not called at all: the frame is neither finished
nor dropped. -/
theorem handle_frame_used_only_not_finished :
    ∃ s1 f1 ev,
      gst_imx_vpu_base_enc_handle_frame handle_frame_env_used_only frame_plain
        session_formatted = some (.GST_FLOW_OK, s1, f1, ev) ∧
      ev.countP Event.is_encode_frame = 1 ∧ finished_frames ev = [] :=
  ⟨_, _, _, rfl, rfl, rfl⟩

/-- The early returns of the input stage never carry `GST_FLOW_OK`. -/
theorem input_error_not_ok (env : HandleFrameEnv) (frame : GstVideoCodecFrame)
    (s s1 : GstImxVpuBaseEnc) (r : GstFlowReturn) (ev : List Event)
    (h : handle_frame_input env frame s = some (.error r, s1, ev)) :
    r ≠ .GST_FLOW_OK := by
  unfold handle_frame_input at h
  split at h
  · simp only [Option.some.injEq, Prod.mk.injEq] at h
    cases h.1
  · dsimp only at h
    split at h
    · rename_i hne
      simp only [Option.some.injEq, Prod.mk.injEq, Except.error.injEq] at h
      rw [← h.1]
      exact hne
    · split at h
      · cases h
      · split at h
        · cases h
        · simp only [Option.some.injEq, Prod.mk.injEq] at h
          cases h.1

/-- What the setup part of `handle_frame` returns early: never `GST_FLOW_OK`; the calls
of the input stage followed by calls that belong neither to the input stage nor to
the main encoding block, with the input stage's internal input buffer and pool. -/
theorem handle_frame_setup_error (env : HandleFrameEnv) (frame f1 : GstVideoCodecFrame)
    (s s3 : GstImxVpuBaseEnc) (r : GstFlowReturn) (ev : List Event)
    (h : handle_frame_setup env frame s = some (.error (r, s3, f1, ev))) :
    r ≠ .GST_FLOW_OK ∧
    ∃ rin s1 ev1 mid,
      handle_frame_input env frame s = some (rin, s1, ev1) ∧
      ev = ev1 ++ mid ∧
      mid.all (fun e => !e.in_input_stage && !e.in_main_block) = true ∧
      s3.internal_input_buffer = s1.internal_input_buffer ∧
      s3.internal_bufferpool = s1.internal_bufferpool := by
  unfold handle_frame_setup at h
  split at h
  · cases h
  · split at h
    · cases h
    · rename_i r0 s1 ev1 hin
      simp only [Option.some.injEq, Except.error.injEq, Prod.mk.injEq] at h
      obtain ⟨hr, hs, _, hev⟩ := h
      subst hr hs hev
      exact ⟨input_error_not_ok env frame s _ _ _ hin,
        _, _, _, [], hin, (List.append_nil _).symm, rfl, rfl, rfl⟩
    · rename_i ib addr s1 ev1 hin
      dsimp only at h
      have hfb := framebuffers_frame env (handle_frame_input_framebuf env.w s1 ib addr).2 s1
      cases hforce : (frame.force_keyframe || frame.force_keyframe_headers) <;>
        simp only [hforce, Bool.false_eq_true, if_false, if_true] at h <;>
        (split at h
         · simp only [Option.some.injEq, Except.error.injEq, Prod.mk.injEq] at h
           obtain ⟨hr, hs, _, hev⟩ := h
           subst hr hs hev
           exact ⟨by decide, _, _, _, _, hin, rfl, hfb.2.2.2, hfb.1, hfb.2.1⟩
         · split at h
           · cases h
           · rename_i s3a ev3 hout
             obtain ⟨ho1, ho2, ho3, ho4⟩ := output_phys_buffer_frame env _ _ _ _ hout
             simp only [Option.some.injEq, Except.error.injEq, Prod.mk.injEq] at h
             obtain ⟨hr, hs, _, hev⟩ := h
             subst hr hs hev
             refine ⟨by decide, _, _, _, (handle_frame_framebuffers env
               (handle_frame_input_framebuf env.w s1 ib addr).2 s1).2.2 ++ ev3, hin,
               List.append_assoc _ _ _, ?_, ?_, ?_⟩
             · simp only [List.all_append, hfb.2.2.2, ho4, Bool.true_and]
             · rw [ho1, hfb.1]
             · rw [ho2, hfb.2.1]
           · rename_i s3a ev3 hout
             obtain ⟨ho1, ho2, ho3, ho4⟩ := output_phys_buffer_frame env _ _ _ _ hout
             split at h
             · split at h
               · simp only [Option.some.injEq, Except.error.injEq, Prod.mk.injEq] at h
                 obtain ⟨hr, hs, _, hev⟩ := h
                 subst hr hs
                 obtain ⟨x, hx⟩ : ∃ x, ev1 ++ (handle_frame_framebuffers env
                     (handle_frame_input_framebuf env.w s1 ib addr).2 s1).2.2 ++ ev3 ++
                     [Event.set_frame_enc_params x] = ev := ⟨_, hev⟩
                 refine ⟨by decide, _, _, _, (handle_frame_framebuffers env
                     (handle_frame_input_framebuf env.w s1 ib addr).2 s1).2.2 ++
                     (ev3 ++ [Event.set_frame_enc_params x]), hin, ?_, ?_, ?_, ?_⟩
                 · rw [← hx, List.append_assoc, List.append_assoc]
                 · simp only [List.all_append, hfb.2.2.2, ho4, Bool.true_and]
                   simp [Event.in_input_stage, Event.in_main_block]
                 · rw [ho1, hfb.1]
                 · rw [ho2, hfb.2.1]
               · cases h
             · cases h)

/-- A result of the main encoding block: the responses begin with ones that let the
loop go on, followed by one that does not; there is one encode call for each of
these, every call is one of the main encoding block, at most one frame is finished,
and the result is `GST_FLOW_OK` exactly when that last response is a success. -/
theorem handle_frame_encode_cases (env : HandleFrameEnv) (s : GstImxVpuBaseEnc)
    (param : VpuEncEncParam) (out : GstImxPhysMemory) (frame f1 : GstVideoCodecFrame)
    (r : GstFlowReturn) (ev : List Event)
    (h : handle_frame_encode env s param out frame = some (r, f1, ev)) :
    ∃ pre x post, env.VPU_EncEncodeFrame = pre ++ x :: post ∧
      (∀ y ∈ pre, y.goes_on = true) ∧ x.goes_on = false ∧
      ev.all Event.in_main_block = true ∧
      ev.countP Event.is_encode_frame = pre.length + 1 ∧
      (finished_frames ev).length ≤ 1 ∧
      (x.ret ≠ .VPU_ENC_RET_SUCCESS → r = .GST_FLOW_ERROR) ∧
      (x.ret = .VPU_ENC_RET_SUCCESS → r = .GST_FLOW_OK) := by
  rcases goes_on_split env.VPU_EncEncodeFrame with hall | ⟨pre, x, post, hresp, hpre, hx⟩
  · rw [handle_frame_encode_exhausted env s param out frame hall] at h
    cases h
  · refine ⟨pre, x, post, hresp, hpre, hx, ?_⟩
    obtain ⟨p1, p2, p3, p4, p5⟩ :=
      encode_steps_events env s.handle param out pre 0 (encode_init frame)
    obtain ⟨o1, o2, o3, o4, o5⟩ := encode_output_events env out (0 + pre.length) x
      (encode_steps env s.handle param out 0 pre (encode_init frame)).1
    by_cases hret : x.ret = .VPU_ENC_RET_SUCCESS
    · rcases Bool.eq_false_or_eq_true x.eOutRetCode.VPU_ENC_OUTPUT_DIS with hdis | hdis
      · rw [handle_frame_encode_dis env s param out frame pre post x hresp hpre hret hdis] at h
        split at h
        · cases h
        · simp only [Option.some.injEq, Prod.mk.injEq] at h
          obtain ⟨hr, _, hev⟩ := h
          rw [← hev, ← hr]
          simp only [List.all_append, List.countP_append, finished_frames_append, p1, p2, p4,
            o1, o2, o4]
          simp [Event.in_main_block, Event.is_encode_frame, finished_frames, List.countP_cons,
            hret]
      · have hused : x.eOutRetCode.VPU_ENC_INPUT_USED = true := by
          simp only [EncodeFrameResponse.goes_on, hret, hdis, decide_True, Bool.not_false,
            Bool.and_self, Bool.true_and, Bool.not_eq_false'] at hx
          exact hx
        rw [handle_frame_encode_used env s param out frame pre post x hresp hpre hret hdis
          hused] at h
        split at h <;>
        · simp only [Option.some.injEq, Prod.mk.injEq] at h
          obtain ⟨hr, _, hev⟩ := h
          rw [← hev, ← hr]
          simp only [List.all_append, List.countP_append, finished_frames_append, p1, p2, p4,
            o1, o2, o4]
          simp [Event.in_main_block, Event.is_encode_frame, finished_frames, List.countP_cons,
            hret]
    · rw [handle_frame_encode_error env s param out frame pre post x hresp hpre hret] at h
      simp only [Option.some.injEq, Prod.mk.injEq] at h
      obtain ⟨hr, _, hev⟩ := h
      rw [← hev, ← hr]
      simp only [List.all_append, List.countP_append, finished_frames_append, p1, p2, p4]
      simp [Event.in_main_block, Event.is_encode_frame, finished_frames, List.countP_cons, hret]

/-- A result of `handle_frame`: the calls of the input stage followed by calls outside
the input stage, with the input stage's internal input buffer and pool. -/
theorem handle_frame_parts (env : HandleFrameEnv) (frame f1 : GstVideoCodecFrame)
    (s s2 : GstImxVpuBaseEnc) (r : GstFlowReturn) (ev : List Event)
    (h : gst_imx_vpu_base_enc_handle_frame env frame s = some (r, s2, f1, ev)) :
    ∃ rin s1 ev1 rest,
      handle_frame_input env frame s = some (rin, s1, ev1) ∧
      ev = ev1 ++ rest ∧
      rest.all (fun e => !e.in_input_stage) = true ∧
      s2.internal_input_buffer = s1.internal_input_buffer ∧
      s2.internal_bufferpool = s1.internal_bufferpool := by
  rw [handle_frame_eq_setup] at h
  split at h
  · cases h
  · rename_i res hsetup
    obtain ⟨r0, s0, f0, ev0⟩ := res
    simp only [Option.some.injEq, Prod.mk.injEq] at h
    obtain ⟨hr, hs, hf, hev⟩ := h
    subst hr hs hf hev
    obtain ⟨_, rin, s1, ev1, mid, hin, hev, hmid, h1, h2⟩ :=
      handle_frame_setup_error env frame _ s _ _ _ hsetup
    exact ⟨rin, s1, ev1, mid, hin, hev, (not_both mid hmid).1, h1, h2⟩
  · rename_i s3 param out frame1 ev4 hsetup
    obtain ⟨ib, addr, s1, ev1, mid, hin, hev, hmid, h1, h2, _⟩ :=
      handle_frame_setup_ok env frame frame1 s s3 param out ev4 hsetup
    split at h
    · cases h
    · rename_i r0 frame2 ev5 henc
      simp only [Option.some.injEq, Prod.mk.injEq] at h
      obtain ⟨hr, hs, hf, hev5⟩ := h
      subst hr hs hf hev5
      obtain ⟨pre, x, post, _, _, _, hmain, _⟩ :=
        handle_frame_encode_cases env _ param out frame1 _ _ _ henc
      refine ⟨_, s1, ev1, mid ++ ev5, hin, ?_, ?_, h1, h2⟩
      · rw [hev, List.append_assoc]
      · rw [List.all_append, (not_both mid hmid).1, not_input_of_main ev5 hmain]
        rfl

/-- C13 (amended): for hardware responses that are all successful, when `handle_frame`
returns `GST_FLOW_OK` the last response it received carried `VPU_ENC_INPUT_USED` or
`VPU_ENC_OUTPUT_DIS`, no response before it carried either of the two, there was one
`VPU_EncEncodeFrame` call per response received, and
`gst_video_encoder_finish_frame` was called at most once. -/
theorem handle_frame_loop_exit (env : HandleFrameEnv) (frame f1 : GstVideoCodecFrame)
    (s s2 : GstImxVpuBaseEnc) (ev : List Event)
    (hsucc : ∀ r ∈ env.VPU_EncEncodeFrame, r.ret = .VPU_ENC_RET_SUCCESS)
    (hret : gst_imx_vpu_base_enc_handle_frame env frame s = some (.GST_FLOW_OK, s2, f1, ev)) :
    ∃ pre last post, env.VPU_EncEncodeFrame = pre ++ last :: post ∧
      ev.countP Event.is_encode_frame = pre.length + 1 ∧
      (∀ r ∈ pre, r.eOutRetCode.VPU_ENC_INPUT_USED = false ∧
        r.eOutRetCode.VPU_ENC_OUTPUT_DIS = false) ∧
      (last.eOutRetCode.VPU_ENC_INPUT_USED = true ∨
        last.eOutRetCode.VPU_ENC_OUTPUT_DIS = true) ∧
      (finished_frames ev).length ≤ 1 := by
  rw [handle_frame_eq_setup] at hret
  split at hret
  · cases hret
  · rename_i res hsetup
    obtain ⟨r0, s0, f0, ev0⟩ := res
    simp only [Option.some.injEq, Prod.mk.injEq] at hret
    obtain ⟨hr, _, _, _⟩ := hret
    subst hr
    exact absurd rfl (handle_frame_setup_error env frame _ s _ _ _ hsetup).1
  · rename_i s3 param out frame1 ev4 hsetup
    obtain ⟨m1, m2, m3, m4, m5⟩ :=
      counts_of_not_main ev4 (setup_ok_not_main env frame frame1 s s3 param out ev4 hsetup)
    split at hret
    · cases hret
    · rename_i r0 frame2 ev5 henc
      simp only [Option.some.injEq, Prod.mk.injEq] at hret
      obtain ⟨_, _, _, hev5⟩ := hret
      obtain ⟨pre, x, post, hresp, hpre, hx, _, hcount, hfin, _, _⟩ :=
        handle_frame_encode_cases env _ param out frame1 _ _ _ henc
      have hxs : x.ret = .VPU_ENC_RET_SUCCESS :=
        hsucc x (by rw [hresp]; exact List.mem_append_right _ (List.mem_cons_self _ _))
      refine ⟨pre, x, post, hresp, ?_, ?_, ?_, ?_⟩
      · rw [← hev5, List.countP_append, m1, hcount, Nat.zero_add]
      · intro y hy
        have hg := hpre y hy
        simp only [EncodeFrameResponse.goes_on, Bool.and_eq_true, decide_eq_true_eq,
          Bool.not_eq_true'] at hg
        exact ⟨hg.2, hg.1.2⟩
      · simp only [EncodeFrameResponse.goes_on, hxs, decide_True, Bool.true_and] at hx
        rcases Bool.eq_false_or_eq_true x.eOutRetCode.VPU_ENC_OUTPUT_DIS with hd | hd
        · exact Or.inr hd
        · rcases Bool.eq_false_or_eq_true x.eOutRetCode.VPU_ENC_INPUT_USED with hu | hu
          · exact Or.inl hu
          · rw [hd, hu] at hx
            cases hx
      · rw [← hev5, finished_frames_append, m4, List.nil_append]
        exact hfin

/-- The first frame of a formatted session, with a sequence header and then a finished
frame with the input used: two encode calls, the second response ends the loop. -/
theorem handle_frame_loop_exit_witness :
    ∃ s2 f1 ev,
      gst_imx_vpu_base_enc_handle_frame handle_frame_env_ok frame_plain session_formatted =
        some (.GST_FLOW_OK, s2, f1, ev) ∧
      ∃ pre last post, handle_frame_env_ok.VPU_EncEncodeFrame = pre ++ last :: post ∧
        ev.countP Event.is_encode_frame = pre.length + 1 ∧
        (∀ r ∈ pre, r.eOutRetCode.VPU_ENC_INPUT_USED = false ∧
          r.eOutRetCode.VPU_ENC_OUTPUT_DIS = false) ∧
        (last.eOutRetCode.VPU_ENC_INPUT_USED = true ∨
          last.eOutRetCode.VPU_ENC_OUTPUT_DIS = true) ∧
        (finished_frames ev).length ≤ 1 :=
  ⟨_, _, _, rfl,
    handle_frame_loop_exit handle_frame_env_ok frame_plain _ session_formatted _ _
      (by decide) rfl⟩

/-- C13 (as stated): with a single successful response that is display-ready but does
not mark the input used, `handle_frame` returns `GST_FLOW_OK` after that one encode
call: the last response it received did not carry `VPU_ENC_INPUT_USED`. -/
theorem handle_frame_loop_exit_counterexample :
    ∃ s2 f1 ev r,
      gst_imx_vpu_base_enc_handle_frame handle_frame_env_dis_only frame_plain
        session_formatted = some (.GST_FLOW_OK, s2, f1, ev) ∧
      (∀ x ∈ handle_frame_env_dis_only.VPU_EncEncodeFrame, x.ret = .VPU_ENC_RET_SUCCESS) ∧
      (handle_frame_env_dis_only.VPU_EncEncodeFrame.take
        (ev.countP Event.is_encode_frame)).getLast? = some r ∧
      r.eOutRetCode.VPU_ENC_INPUT_USED = false :=
  ⟨_, _, _, _, rfl, by decide, rfl, rfl⟩

/-- C14: when `handle_frame` reaches its encode loop and, after responses that let the
loop go on, a `VPU_EncEncodeFrame` call returns a non-success code, `handle_frame`
returns `GST_FLOW_ERROR`; its calls end with that encode call followed by
`VPU_EncReset` on the handle, which is the only reset; there is one encode call per
response up to the failing one, and `gst_video_encoder_finish_frame` is not called. -/
theorem handle_frame_encode_failure (env : HandleFrameEnv)
    (frame frame1 : GstVideoCodecFrame) (s s3 : GstImxVpuBaseEnc) (param : VpuEncEncParam)
    (out : GstImxPhysMemory) (ev4 : List Event) (pre post : List EncodeFrameResponse)
    (bad : EncodeFrameResponse)
    (hsetup : handle_frame_setup env frame s = some (.ok (s3, param, out, frame1, ev4)))
    (hresp : env.VPU_EncEncodeFrame = pre ++ bad :: post)
    (hpre : ∀ r ∈ pre, r.goes_on = true)
    (hbad : bad.ret ≠ .VPU_ENC_RET_SUCCESS) :
    ∃ f1 evp,
      gst_imx_vpu_base_enc_handle_frame env frame s =
        some (.GST_FLOW_ERROR, s3, f1,
          evp ++ [.VPU_EncEncodeFrame s3.handle param bad.ret, .VPU_EncReset s3.handle]) ∧
      (evp ++ [Event.VPU_EncEncodeFrame s3.handle param bad.ret,
        Event.VPU_EncReset s3.handle]).countP Event.is_reset = 1 ∧
      (evp ++ [Event.VPU_EncEncodeFrame s3.handle param bad.ret,
        Event.VPU_EncReset s3.handle]).countP Event.is_encode_frame = pre.length + 1 ∧
      finished_frames (evp ++ [Event.VPU_EncEncodeFrame s3.handle param bad.ret,
        Event.VPU_EncReset s3.handle]) = [] := by
  obtain ⟨m1, m2, m3, m4, m5⟩ :=
    counts_of_not_main ev4 (setup_ok_not_main env frame frame1 s s3 param out ev4 hsetup)
  obtain ⟨p1, p2, p3, p4, p5⟩ :=
    encode_steps_events env s3.handle param out pre 0 (encode_init frame1)
  refine ⟨(encode_steps env s3.handle param out 0 pre (encode_init frame1)).1.frame,
    ev4 ++ (encode_steps env s3.handle param out 0 pre (encode_init frame1)).2,
    ?_, ?_, ?_, ?_⟩
  · rw [handle_frame_eq_setup, hsetup]
    simp only [handle_frame_encode_error env s3 param out frame1 pre post bad hresp hpre hbad,
      List.append_assoc]
  · simp only [List.countP_append, m2, p3]
    rfl
  · simp only [List.countP_append, m1, p2]
    simp [Event.is_encode_frame, List.countP_cons]
  · simp only [finished_frames_append, m4, p4]
    rfl

/-- The first frame of a formatted session, with a sequence header and then a failing
encode call: `GST_FLOW_ERROR`, one reset, two encode calls, no finished frame. -/
theorem handle_frame_encode_failure_witness :
    ∃ x : GstImxVpuBaseEnc × VpuEncEncParam × GstImxPhysMemory × GstVideoCodecFrame ×
        List Event,
      handle_frame_setup handle_frame_env_encode_fails frame_plain session_formatted =
        some (.ok x) ∧
      ∃ f1 evp,
        gst_imx_vpu_base_enc_handle_frame handle_frame_env_encode_fails frame_plain
          session_formatted =
          some (.GST_FLOW_ERROR, x.1, f1,
            evp ++ [.VPU_EncEncodeFrame x.1.handle x.2.1 (.VPU_ENC_RET_FAILURE 1),
              .VPU_EncReset x.1.handle]) ∧
        (evp ++ [Event.VPU_EncEncodeFrame x.1.handle x.2.1 (.VPU_ENC_RET_FAILURE 1),
          Event.VPU_EncReset x.1.handle]).countP Event.is_reset = 1 ∧
        (evp ++ [Event.VPU_EncEncodeFrame x.1.handle x.2.1 (.VPU_ENC_RET_FAILURE 1),
          Event.VPU_EncReset x.1.handle]).countP Event.is_encode_frame = 2 ∧
        finished_frames (evp ++
          [Event.VPU_EncEncodeFrame x.1.handle x.2.1 (.VPU_ENC_RET_FAILURE 1),
           Event.VPU_EncReset x.1.handle]) = [] :=
  ⟨_, rfl,
    handle_frame_encode_failure handle_frame_env_encode_fails frame_plain _
      session_formatted _ _ _ _
      [{ ret := .VPU_ENC_RET_SUCCESS
         eOutRetCode :=
           { VPU_ENC_INPUT_USED := false, VPU_ENC_OUTPUT_DIS := false,
             VPU_ENC_OUTPUT_SEQHEADER := true }
         nOutOutputSize := 30 }] []
      { ret := .VPU_ENC_RET_FAILURE 1
        eOutRetCode :=
          { VPU_ENC_INPUT_USED := false, VPU_ENC_OUTPUT_DIS := false,
            VPU_ENC_OUTPUT_SEQHEADER := false }
        nOutOutputSize := 0 }
      rfl rfl (by decide) (by decide)⟩

/-- The input stage with an internal input buffer already there, for a frame without
physical-memory metadata: the session is unchanged and the frame is copied into that
buffer, with no other call. -/
theorem input_reuse (env : HandleFrameEnv) (frame : GstVideoCodecFrame)
    (s s1 : GstImxVpuBaseEnc) (ib : GstBuffer) (rin : Except GstFlowReturn (GstBuffer × Nat))
    (ev1 : List Event)
    (hib : s.internal_input_buffer = some ib)
    (hmeta : frame.input_buffer.phys_mem_meta = none)
    (h : handle_frame_input env frame s = some (rin, s1, ev1)) :
    s1 = s ∧ ev1 = [.gst_video_frame_copy ib frame.input_buffer] := by
  unfold handle_frame_input at h
  simp only [hmeta, handle_frame_acquire, hib, ne_eq, not_true_eq_false, if_false,
    List.nil_append] at h
  split at h
  · cases h
  · simp only [Option.some.injEq, Prod.mk.injEq] at h
    exact ⟨h.2.1.symm, h.2.2.symm⟩

/-- The input stage of a session without internal pool and input buffer, when the pool
is created and the acquisition succeeds: one pool creation, one acquisition, and the
frame is copied into the acquired buffer, which the session keeps with the pool. -/
theorem input_first (env : HandleFrameEnv) (frame : GstVideoCodecFrame)
    (s s1 : GstImxVpuBaseEnc) (ib : GstBuffer) (p : Nat)
    (rin : Except GstFlowReturn (GstBuffer × Nat)) (ev1 : List Event)
    (hib : s.internal_input_buffer = none) (hpool : s.internal_bufferpool = none)
    (hnew : env.gst_imx_phys_mem_buffer_pool_new = some p)
    (hacq : env.gst_buffer_pool_acquire_buffer = (.GST_FLOW_OK, some ib))
    (hmeta : frame.input_buffer.phys_mem_meta = none)
    (h : handle_frame_input env frame s = some (rin, s1, ev1)) :
    s1.internal_input_buffer = some ib ∧ s1.internal_bufferpool = some p ∧
    ev1.countP Event.is_acquire = 1 ∧ ev1.countP Event.is_pool_new = 1 ∧
    copy_dests ev1 = [ib] := by
  unfold handle_frame_input at h
  simp only [hmeta, handle_frame_acquire, handle_frame_create_pool, hib, hpool, hnew, hacq,
    ne_eq, not_true_eq_false, if_false, Bool.not_true, Bool.false_eq_true] at h
  split at h
  · cases h
  · simp only [Option.some.injEq, Prod.mk.injEq] at h
    obtain ⟨_, hs, hev⟩ := h
    rw [← hs, ← hev]
    cases env.gst_buffer_pool_is_active <;>
      simp [Event.is_acquire, Event.is_pool_new, copy_dests, List.countP_cons]

/-- A call of `handle_frame` with an internal input buffer already there, for a frame
without physical-memory metadata: buffer and pool are kept, nothing is acquired, no
pool is created, and the frame is copied into that buffer. -/
theorem handle_frame_reuse (env : HandleFrameEnv) (frame f1 : GstVideoCodecFrame)
    (s s2 : GstImxVpuBaseEnc) (ib : GstBuffer) (r : GstFlowReturn) (ev : List Event)
    (hib : s.internal_input_buffer = some ib)
    (hmeta : frame.input_buffer.phys_mem_meta = none)
    (h : gst_imx_vpu_base_enc_handle_frame env frame s = some (r, s2, f1, ev)) :
    s2.internal_input_buffer = some ib ∧ s2.internal_bufferpool = s.internal_bufferpool ∧
    ev.countP Event.is_acquire = 0 ∧ ev.countP Event.is_pool_new = 0 ∧
    copy_dests ev = [ib] := by
  obtain ⟨rin, s1, ev1, rest, hin, hev, hrest, h1, h2⟩ :=
    handle_frame_parts env frame f1 s s2 r ev h
  obtain ⟨hs, hev1⟩ := input_reuse env frame s s1 ib rin ev1 hib hmeta hin
  obtain ⟨c1, c2, c3⟩ := counts_of_not_input rest hrest
  subst hs
  rw [hev, hev1, h1, h2, List.countP_append, List.countP_append, copy_dests_append, c1, c2, c3]
  exact ⟨hib, rfl, rfl, rfl, rfl⟩

/-- A call of `handle_frame` on a session without internal pool and input buffer, for a
frame without physical-memory metadata, when the pool is created and the acquisition
succeeds: one pool creation, one acquisition, and the frame is copied into the
acquired buffer, which the session keeps with the pool. -/
theorem handle_frame_first (env : HandleFrameEnv) (frame f1 : GstVideoCodecFrame)
    (s s2 : GstImxVpuBaseEnc) (ib : GstBuffer) (p : Nat) (r : GstFlowReturn)
    (ev : List Event)
    (hib : s.internal_input_buffer = none) (hpool : s.internal_bufferpool = none)
    (hnew : env.gst_imx_phys_mem_buffer_pool_new = some p)
    (hacq : env.gst_buffer_pool_acquire_buffer = (.GST_FLOW_OK, some ib))
    (hmeta : frame.input_buffer.phys_mem_meta = none)
    (h : gst_imx_vpu_base_enc_handle_frame env frame s = some (r, s2, f1, ev)) :
    s2.internal_input_buffer = some ib ∧ s2.internal_bufferpool = some p ∧
    ev.countP Event.is_acquire = 1 ∧ ev.countP Event.is_pool_new = 1 ∧
    copy_dests ev = [ib] := by
  obtain ⟨rin, s1, ev1, rest, hin, hev, hrest, h1, h2⟩ :=
    handle_frame_parts env frame f1 s s2 r ev h
  obtain ⟨i1, i2, i3, i4, i5⟩ :=
    input_first env frame s s1 ib p rin ev1 hib hpool hnew hacq hmeta hin
  obtain ⟨c1, c2, c3⟩ := counts_of_not_input rest hrest
  rw [hev, h1, h2, List.countP_append, List.countP_append, copy_dests_append, c1, c2, c3,
    i3, i4, i5]
  exact ⟨i1, i2, rfl, rfl, rfl⟩

/-- The encode parameters of two traces in a row. -/
theorem encode_params_append (a b : List Event) :
    encode_params (a ++ b) = encode_params a ++ encode_params b := by
  simp only [encode_params, List.filterMap_append]

/-- A call outside the main encoding block is no encode call. -/
theorem not_main_event_params (e : Event) (h : e.in_main_block = false) :
    encode_params [e] = [] := by
  cases e <;>
    first
    | rfl
    | exact absurd h (by simp [Event.in_main_block])

/-- Calls outside the main encoding block are no encode calls. -/
theorem encode_params_of_not_main (tr : List Event)
    (h : tr.all (fun e => !e.in_main_block) = true) : encode_params tr = [] := by
  induction tr with
  | nil => rfl
  | cons e es ih =>
    simp only [List.all_cons, Bool.and_eq_true, Bool.not_eq_true'] at h
    have hc : e :: es = [e] ++ es := rfl
    rw [hc, encode_params_append, not_main_event_params e h.1, ih h.2]
    rfl

/-- Taking output makes no encode call. -/
theorem encode_output_params (env : HandleFrameEnv) (out : GstImxPhysMemory)
    (k : Nat) (r : EncodeFrameResponse) (st : EncodeLoopState) :
    encode_params (encode_output env out k r st).2 = [] := by
  unfold encode_output
  split
  · cases st.output_buffer <;> cases env.fill_output_buffer <;> rfl
  · rfl

/-- The encode calls of the iterations after which the loop goes on are made with the
encode parameters of the loop. -/
theorem encode_steps_params (env : HandleFrameEnv) (handle : Nat)
    (param : VpuEncEncParam) (out : GstImxPhysMemory) (pre : List EncodeFrameResponse) :
    ∀ (k : Nat) (st : EncodeLoopState),
      ∀ p ∈ encode_params (encode_steps env handle param out k pre st).2, p = param := by
  induction pre with
  | nil => intro k st p hp; cases hp
  | cons r rs ih =>
    intro k st p hp
    rw [encode_steps, encode_params_append, encode_params_append, encode_output_params,
      List.append_nil] at hp
    rcases List.mem_append.mp hp with h | h
    · have e : encode_params [Event.VPU_EncEncodeFrame handle param r.ret] = [param] := rfl
      rw [e] at h
      exact List.mem_singleton.mp h
    · exact ih (k + 1) _ p h

/-- The encode calls of the main encoding block are made with the encode parameters it
was given. -/
theorem handle_frame_encode_params (env : HandleFrameEnv) (s : GstImxVpuBaseEnc)
    (param : VpuEncEncParam) (out : GstImxPhysMemory) (frame f1 : GstVideoCodecFrame)
    (r : GstFlowReturn) (ev : List Event)
    (h : handle_frame_encode env s param out frame = some (r, f1, ev)) :
    ∀ p ∈ encode_params ev, p = param := by
  rcases goes_on_split env.VPU_EncEncodeFrame with hall | ⟨pre, x, post, hresp, hpre, hx⟩
  · rw [handle_frame_encode_exhausted env s param out frame hall] at h
    cases h
  · have hp := encode_steps_params env s.handle param out pre 0 (encode_init frame)
    have ho := encode_output_params env out (0 + pre.length) x
      (encode_steps env s.handle param out 0 pre (encode_init frame)).1
    have hone : ∀ p ∈ encode_params [Event.VPU_EncEncodeFrame s.handle param x.ret],
        p = param := by
      intro p hp1
      have e : encode_params [Event.VPU_EncEncodeFrame s.handle param x.ret] = [param] := rfl
      rw [e] at hp1
      exact List.mem_singleton.mp hp1
    by_cases hret : x.ret = .VPU_ENC_RET_SUCCESS
    · rcases Bool.eq_false_or_eq_true x.eOutRetCode.VPU_ENC_OUTPUT_DIS with hdis | hdis
      · rw [handle_frame_encode_dis env s param out frame pre post x hresp hpre hret hdis] at h
        split at h
        · cases h
        · simp only [Option.some.injEq, Prod.mk.injEq] at h
          obtain ⟨_, _, hev⟩ := h
          intro p hmem
          rw [← hev] at hmem
          simp only [encode_params_append, ho, List.append_nil, List.mem_append] at hmem
          rcases hmem with h1 | h1 | h1
          · exact hp p h1
          · exact hone p h1
          · simp [encode_params] at h1
      · have hused : x.eOutRetCode.VPU_ENC_INPUT_USED = true := by
          simp only [EncodeFrameResponse.goes_on, hret, hdis, decide_True, Bool.not_false,
            Bool.and_self, Bool.true_and, Bool.not_eq_false'] at hx
          exact hx
        rw [handle_frame_encode_used env s param out frame pre post x hresp hpre hret hdis
          hused] at h
        split at h <;>
        · simp only [Option.some.injEq, Prod.mk.injEq] at h
          obtain ⟨_, _, hev⟩ := h
          intro p hmem
          rw [← hev] at hmem
          simp only [encode_params_append, ho, List.append_nil, List.mem_append] at hmem
          first
          | rcases hmem with (h1 | h1) | h1
            · exact hp p h1
            · exact hone p h1
            · simp [encode_params] at h1
          | rcases hmem with h1 | h1
            · exact hp p h1
            · exact hone p h1
    · rw [handle_frame_encode_error env s param out frame pre post x hresp hpre hret] at h
      simp only [Option.some.injEq, Prod.mk.injEq] at h
      obtain ⟨_, _, hev⟩ := h
      intro p hmem
      rw [← hev] at hmem
      simp only [encode_params_append, List.mem_append] at hmem
      rcases hmem with h1 | h1
      · exact hp p h1
      · have e : encode_params [Event.VPU_EncEncodeFrame s.handle param x.ret,
            Event.VPU_EncReset s.handle] = [param] := rfl
        rw [e] at h1
        exact List.mem_singleton.mp h1

/-- The encode parameters the setup part of `handle_frame` hands to the main encoding
block: what the hook of the derived class made of parameters whose input frame is at
the physical address the input stage gave. -/
theorem handle_frame_setup_param (env : HandleFrameEnv) (frame frame1 : GstVideoCodecFrame)
    (s s3 : GstImxVpuBaseEnc) (param : VpuEncEncParam) (out : GstImxPhysMemory)
    (ev4 : List Event)
    (h : handle_frame_setup env frame s = some (.ok (s3, param, out, frame1, ev4))) :
    ∃ hook ib addr s1 ev1 p0,
      env.set_frame_enc_params = some hook ∧
      handle_frame_input env frame s = some (.ok (ib, addr), s1, ev1) ∧
      p0.pInFrame.pbufY = addr ∧ param = (hook p0).2 := by
  unfold handle_frame_setup at h
  split at h
  · cases h
  · rename_i hook hhook
    split at h
    · cases h
    · cases h
    · rename_i ib addr s1 ev1 hin
      dsimp only at h
      cases hforce : (frame.force_keyframe || frame.force_keyframe_headers) <;>
        simp only [hforce, Bool.false_eq_true, if_false, if_true] at h <;>
        (split at h
         · cases h
         · split at h
           · cases h
           · cases h
           · split at h
             · split at h
               · cases h
               · simp only [Option.some.injEq, Except.ok.injEq, Prod.mk.injEq] at h
                 obtain ⟨_, hp, _, _, _⟩ := h
                 exact ⟨hook, ib, addr, s1, ev1, _, hhook, hin, rfl, hp.symm⟩
             · cases h)

/-- The input stage for a frame without physical-memory metadata: the buffer it gives
is the session's internal input buffer, at the address of its physical-memory
metadata. -/
theorem input_source (env : HandleFrameEnv) (frame : GstVideoCodecFrame)
    (s s1 : GstImxVpuBaseEnc) (b : GstBuffer) (addr : Nat) (ev1 : List Event)
    (hmeta : frame.input_buffer.phys_mem_meta = none)
    (h : handle_frame_input env frame s = some (.ok (b, addr), s1, ev1)) :
    s1.internal_input_buffer = some b ∧ b.phys_mem_meta = some addr := by
  unfold handle_frame_input at h
  simp only [hmeta] at h
  split at h
  · cases h
  · split at h
    · cases h
    · rename_i ib hib
      split at h
      · cases h
      · rename_i a ha
        simp only [Option.some.injEq, Prod.mk.injEq, Except.ok.injEq] at h
        obtain ⟨⟨hb, haddr⟩, hs, _⟩ := h
        subst hb haddr hs
        exact ⟨hib, ha⟩

/-- The encode calls of a call of `handle_frame` for a frame without physical-memory
metadata: each is made with what the hook of the derived class made of parameters
whose input frame is at the physical address of the internal input buffer the
session holds afterwards. -/
theorem handle_frame_source (env : HandleFrameEnv) (frame f1 : GstVideoCodecFrame)
    (s s2 : GstImxVpuBaseEnc) (ib : GstBuffer) (r : GstFlowReturn) (ev : List Event)
    (hmeta : frame.input_buffer.phys_mem_meta = none)
    (h : gst_imx_vpu_base_enc_handle_frame env frame s = some (r, s2, f1, ev))
    (hib : s2.internal_input_buffer = some ib) :
    ∀ p ∈ encode_params ev, ∃ hook p0, env.set_frame_enc_params = some hook ∧
      ib.phys_mem_meta = some p0.pInFrame.pbufY ∧ p = (hook p0).2 := by
  obtain ⟨rin, s1, ev1, rest, hin, _, _, h1, _⟩ := handle_frame_parts env frame f1 s s2 r ev h
  rw [handle_frame_eq_setup] at h
  split at h
  · cases h
  · rename_i res hsetup
    obtain ⟨r0, s0, f0, ev0⟩ := res
    simp only [Option.some.injEq, Prod.mk.injEq] at h
    obtain ⟨_, _, _, hev⟩ := h
    obtain ⟨_, rin2, s12, ev12, mid, hin2, hev2, hmid, _, _⟩ :=
      handle_frame_setup_error env frame _ s _ _ _ hsetup
    intro p hp
    rw [← hev, hev2, encode_params_append,
      encode_params_of_not_main ev12 (not_main_of_input ev12
        (input_frame env frame s s12 _ ev12 hin2).1),
      encode_params_of_not_main mid (not_both mid hmid).2] at hp
    cases hp
  · rename_i s3 param out frame1 ev4 hsetup
    obtain ⟨hook, b, addr, s1b, ev1b, p0, hhook, hinb, hp0, hparam⟩ :=
      handle_frame_setup_param env frame frame1 s s3 param out ev4 hsetup
    rw [hinb] at hin
    simp only [Option.some.injEq, Prod.mk.injEq] at hin
    obtain ⟨_, hs1, _⟩ := hin
    obtain ⟨i1, i2⟩ := input_source env frame s s1b b addr ev1b hmeta hinb
    rw [← hs1, i1] at h1
    rw [hib] at h1
    simp only [Option.some.injEq] at h1
    split at h
    · cases h
    · rename_i r0 frame2 ev5 henc
      simp only [Option.some.injEq, Prod.mk.injEq] at h
      obtain ⟨_, _, _, hev⟩ := h
      intro p hp
      rw [← hev, encode_params_append,
        encode_params_of_not_main ev4
          (setup_ok_not_main env frame frame1 s s3 param out ev4 hsetup),
        List.nil_append] at hp
      refine ⟨hook, p0, hhook, ?_, ?_⟩
      · rw [h1, hp0]
        exact i2
      · rw [handle_frame_encode_params env s3 param out frame1 _ _ _ henc p hp]
        exact hparam

/-- Calls of `handle_frame` for frames without physical-memory metadata on a session
that has an internal input buffer: after each of them the session still has that
buffer and its pool, nothing was acquired, no pool was created, every call copied
its frame into that buffer, and every encode call was made with what the hook of one
of the calls made of parameters whose input frame is at that buffer's physical
address. -/
theorem run_reuse (ib : GstBuffer) (calls : List Call) :
    ∀ (w0 : World), w0.enc.internal_input_buffer = some ib →
      (∀ c ∈ calls, ∃ env frame, c = Call.handle_frame env frame ∧
        frame.input_buffer.phys_mem_meta = none) →
      ∀ (i : Nat) (w : World), (run calls w0)[i]? = some w →
        w.enc.internal_input_buffer = some ib ∧
        w.enc.internal_bufferpool = w0.enc.internal_bufferpool ∧
        ∃ ev, w.trace = w0.trace ++ ev ∧ ev.countP Event.is_acquire = 0 ∧
          ev.countP Event.is_pool_new = 0 ∧ copy_dests ev = List.replicate (i + 1) ib ∧
          ∀ p ∈ encode_params ev, ∃ env frame hook p0,
            Call.handle_frame env frame ∈ calls ∧ env.set_frame_enc_params = some hook ∧
            ib.phys_mem_meta = some p0.pInFrame.pbufY ∧ p = (hook p0).2 := by
  induction calls with
  | nil =>
    intro w0 _ _ i w h
    simp [run] at h
  | cons c cs ih =>
    intro w0 hib hcalls i w h
    obtain ⟨env, frame, hc, hmeta⟩ := hcalls c (List.mem_cons_self _ _)
    subst hc
    rw [run] at h
    simp only [Call.step] at h
    cases hf : gst_imx_vpu_base_enc_handle_frame env frame w0.enc with
    | none =>
      rw [hf] at h
      simp at h
    | some res =>
      obtain ⟨r, s2, f2, ev⟩ := res
      rw [hf] at h
      obtain ⟨q1, q2, q3, q4, q5⟩ := handle_frame_reuse env frame f2 w0.enc s2 ib r ev hib hmeta hf
      have q6 := handle_frame_source env frame f2 w0.enc s2 ib r ev hmeta hf q1
      have q7 : ∀ p ∈ encode_params ev, ∃ env1 frame1 hook p0,
          Call.handle_frame env1 frame1 ∈ Call.handle_frame env frame :: cs ∧
          env1.set_frame_enc_params = some hook ∧
          ib.phys_mem_meta = some p0.pInFrame.pbufY ∧ p = (hook p0).2 := by
        intro p hp
        obtain ⟨hook, p0, k1, k2, k3⟩ := q6 p hp
        exact ⟨env, frame, hook, p0, List.mem_cons_self _ _, k1, k2, k3⟩
      cases i with
      | zero =>
        simp only [List.getElem?_cons_zero, Option.some.injEq] at h
        subst h
        exact ⟨q1, q2, ev, rfl, q3, q4, q5, q7⟩
      | succ j =>
        simp only [List.getElem?_cons_succ] at h
        obtain ⟨j1, j2, ev2, j3, j4, j5, j6, j7⟩ :=
          ih _ q1 (fun c hc => hcalls c (List.mem_cons_of_mem _ hc)) j w h
        refine ⟨j1, j2.trans q2, ev ++ ev2, ?_, ?_, ?_, ?_, ?_⟩
        · rw [j3, List.append_assoc]
        · rw [List.countP_append, q3, j4]
        · rw [List.countP_append, q4, j5]
        · rw [copy_dests_append, q5, j6]
          rfl
        · intro p hp
          rw [encode_params_append] at hp
          rcases List.mem_append.mp hp with hp1 | hp1
          · exact q7 p hp1
          · obtain ⟨env1, frame1, hook, p0, k0, k1, k2, k3⟩ := j7 p hp1
            exact ⟨env1, frame1, hook, p0, List.mem_cons_of_mem _ k0, k1, k2, k3⟩

/-- C15 (amended): for every sequence of `handle_frame` calls, with nothing in between,
for frames whose input buffers carry no physical-memory metadata, on a session that
has no internal pool and no internal input buffer, when the first call creates the
pool and its acquisition succeeds and gives a buffer: after each call that returned,
the session holds that buffer and that pool, there was exactly one pool creation and
exactly one acquisition in total, every call copied its frame into that same buffer,
and every `VPU_EncEncodeFrame` call was made with what the hook of one of the calls
made of encode parameters whose input frame is at that buffer's physical address. -/
theorem fallback_buffer_acquired_once (env1 : HandleFrameEnv) (frame1 : GstVideoCodecFrame)
    (calls : List Call) (w0 : World) (ib : GstBuffer) (p : Nat)
    (h0 : w0.enc.internal_input_buffer = none ∧ w0.enc.internal_bufferpool = none)
    (hnew : env1.gst_imx_phys_mem_buffer_pool_new = some p)
    (hacq : env1.gst_buffer_pool_acquire_buffer = (.GST_FLOW_OK, some ib))
    (hf1 : frame1.input_buffer.phys_mem_meta = none)
    (hcalls : ∀ c ∈ calls, ∃ env frame, c = Call.handle_frame env frame ∧
      frame.input_buffer.phys_mem_meta = none) :
    ∀ (i : Nat) (w : World), (run (Call.handle_frame env1 frame1 :: calls) w0)[i]? = some w →
      w.enc.internal_input_buffer = some ib ∧ w.enc.internal_bufferpool = some p ∧
      ∃ ev, w.trace = w0.trace ++ ev ∧ ev.countP Event.is_acquire = 1 ∧
        ev.countP Event.is_pool_new = 1 ∧ copy_dests ev = List.replicate (i + 1) ib ∧
        ∀ q ∈ encode_params ev, ∃ env frame hook p0,
          Call.handle_frame env frame ∈ Call.handle_frame env1 frame1 :: calls ∧
          env.set_frame_enc_params = some hook ∧
          ib.phys_mem_meta = some p0.pInFrame.pbufY ∧ q = (hook p0).2 := by
  intro i w h
  rw [run] at h
  simp only [Call.step] at h
  cases hf : gst_imx_vpu_base_enc_handle_frame env1 frame1 w0.enc with
  | none =>
    rw [hf] at h
    simp at h
  | some res =>
    obtain ⟨r, s2, f2, ev⟩ := res
    rw [hf] at h
    obtain ⟨q1, q2, q3, q4, q5⟩ :=
      handle_frame_first env1 frame1 f2 w0.enc s2 ib p r ev h0.1 h0.2 hnew hacq hf1 hf
    have q6 := handle_frame_source env1 frame1 f2 w0.enc s2 ib r ev hf1 hf q1
    have q7 : ∀ q ∈ encode_params ev, ∃ env frame hook p0,
        Call.handle_frame env frame ∈ Call.handle_frame env1 frame1 :: calls ∧
        env.set_frame_enc_params = some hook ∧
        ib.phys_mem_meta = some p0.pInFrame.pbufY ∧ q = (hook p0).2 := by
      intro q hq
      obtain ⟨hook, p0, k1, k2, k3⟩ := q6 q hq
      exact ⟨env1, frame1, hook, p0, List.mem_cons_self _ _, k1, k2, k3⟩
    cases i with
    | zero =>
      simp only [List.getElem?_cons_zero, Option.some.injEq] at h
      subst h
      exact ⟨q1, q2, ev, rfl, q3, q4, q5, q7⟩
    | succ j =>
      simp only [List.getElem?_cons_succ] at h
      obtain ⟨j1, j2, ev2, j3, j4, j5, j6, j7⟩ := run_reuse ib calls _ q1 hcalls j w h
      refine ⟨j1, j2.trans q2, ev ++ ev2, ?_, ?_, ?_, ?_, ?_⟩
      · rw [j3, List.append_assoc]
      · rw [List.countP_append, q3, j4]
      · rw [List.countP_append, q4, j5]
      · rw [copy_dests_append, q5, j6]
        rfl
      · intro q hq
        rw [encode_params_append] at hq
        rcases List.mem_append.mp hq with hq1 | hq1
        · exact q7 q hq1
        · obtain ⟨env, frame, hook, p0, k0, k1, k2, k3⟩ := j7 q hq1
          exact ⟨env, frame, hook, p0, List.mem_cons_of_mem _ k0, k1, k2, k3⟩

/-- Two frames without physical-memory metadata on a formatted session: both calls
return; one acquisition and one pool creation in total, one copy per call, and all
four encode calls read the input frame at 200000, the physical address of the
acquired buffer. -/
theorem fallback_buffer_acquired_once_witness :
    (∀ (i : Nat) (w : World),
      (run (Call.handle_frame handle_frame_env_ok frame_plain ::
        [Call.handle_frame handle_frame_env_ok frame_plain]) formatted_world)[i]? = some w →
      w.enc.internal_input_buffer =
        some { id := 9, phys_mem_meta := some 200000, video_meta := none } ∧
      w.enc.internal_bufferpool = some 3 ∧
      ∃ ev, w.trace = formatted_world.trace ++ ev ∧ ev.countP Event.is_acquire = 1 ∧
        ev.countP Event.is_pool_new = 1 ∧
        copy_dests ev = List.replicate (i + 1)
          { id := 9, phys_mem_meta := some 200000, video_meta := none } ∧
        ∀ q ∈ encode_params ev, ∃ env frame hook p0,
          Call.handle_frame env frame ∈ Call.handle_frame handle_frame_env_ok frame_plain ::
            [Call.handle_frame handle_frame_env_ok frame_plain] ∧
          env.set_frame_enc_params = some hook ∧
          ({ id := 9, phys_mem_meta := some 200000, video_meta := none } :
            GstBuffer).phys_mem_meta = some p0.pInFrame.pbufY ∧ q = (hook p0).2) ∧
    (run (Call.handle_frame handle_frame_env_ok frame_plain ::
      [Call.handle_frame handle_frame_env_ok frame_plain]) formatted_world).map
        (fun w => (w.trace.countP Event.is_acquire, w.trace.countP Event.is_pool_new,
          (copy_dests w.trace).length,
          (encode_params w.trace).map (fun q => q.pInFrame.pbufY))) =
      [(1, 1, 1, [200000, 200000]), (1, 1, 2, [200000, 200000, 200000, 200000])] :=
  ⟨fallback_buffer_acquired_once handle_frame_env_ok frame_plain
      [Call.handle_frame handle_frame_env_ok frame_plain] formatted_world
      { id := 9, phys_mem_meta := some 200000, video_meta := none } 3
      ⟨rfl, rfl⟩ rfl rfl rfl
      (fun c hc => ⟨handle_frame_env_ok, frame_plain, List.mem_singleton.mp hc, rfl⟩),
    by rfl⟩

/-- C15 (as stated): two frames without physical-memory metadata on a formatted session
where the acquisition of the first call fails and gives no buffer: the first call
returns `GST_FLOW_ERROR` with the session still without internal input buffer, and
the second call acquires again, which makes two acquisitions in total. -/
theorem fallback_buffer_acquired_once_counterexample :
    formatted_world.enc.internal_input_buffer = none ∧
    frame_plain.input_buffer.phys_mem_meta = none ∧
    (gst_imx_vpu_base_enc_handle_frame handle_frame_env_acquire_fails frame_plain
      formatted_world.enc).map (fun r => (r.1, r.2.1.internal_input_buffer)) =
      some (.GST_FLOW_ERROR, none) ∧
    (run [Call.handle_frame handle_frame_env_acquire_fails frame_plain,
      Call.handle_frame handle_frame_env_ok frame_plain] formatted_world).map
        (fun w => (w.trace.countP Event.is_acquire, w.trace.countP Event.is_pool_new)) =
      [(1, 1), (2, 1)] :=
  ⟨rfl, rfl, by rfl, by rfl⟩

/-- C16 (amended): on a session without framebuffers structure (as after `set_format`),
when `handle_frame` gets past its input stage and constructing the framebuffers
structure fails, it returns `GST_FLOW_ERROR` right after that call, with no
`VPU_EncEncodeFrame` call; when the construction succeeds, the framebuffers block
goes on whatever `gst_imx_vpu_framebuffers_register_with_encoder` returns. -/
theorem handle_frame_framebuffers_failure (env : HandleFrameEnv) (frame : GstVideoCodecFrame)
    (s s1 : GstImxVpuBaseEnc) (ib : GstBuffer) (addr : Nat) (ev1 : List Event)
    (hook : VpuEncEncParam → Bool × VpuEncEncParam)
    (hhook : env.set_frame_enc_params = some hook)
    (hin : handle_frame_input env frame s = some (.ok (ib, addr), s1, ev1))
    (hfb : s.framebuffers = none)
    (hnew : env.gst_imx_vpu_framebuffers_new = none) :
    (gst_imx_vpu_base_enc_handle_frame env frame s =
        some (.GST_FLOW_ERROR, { s1 with framebuffers := none }, frame,
          ev1 ++ [.gst_imx_vpu_framebuffers_new s1.open_param.nPicWidth
            s1.open_param.nPicHeight]) ∧
      (ev1 ++ [Event.gst_imx_vpu_framebuffers_new s1.open_param.nPicWidth
        s1.open_param.nPicHeight]).countP Event.is_encode_frame = 0) ∧
    (∀ (env2 : HandleFrameEnv) (stride : Int) (s0 : GstImxVpuBaseEnc)
        (fb : GstImxVpuFramebuffers),
      s0.framebuffers = none → env2.gst_imx_vpu_framebuffers_new = some fb →
      (handle_frame_framebuffers env2 stride s0).1 = true ∧
      (handle_frame_framebuffers env2 stride s0).2.1 = { s0 with framebuffers := some fb }) := by
  obtain ⟨i1, i2, _, _⟩ := input_frame env frame s s1 _ ev1 hin
  obtain ⟨m1, _⟩ := counts_of_not_main ev1 (not_main_of_input ev1 i1)
  refine ⟨⟨?_, ?_⟩, ?_⟩
  · unfold gst_imx_vpu_base_enc_handle_frame
    simp only [hhook, hin, handle_frame_framebuffers, i2, hfb, hnew, Bool.not_false, if_true]
  · rw [List.countP_append, m1]
    rfl
  · intro env2 stride s0 fb h1 h2
    simp only [handle_frame_framebuffers, h1, h2, and_self]

/-- The first frame of a formatted session when the framebuffers structure cannot be
constructed: `GST_FLOW_ERROR`, no encode call. -/
theorem handle_frame_framebuffers_failure_witness :
    ∃ s2 ev,
      gst_imx_vpu_base_enc_handle_frame handle_frame_env_no_framebuffers frame_plain
        session_formatted = some (.GST_FLOW_ERROR, s2, frame_plain, ev) ∧
      ev.countP Event.is_encode_frame = 0 :=
  ⟨_, _,
    (handle_frame_framebuffers_failure handle_frame_env_no_framebuffers frame_plain
      session_formatted _ _ _ _ _ rfl rfl rfl rfl).1⟩

/-- C16 (as stated): on the first frame of a formatted session, with a failing
registration of the newly constructed framebuffers with the encoder, `handle_frame`
still makes its two encode calls and returns `GST_FLOW_OK`. -/
theorem handle_frame_register_counterexample :
    session_formatted.framebuffers = none ∧
    ∃ s2 f1 ev,
      gst_imx_vpu_base_enc_handle_frame handle_frame_env_register_fails frame_plain
        session_formatted = some (.GST_FLOW_OK, s2, f1, ev) ∧
      Event.gst_imx_vpu_framebuffers_register_with_encoder 42 640 false
        ∈ ev ∧
      ev.countP Event.is_encode_frame = 2 :=
  ⟨rfl, _, _, _, rfl, by decide, rfl⟩

/-- Taking output keeps the output buffer there is, or takes the one the allocation
gives. -/
theorem encode_output_source (env : HandleFrameEnv) (out : GstImxPhysMemory)
    (k : Nat) (r : EncodeFrameResponse) (st : EncodeLoopState) :
    (encode_output env out k r st).1.output_buffer = st.output_buffer ∨
    (encode_output env out k r st).1.output_buffer =
      env.gst_video_encoder_allocate_output_buffer k := by
  unfold encode_output
  split
  · cases hob : st.output_buffer with
    | none => right; rfl
    | some b => left; simp only [hob]
  · left; rfl

/-- The iterations after which the loop goes on keep the output buffer there is, or
leave one an allocation gave. -/
theorem encode_steps_source (env : HandleFrameEnv) (handle : Nat)
    (param : VpuEncEncParam) (out : GstImxPhysMemory) (pre : List EncodeFrameResponse) :
    ∀ (k : Nat) (st : EncodeLoopState),
      (encode_steps env handle param out k pre st).1.output_buffer = st.output_buffer ∨
      ∃ j, (encode_steps env handle param out k pre st).1.output_buffer =
        env.gst_video_encoder_allocate_output_buffer j := by
  induction pre with
  | nil => intro k st; left; rfl
  | cons r rs ih =>
    intro k st
    rw [encode_steps]
    rcases ih (k + 1) (encode_output env out k r st).1 with h | ⟨j, h⟩
    · rcases encode_output_source env out k r st with h1 | h1
      · left; exact h.trans h1
      · right; exact ⟨k, h.trans h1⟩
    · right; exact ⟨j, h⟩

/-- C22: when `handle_frame` reaches its encode loop, output buffers can be allocated,
the hardware answers with successful responses that neither finish the frame nor mark
the input used and then with a successful response that marks the input used without
being display-ready, and one of these responses reported output (a sequence header),
then `handle_frame` returns `GST_FLOW_OK`; its calls end with the release of the
output buffer, which is the one buffer that was allocated, followed by the only
`gst_video_encoder_finish_frame` call, made with `frame->output_buffer` set to `NULL`;
no size is set on the buffer. -/
theorem handle_frame_unfinished_dropped (env : HandleFrameEnv)
    (frame frame1 : GstVideoCodecFrame) (s s3 : GstImxVpuBaseEnc) (param : VpuEncEncParam)
    (out : GstImxPhysMemory) (ev4 : List Event) (pre post : List EncodeFrameResponse)
    (last : EncodeFrameResponse)
    (hsetup : handle_frame_setup env frame s = some (.ok (s3, param, out, frame1, ev4)))
    (hresp : env.VPU_EncEncodeFrame = pre ++ last :: post)
    (halloc : ∀ i, (env.gst_video_encoder_allocate_output_buffer i).isSome = true)
    (hpre : ∀ r ∈ pre, r.goes_on = true)
    (hlast : last.ret = .VPU_ENC_RET_SUCCESS ∧ last.eOutRetCode.VPU_ENC_OUTPUT_DIS = false ∧
      last.eOutRetCode.VPU_ENC_INPUT_USED = true)
    (hout : (pre ++ [last]).any EncodeFrameResponse.has_output = true) :
    ∃ b evp,
      gst_imx_vpu_base_enc_handle_frame env frame s =
        some (.GST_FLOW_OK, s3, { frame1 with output_buffer := none },
          evp ++ [.gst_buffer_unref_output b,
            .gst_video_encoder_finish_frame { frame1 with output_buffer := none }]) ∧
      (∃ j, env.gst_video_encoder_allocate_output_buffer j = some b) ∧
      evp.countP Event.is_allocate_output = 1 ∧
      finished_frames evp = [] ∧ set_sizes evp = [] := by
  obtain ⟨m1, m2, m3, m4, m5⟩ :=
    counts_of_not_main ev4 (setup_ok_not_main env frame frame1 s s3 param out ev4 hsetup)
  obtain ⟨p1, p2, p3, p4, p5⟩ :=
    encode_steps_events env s3.handle param out pre 0 (encode_init frame1)
  obtain ⟨a1, a2⟩ := encode_steps_alloc env s3.handle param out pre halloc 0
    (encode_init frame1)
  have hinv := encode_steps_inv env s3.handle param out pre frame1 0 (encode_init frame1) rfl
  obtain ⟨o1, o2, o3, o4, o5⟩ := encode_output_events env out (0 + pre.length) last
    (encode_steps env s3.handle param out 0 pre (encode_init frame1)).1
  obtain ⟨b1, b2⟩ := encode_output_alloc env out (0 + pre.length) last
    (encode_steps env s3.handle param out 0 pre (encode_init frame1)).1 halloc
  have hinv2 := encode_output_inv env out (0 + pre.length) last
    (encode_steps env s3.handle param out 0 pre (encode_init frame1)).1 frame1 hinv
  have hsrc := encode_output_source env out (0 + pre.length) last
    (encode_steps env s3.handle param out 0 pre (encode_init frame1)).1
  have hsrc2 := encode_steps_source env s3.handle param out pre 0 (encode_init frame1)
  have henc := handle_frame_encode_used env s3 param out frame1 pre post last hresp hpre
    hlast.1 hlast.2.1 hlast.2.2
  have hany : (pre.any EncodeFrameResponse.has_output || last.has_output) = true := by
    simpa [List.any_append] using hout
  have hsome : (encode_output env out (0 + pre.length) last
      (encode_steps env s3.handle param out 0 pre
        (encode_init frame1)).1).1.output_buffer.isSome = true := by
    rw [b2, a2]
    simpa [encode_init] using hany
  obtain ⟨b, hb⟩ := Option.isSome_iff_exists.mp hsome
  rw [hb] at henc hinv2 hsrc
  refine ⟨b, ev4 ++ ((encode_steps env s3.handle param out 0 pre (encode_init frame1)).2 ++
    ([.VPU_EncEncodeFrame s3.handle param last.ret] ++
      (encode_output env out (0 + pre.length) last
        (encode_steps env s3.handle param out 0 pre (encode_init frame1)).1).2)),
    ?_, ?_, ?_, ?_, ?_⟩
  · rw [handle_frame_eq_setup, hsetup]
    simp only [henc, hinv2, List.append_assoc]
  · rcases hsrc with h | h
    · rcases hsrc2 with h2 | ⟨j, h2⟩
      · rw [h2] at h
        cases h
      · exact ⟨j, (h.trans h2).symm⟩
    · exact ⟨_, h.symm⟩
  · simp only [List.countP_append]
    rw [m3, a1, b1, a2]
    simp only [encode_init, Option.isSome_none, Bool.false_or]
    rcases Bool.eq_false_or_eq_true (pre.any EncodeFrameResponse.has_output) with h3 | h3
    · simp [h3, Event.is_allocate_output, List.countP_cons]
    · rw [h3] at hany
      simp only [Bool.false_or] at hany
      simp [h3, hany, Event.is_allocate_output, List.countP_cons]
  · simp only [finished_frames_append, m4, p4, o4]
    rfl
  · simp only [set_sizes_append, m5, p5, o5]
    rfl

/-- The first frame of a formatted session, with a sequence header and then "input
used" without a finished frame: the allocated buffer 11 is released and the frame is
finished once, without output buffer. -/
theorem handle_frame_unfinished_dropped_witness :
    ∃ x : GstImxVpuBaseEnc × VpuEncEncParam × GstImxPhysMemory × GstVideoCodecFrame ×
        List Event,
      handle_frame_setup handle_frame_env_unfinished frame_plain session_formatted =
        some (.ok x) ∧
      ∃ b evp,
        gst_imx_vpu_base_enc_handle_frame handle_frame_env_unfinished frame_plain
          session_formatted =
          some (.GST_FLOW_OK, x.1, { x.2.2.2.1 with output_buffer := none },
            evp ++ [.gst_buffer_unref_output b,
              .gst_video_encoder_finish_frame { x.2.2.2.1 with output_buffer := none }]) ∧
        (∃ j, handle_frame_env_unfinished.gst_video_encoder_allocate_output_buffer j =
          some b) ∧
        evp.countP Event.is_allocate_output = 1 ∧
        finished_frames evp = [] ∧ set_sizes evp = [] :=
  ⟨_, rfl,
    handle_frame_unfinished_dropped handle_frame_env_unfinished frame_plain _
      session_formatted _ _ _ _
      [{ ret := .VPU_ENC_RET_SUCCESS
         eOutRetCode :=
           { VPU_ENC_INPUT_USED := false, VPU_ENC_OUTPUT_DIS := false,
             VPU_ENC_OUTPUT_SEQHEADER := true }
         nOutOutputSize := 30 }] []
      { ret := .VPU_ENC_RET_SUCCESS
        eOutRetCode :=
          { VPU_ENC_INPUT_USED := true, VPU_ENC_OUTPUT_DIS := false,
            VPU_ENC_OUTPUT_SEQHEADER := false }
        nOutOutputSize := 0 }
      rfl rfl (fun _ => rfl) (by decide) ⟨rfl, rfl, rfl⟩ (by decide)⟩

/-- The main encoding block for responses whose first one that does not let the loop
go on is at index `pre.length`, when output buffers can be allocated: it returns, and
has made one encode call per response up to that one. -/
theorem handle_frame_encode_at (env : HandleFrameEnv) (s : GstImxVpuBaseEnc)
    (param : VpuEncEncParam) (out : GstImxPhysMemory) (frame : GstVideoCodecFrame)
    (pre post : List EncodeFrameResponse) (x : EncodeFrameResponse)
    (hresp : env.VPU_EncEncodeFrame = pre ++ x :: post)
    (hpre : ∀ r ∈ pre, r.goes_on = true) (hx : x.goes_on = false)
    (halloc : ∀ i, (env.gst_video_encoder_allocate_output_buffer i).isSome = true) :
    ∃ r f ev, handle_frame_encode env s param out frame = some (r, f, ev) ∧
      ev.countP Event.is_encode_frame = pre.length + 1 := by
  obtain ⟨p1, p2, p3, p4, p5⟩ :=
    encode_steps_events env s.handle param out pre 0 (encode_init frame)
  obtain ⟨o1, o2, o3, o4, o5⟩ := encode_output_events env out (0 + pre.length) x
    (encode_steps env s.handle param out 0 pre (encode_init frame)).1
  obtain ⟨b1, b2⟩ := encode_output_alloc env out (0 + pre.length) x
    (encode_steps env s.handle param out 0 pre (encode_init frame)).1 halloc
  by_cases hret : x.ret = .VPU_ENC_RET_SUCCESS
  · rcases Bool.eq_false_or_eq_true x.eOutRetCode.VPU_ENC_OUTPUT_DIS with hdis | hdis
    · have hout : x.has_output = true := by
        simp only [EncodeFrameResponse.has_output, hdis, Bool.true_or]
      rw [hout, Bool.or_true] at b2
      obtain ⟨b, hb⟩ := Option.isSome_iff_exists.mp b2
      have henc := handle_frame_encode_dis env s param out frame pre post x hresp hpre hret hdis
      rw [hb] at henc
      refine ⟨_, _, _, henc, ?_⟩
      simp only [List.countP_append, p2, o2]
      simp [Event.is_encode_frame, List.countP_cons]
    · have hused : x.eOutRetCode.VPU_ENC_INPUT_USED = true := by
        simp only [EncodeFrameResponse.goes_on, hret, hdis, decide_True, Bool.not_false,
          Bool.and_self, Bool.true_and, Bool.not_eq_false'] at hx
        exact hx
      have henc := handle_frame_encode_used env s param out frame pre post x hresp hpre hret
        hdis hused
      cases hb : (encode_output env out (0 + pre.length) x
          (encode_steps env s.handle param out 0 pre (encode_init frame)).1).1.output_buffer with
      | none =>
        rw [hb] at henc
        refine ⟨_, _, _, henc, ?_⟩
        simp only [List.countP_append, p2, o2]
        simp [Event.is_encode_frame, List.countP_cons]
      | some b =>
        rw [hb] at henc
        refine ⟨_, _, _, henc, ?_⟩
        simp only [List.countP_append, p2, o2]
        simp [Event.is_encode_frame, List.countP_cons]
  · refine ⟨_, _, _,
      handle_frame_encode_error env s param out frame pre post x hresp hpre hret, ?_⟩
    simp only [List.countP_append, p2]
    simp [Event.is_encode_frame, List.countP_cons]

/-- C25: when `handle_frame` reaches its encode loop, output buffers can be allocated,
and the hardware responses contain one that is an error or carries
`VPU_ENC_OUTPUT_DIS` or `VPU_ENC_INPUT_USED`, the first such being at index
`pre.length`, then `handle_frame` returns with exactly `pre.length + 1`
`VPU_EncEncodeFrame` calls made; and every iteration of the loop up to that index
starts with `frame_finished` being `FALSE`, so that the "already finished" branch is
not taken. -/
theorem encode_loop_terminates (env : HandleFrameEnv) (frame frame1 : GstVideoCodecFrame)
    (s s3 : GstImxVpuBaseEnc) (param : VpuEncEncParam) (out : GstImxPhysMemory)
    (ev4 : List Event) (pre post : List EncodeFrameResponse) (x : EncodeFrameResponse)
    (hsetup : handle_frame_setup env frame s = some (.ok (s3, param, out, frame1, ev4)))
    (hresp : env.VPU_EncEncodeFrame = pre ++ x :: post)
    (hpre : ∀ r ∈ pre, r.ret = .VPU_ENC_RET_SUCCESS ∧
      r.eOutRetCode.VPU_ENC_OUTPUT_DIS = false ∧ r.eOutRetCode.VPU_ENC_INPUT_USED = false)
    (hx : x.ret ≠ .VPU_ENC_RET_SUCCESS ∨ x.eOutRetCode.VPU_ENC_OUTPUT_DIS = true ∨
      x.eOutRetCode.VPU_ENC_INPUT_USED = true)
    (halloc : ∀ i, (env.gst_video_encoder_allocate_output_buffer i).isSome = true) :
    (∃ r f ev, gst_imx_vpu_base_enc_handle_frame env frame s = some (r, s3, f, ev) ∧
      ev.countP Event.is_encode_frame = pre.length + 1) ∧
    (∀ p1 p2, pre = p1 ++ p2 →
      ∃ st1 ev1, st1.frame_finished = false ∧
        encode_loop env s3.handle param out 0 env.VPU_EncEncodeFrame (encode_init frame1) =
          match encode_loop env s3.handle param out (0 + p1.length) (p2 ++ x :: post) st1 with
          | none => none
          | some (b, st2, ev) => some (b, st2, ev1 ++ ev)) := by
  have hgo : ∀ r ∈ pre, r.goes_on = true := by
    intro r hr
    obtain ⟨h1, h2, h3⟩ := hpre r hr
    simp only [EncodeFrameResponse.goes_on, h1, h2, h3, decide_True, Bool.not_false,
      Bool.and_self]
  have hxg : x.goes_on = false := by
    simp only [EncodeFrameResponse.goes_on]
    rcases hx with h | h | h
    · simp [h]
    · simp [h]
    · simp [h]
  obtain ⟨m1, _⟩ :=
    counts_of_not_main ev4 (setup_ok_not_main env frame frame1 s s3 param out ev4 hsetup)
  constructor
  · obtain ⟨r, f, ev, henc, hcount⟩ :=
      handle_frame_encode_at env s3 param out frame1 pre post x hresp hgo hxg halloc
    refine ⟨r, f, ev4 ++ ev, ?_, ?_⟩
    · rw [handle_frame_eq_setup, hsetup]
      simp only [henc]
    · rw [List.countP_append, m1, hcount, Nat.zero_add]
  · intro p1 p2 hsplit
    refine ⟨(encode_steps env s3.handle param out 0 p1 (encode_init frame1)).1,
      (encode_steps env s3.handle param out 0 p1 (encode_init frame1)).2, ?_, ?_⟩
    · rw [encode_steps_frame_finished]
      rfl
    · rw [hresp, hsplit, List.append_assoc]
      exact encode_loop_steps env s3.handle param out p1 (p2 ++ x :: post) 0
        (encode_init frame1)
        (fun r hr => hgo r (by rw [hsplit]; exact List.mem_append_left _ hr)) rfl

/-- The first frame of a formatted session, with a sequence header and then a failing
encode call: the first response that ends the loop is at index 1, and there are two
encode calls. -/
theorem encode_loop_terminates_witness :
    ∃ y : GstImxVpuBaseEnc × VpuEncEncParam × GstImxPhysMemory × GstVideoCodecFrame ×
        List Event,
      handle_frame_setup handle_frame_env_encode_fails frame_plain session_formatted =
        some (.ok y) ∧
      (∃ r f ev,
        gst_imx_vpu_base_enc_handle_frame handle_frame_env_encode_fails frame_plain
          session_formatted = some (r, y.1, f, ev) ∧
        ev.countP Event.is_encode_frame = 1 + 1) ∧
      (∀ p1 p2,
        [({ ret := .VPU_ENC_RET_SUCCESS
            eOutRetCode :=
              { VPU_ENC_INPUT_USED := false, VPU_ENC_OUTPUT_DIS := false,
                VPU_ENC_OUTPUT_SEQHEADER := true }
            nOutOutputSize := 30 } : EncodeFrameResponse)] = p1 ++ p2 →
        ∃ st1 ev1, st1.frame_finished = false ∧
          encode_loop handle_frame_env_encode_fails y.1.handle y.2.1 y.2.2.1 0
              handle_frame_env_encode_fails.VPU_EncEncodeFrame (encode_init y.2.2.2.1) =
            match encode_loop handle_frame_env_encode_fails y.1.handle y.2.1 y.2.2.1
                (0 + p1.length)
                (p2 ++ { ret := .VPU_ENC_RET_FAILURE 1
                         eOutRetCode :=
                           { VPU_ENC_INPUT_USED := false, VPU_ENC_OUTPUT_DIS := false,
                             VPU_ENC_OUTPUT_SEQHEADER := false }
                         nOutOutputSize := 0 } :: []) st1 with
            | none => none
            | some (b, st2, ev) => some (b, st2, ev1 ++ ev)) :=
  ⟨_, rfl,
    encode_loop_terminates handle_frame_env_encode_fails frame_plain _
      session_formatted _ _ _ _
      [{ ret := .VPU_ENC_RET_SUCCESS
         eOutRetCode :=
           { VPU_ENC_INPUT_USED := false, VPU_ENC_OUTPUT_DIS := false,
             VPU_ENC_OUTPUT_SEQHEADER := true }
         nOutOutputSize := 30 }] []
      { ret := .VPU_ENC_RET_FAILURE 1
        eOutRetCode :=
          { VPU_ENC_INPUT_USED := false, VPU_ENC_OUTPUT_DIS := false,
            VPU_ENC_OUTPUT_SEQHEADER := false }
        nOutOutputSize := 0 }
      rfl rfl (by decide) (by decide) (fun _ => rfl)⟩

/-! ## Alignment offsets and the frame-rate word -/

/-- The address `ALIGN_VAL_TO` computes when the addition does not leave the address
space: the raw address plus `a - 1`, rounded down to a multiple of `a`. -/
theorem ALIGN_VAL_TO_value (w raw : Nat) (a : Int) (ha : 0 < a) (haw : a < 2 ^ w)
    (hsp : (raw : Int) + a ≤ 2 ^ w) :
    ALIGN_VAL_TO w raw a = some (((raw : Int) + a - 1) / a * a).toNat ∧
    0 ≤ ((raw : Int) + a - 1) / a * a := by
  have hd : a % (2 : Int) ^ w = a := Int.emod_eq_of_lt (le_of_lt ha) haw
  have hx0 : (0 : Int) ≤ (raw : Int) + a - 1 := by omega
  have hx1 : (raw : Int) + a - 1 < 2 ^ w := by omega
  have hx : ((raw : Int) + a - 1) % (2 : Int) ^ w = (raw : Int) + a - 1 :=
    Int.emod_eq_of_lt hx0 hx1
  have hq0 : 0 ≤ ((raw : Int) + a - 1) / a * a :=
    Int.mul_nonneg (Int.ediv_nonneg hx0 (le_of_lt ha)) (le_of_lt ha)
  have hqle : ((raw : Int) + a - 1) / a * a ≤ (raw : Int) + a - 1 :=
    Int.ediv_mul_le _ (ne_of_gt ha)
  have hq : (((raw : Int) + a - 1) / a * a) % (2 : Int) ^ w = ((raw : Int) + a - 1) / a * a :=
    Int.emod_eq_of_lt hq0 (by omega)
  refine ⟨?_, hq0⟩
  unfold ALIGN_VAL_TO
  simp only [hd, hx, hq]
  rw [if_neg (ne_of_gt ha)]

/-- C23 (amended): for every raw virtual address `v`, raw physical address `p` and
alignment `a > 0` such that `v` and `p` leave the same remainder modulo `a` (and
`v + a`, `p + a` lie within the address space), `ALIGN_VAL_TO` moves both by the same
number of bytes: `ALIGN_VAL_TO(v, a) - v = ALIGN_VAL_TO(p, a) - p`. -/
theorem ALIGN_VAL_TO_same_offset (w v p : Nat) (a : Int) (ha : 0 < a) (haw : a < 2 ^ w)
    (hv : (v : Int) + a ≤ 2 ^ w) (hp : (p : Int) + a ≤ 2 ^ w)
    (hcong : (v : Int) % a = (p : Int) % a) :
    ∃ av ap : Nat, ALIGN_VAL_TO w v a = some av ∧ ALIGN_VAL_TO w p a = some ap ∧
      (av : Int) - v = (ap : Int) - p := by
  obtain ⟨h1, h2⟩ := ALIGN_VAL_TO_value w v a ha haw hv
  obtain ⟨h3, h4⟩ := ALIGN_VAL_TO_value w p a ha haw hp
  refine ⟨_, _, h1, h3, ?_⟩
  rw [Int.toNat_of_nonneg h2, Int.toNat_of_nonneg h4]
  have e1 := Int.emod_add_ediv ((v : Int) + a - 1) a
  have e2 := Int.emod_add_ediv ((p : Int) + a - 1) a
  have e3 : ((v : Int) + a - 1) % a = ((p : Int) + a - 1) % a := by
    have hv1 : (v : Int) + a - 1 = (v : Int) + (a - 1) := by ring
    have hp1 : (p : Int) + a - 1 = (p : Int) + (a - 1) := by ring
    rw [hv1, hp1, Int.add_emod, hcong, ← Int.add_emod]
  have c1 : ((v : Int) + a - 1) / a * a = a * (((v : Int) + a - 1) / a) := by ring
  have c2 : ((p : Int) + a - 1) / a * a = a * (((p : Int) + a - 1) / a) := by ring
  rw [c1, c2]
  linarith

/-- Two raw addresses 4100 and 12292, both 4 bytes past a multiple of 4096, aligned to
4096 in 32-bit address arithmetic: both are moved by the same 4092 bytes. -/
theorem ALIGN_VAL_TO_same_offset_witness :
    ∃ av ap : Nat, ALIGN_VAL_TO 32 4100 4096 = some av ∧ ALIGN_VAL_TO 32 12292 4096 = some ap ∧
      (av : Int) - (4100 : Nat) = (ap : Int) - (12292 : Nat) :=
  ALIGN_VAL_TO_same_offset 32 4100 12292 4096 (by decide) (by decide) (by decide) (by decide)
    (by decide)

/-- C23 (as stated): the physical sub-block of `session_two_blocks` (alignment 4096)
allocated in `env32`, whose allocator maps the block at 5003 with physical address
70001: the stored virtual address is 8192, 3189 bytes into the allocation, and the
stored physical address is 73728, 3727 bytes into it. -/
theorem ALIGN_VAL_TO_same_offset_counterexample :
    env32.gst_allocator_alloc 1 5096 =
      some { mapped_virt_addr := 5003, phys_addr := 70001, size := 5096 } ∧
    (gst_imx_vpu_base_enc_alloc_enc_mem_blocks env32 session_two_blocks).map
        (fun r => (r.1, r.2.1.mem_info.MemSubBlock[1]?)) =
      some (true, some { block_phys_1000 with pVirtAddr := 8192, pPhyAddr := 73728 }) ∧
    ALIGN_VAL_TO 32 5003 4096 = some 8192 ∧ ALIGN_VAL_TO 32 70001 4096 = some 73728 ∧
    (8192 : Int) - 5003 ≠ 73728 - 70001 :=
  ⟨by rfl, by rfl, by rfl, by rfl, by decide⟩

namespace FbBufferPool

/-- C17: `gst_imx_vpu_fb_buffer_pool_release_buffer`, on a pool with a framebuffers
structure and (when decoder-registered) a buffer with VPU metadata, returns, and among
its calls there is a `VPU_DecOutFrameDisplayed` (at most one) if and only if the
framebuffers structure is decoder-registered, the decoder is open, the VPU metadata
carries a framebuffer and has `not_displayed_yet` set, and the buffer has
physical-memory metadata with a non-zero physical address. -/
theorem release_buffer_notifies (ret : VpuDecRetCode) (pool : GstImxVpuFbBufferPool)
    (buffer : GstBuffer) (fbs : GstImxVpuFramebuffers)
    (hfbs : pool.framebuffers = some fbs)
    (hvm : fbs.registration_state = .GST_IMX_VPU_FRAMEBUFFERS_DECODER_REGISTERED →
      buffer.vpu_meta ≠ none) :
    ∃ pool1 buffer1 ev,
      gst_imx_vpu_fb_buffer_pool_release_buffer ret pool buffer =
        some (pool1, buffer1, ev) ∧
      ev.countP PoolEvent.is_frame_displayed ≤ 1 ∧
      (ev.any PoolEvent.is_frame_displayed = true ↔
        (fbs.registration_state = .GST_IMX_VPU_FRAMEBUFFERS_DECODER_REGISTERED ∧
          fbs.decoder_open = true ∧
          ∃ vm fb pm, buffer.vpu_meta = some vm ∧ vm.framebuffer = some fb ∧
            vm.not_displayed_yet = true ∧ buffer.phys_mem_meta = some pm ∧
            pm.phys_addr ≠ 0)) := by
  obtain ⟨vmeta, vpu, pmeta, mem⟩ := buffer
  unfold gst_imx_vpu_fb_buffer_pool_release_buffer
  simp only [hfbs]
  by_cases hreg : fbs.registration_state = .GST_IMX_VPU_FRAMEBUFFERS_DECODER_REGISTERED
  · simp only [hreg, if_true]
    cases vpu with
    | none => exact absurd rfl (hvm hreg)
    | some vm =>
      obtain ⟨fbo, nd⟩ := vm
      refine ⟨_, _, _, rfl, ?_, ?_⟩
      · unfold release_buffer_clear
        cases fbo <;> cases pmeta <;> cases nd <;> cases fbs.decoder_open <;>
          first
          | (simp [PoolEvent.is_frame_displayed, List.countP_cons]; done)
          | (simp [PoolEvent.is_frame_displayed, List.countP_cons]
             split_ifs <;> simp [PoolEvent.is_frame_displayed, List.countP_cons])
      · unfold release_buffer_clear
        cases fbo <;> cases pmeta <;> cases nd <;> cases hopen : fbs.decoder_open <;>
          first
          | (simp [PoolEvent.is_frame_displayed]; done)
          | (simp [PoolEvent.is_frame_displayed]
             split_ifs <;> simp_all [PoolEvent.is_frame_displayed])
  · simp only [hreg, if_false]
    refine ⟨_, _, _, rfl, ?_, ?_⟩
    · simp [PoolEvent.is_frame_displayed, List.countP_cons]
    · simp [PoolEvent.is_frame_displayed]

/-- The release of a buffer that has not been displayed yet, from the pool of an open
decoder: the framebuffer is marked as displayed, and the count of available
framebuffers rises from 2 to 3. -/
theorem release_buffer_notifies_witness :
    ∃ pool1 buffer1 ev,
      gst_imx_vpu_fb_buffer_pool_release_buffer .VPU_DEC_RET_SUCCESS pool_decoding
        buffer_decoded = some (pool1, buffer1, ev) ∧
      ev.countP PoolEvent.is_frame_displayed ≤ 1 ∧
      (ev.any PoolEvent.is_frame_displayed = true ↔
        (framebuffers_decoding.registration_state =
            .GST_IMX_VPU_FRAMEBUFFERS_DECODER_REGISTERED ∧
          framebuffers_decoding.decoder_open = true ∧
          ∃ vm fb pm, buffer_decoded.vpu_meta = some vm ∧ vm.framebuffer = some fb ∧
            vm.not_displayed_yet = true ∧ buffer_decoded.phys_mem_meta = some pm ∧
            pm.phys_addr ≠ 0)) :=
  release_buffer_notifies .VPU_DEC_RET_SUCCESS pool_decoding buffer_decoded
    framebuffers_decoding rfl (fun _ => by decide)

/-- C18 (amended): when `gst_imx_vpu_fb_buffer_pool_release_buffer` notifies the
hardware (decoder-registered, decoder open, buffer with a framebuffer that is not
displayed yet and a non-zero physical address) and the notification succeeds, the
buffer's `not_displayed_yet` is `FALSE` afterwards; when
`decremented_availbuf_counter` was positive, `num_available_framebuffers` is one
more, and `decremented_availbuf_counter` and `num_framebuffers_in_buffers` are one
less than before (as C `int`s); when it was not positive, the framebuffers structure
is unchanged. -/
theorem release_buffer_success (pool : GstImxVpuFbBufferPool) (buffer : GstBuffer)
    (fbs : GstImxVpuFramebuffers) (fb : VpuFrameBuffer) (pm : GstImxPhysMemMeta)
    (hfbs : pool.framebuffers = some fbs)
    (hreg : fbs.registration_state = .GST_IMX_VPU_FRAMEBUFFERS_DECODER_REGISTERED ∧
      fbs.decoder_open = true)
    (hvm : buffer.vpu_meta = some { framebuffer := some fb, not_displayed_yet := true })
    (hpm : buffer.phys_mem_meta = some pm ∧ pm.phys_addr ≠ 0) :
    ∃ fbs1 buffer1 ev,
      gst_imx_vpu_fb_buffer_pool_release_buffer .VPU_DEC_RET_SUCCESS pool buffer =
        some ({ framebuffers := some fbs1 }, buffer1,
          .VPU_DecOutFrameDisplayed fbs.handle fb .VPU_DEC_RET_SUCCESS :: ev) ∧
      buffer1.vpu_meta = some { framebuffer := some fb, not_displayed_yet := false } ∧
      (0 < fbs.decremented_availbuf_counter →
        fbs1 = { fbs with
          num_available_framebuffers := wrapInt32 (fbs.num_available_framebuffers + 1)
          decremented_availbuf_counter := wrapInt32 (fbs.decremented_availbuf_counter - 1)
          num_framebuffers_in_buffers :=
            wrapInt32 (fbs.num_framebuffers_in_buffers - 1) }) ∧
      (fbs.decremented_availbuf_counter ≤ 0 → fbs1 = fbs) := by
  obtain ⟨vmeta, vpu, pmeta, mem⟩ := buffer
  obtain ⟨pfbs⟩ := pool
  simp only at hfbs hvm hpm
  subst hfbs hvm
  obtain ⟨hp1, hp2⟩ := hpm
  subst hp1
  unfold gst_imx_vpu_fb_buffer_pool_release_buffer release_buffer_clear
  simp only [hreg.1, hreg.2, hp2, if_true, ne_eq, not_false_eq_true, not_true_eq_false,
    if_false, Bool.and_self]
  by_cases hd : fbs.decremented_availbuf_counter > 0
  · simp only [hd, if_true]
    exact ⟨_, _, _, rfl, rfl, fun _ => rfl, fun h => absurd h (by omega)⟩
  · simp only [hd, if_false]
    exact ⟨_, _, _, rfl, rfl, fun h => h.elim, fun _ => rfl⟩

/-- The release of `buffer_decoded` from `pool_decoding`, with one framebuffer taken off
the count: available 2 to 3, taken off 1 to 0, in buffers 3 to 2, flag cleared. -/
theorem release_buffer_success_witness :
    ∃ fbs1 buffer1 ev,
      gst_imx_vpu_fb_buffer_pool_release_buffer .VPU_DEC_RET_SUCCESS pool_decoding
        buffer_decoded =
        some ({ framebuffers := some fbs1 }, buffer1,
          .VPU_DecOutFrameDisplayed framebuffers_decoding.handle framebuffer_4096
            .VPU_DEC_RET_SUCCESS :: ev) ∧
      buffer1.vpu_meta =
        some { framebuffer := some framebuffer_4096, not_displayed_yet := false } ∧
      (0 < framebuffers_decoding.decremented_availbuf_counter →
        fbs1 = { framebuffers_decoding with
          num_available_framebuffers :=
            wrapInt32 (framebuffers_decoding.num_available_framebuffers + 1)
          decremented_availbuf_counter :=
            wrapInt32 (framebuffers_decoding.decremented_availbuf_counter - 1)
          num_framebuffers_in_buffers :=
            wrapInt32 (framebuffers_decoding.num_framebuffers_in_buffers - 1) }) ∧
      (framebuffers_decoding.decremented_availbuf_counter ≤ 0 →
        fbs1 = framebuffers_decoding) :=
  release_buffer_success pool_decoding buffer_decoded framebuffers_decoding framebuffer_4096
    { phys_addr := 4096, x_padding := 2, y_padding := 2 } rfl ⟨rfl, rfl⟩ rfl
    ⟨rfl, by decide⟩

/-- C18 (as stated): with `decremented_availbuf_counter` at 0, a successful
notification clears the flag but leaves `num_available_framebuffers` at 2 and
`num_framebuffers_in_buffers` at 3. -/
theorem release_buffer_success_counterexample :
    ∃ fbs1 buffer1 ev,
      gst_imx_vpu_fb_buffer_pool_release_buffer .VPU_DEC_RET_SUCCESS pool_none_decremented
        buffer_decoded =
        some ({ framebuffers := some fbs1 }, buffer1,
          .VPU_DecOutFrameDisplayed 7 framebuffer_4096 .VPU_DEC_RET_SUCCESS :: ev) ∧
      buffer1.vpu_meta =
        some { framebuffer := some framebuffer_4096, not_displayed_yet := false } ∧
      pool_none_decremented.framebuffers.map
        (fun f => (f.num_available_framebuffers, f.num_framebuffers_in_buffers)) =
        some (2, 3) ∧
      fbs1.num_available_framebuffers = 2 ∧ fbs1.num_framebuffers_in_buffers = 3 :=
  ⟨_, _, _, rfl, rfl, rfl, rfl, rfl⟩

/-- C19: when a buffer with VPU metadata is released to a decoder-registered pool whose
decoder is closed, `gst_imx_vpu_fb_buffer_pool_release_buffer` leaves the pool with
its framebuffers structure as it was, leaves the buffer as it was except that it has
no memory left, and makes exactly three calls, none of them to the hardware:
`gst_buffer_remove_all_memory`, `g_cond_signal` and the parent class's
`release_buffer`. -/
theorem release_buffer_decoder_closed (ret : VpuDecRetCode) (pool : GstImxVpuFbBufferPool)
    (buffer : GstBuffer) (fbs : GstImxVpuFramebuffers) (vm : GstImxVpuBufferMeta)
    (hfbs : pool.framebuffers = some fbs)
    (hreg : fbs.registration_state = .GST_IMX_VPU_FRAMEBUFFERS_DECODER_REGISTERED)
    (hclosed : fbs.decoder_open = false)
    (hvm : buffer.vpu_meta = some vm) :
    gst_imx_vpu_fb_buffer_pool_release_buffer ret pool buffer =
      some (pool, { buffer with memory := [] },
        [.gst_buffer_remove_all_memory, .g_cond_signal,
         .release_buffer { buffer with memory := [] }]) := by
  obtain ⟨vmeta, vpu, pmeta, mem⟩ := buffer
  obtain ⟨pfbs⟩ := pool
  simp only at hfbs hvm
  subst hfbs hvm
  obtain ⟨fbo, nd⟩ := vm
  unfold gst_imx_vpu_fb_buffer_pool_release_buffer release_buffer_clear
  simp only [hreg, hclosed, if_true, Bool.and_false, Bool.false_eq_true, if_false]
  cases fbo <;> cases pmeta <;> simp

/-- The release of `buffer_decoded` after the decoder was closed. -/
theorem release_buffer_decoder_closed_witness :
    gst_imx_vpu_fb_buffer_pool_release_buffer .VPU_DEC_RET_SUCCESS pool_decoder_closed
        buffer_decoded =
      some (pool_decoder_closed, { buffer_decoded with memory := [] },
        [.gst_buffer_remove_all_memory, .g_cond_signal,
         .release_buffer { buffer_decoded with memory := [] }]) :=
  release_buffer_decoder_closed .VPU_DEC_RET_SUCCESS pool_decoder_closed buffer_decoded
    { framebuffers_decoding with decoder_open := false }
    { framebuffer := some framebuffer_4096, not_displayed_yet := true } rfl rfl rfl rfl

/-- C20: for a buffer that carries video, VPU and physical-memory metadata, and a count
of framebuffers in buffers that is an `int` below the largest,
`gst_imx_vpu_set_buffer_contents` returns `TRUE`; afterwards the VPU metadata holds
the framebuffer (its flag as before), the physical-memory metadata holds the
framebuffer's physical address with `x_padding = max(0, pic_width - width)` and
`y_padding = max(0, pic_height - height)`, `num_framebuffers_in_buffers` is one more
than before with the rest of the framebuffers structure as it was, and the buffer has
exactly one memory block, of `total_size` bytes, over the framebuffer's virtual
address. -/
theorem set_buffer_contents_attaches (buffer : GstBuffer)
    (framebuffers : GstImxVpuFramebuffers) (framebuffer : VpuFrameBuffer)
    (video_meta : GstVideoMeta) (vpu_meta : GstImxVpuBufferMeta)
    (phys_mem_meta : GstImxPhysMemMeta)
    (hvideo : buffer.video_meta = some video_meta)
    (hvpu : buffer.vpu_meta = some vpu_meta)
    (hphys : buffer.phys_mem_meta = some phys_mem_meta)
    (hcount : -2147483648 ≤ framebuffers.num_framebuffers_in_buffers ∧
      framebuffers.num_framebuffers_in_buffers < 2147483647) :
    ∃ buffer1 pm1 ev,
      gst_imx_vpu_set_buffer_contents buffer framebuffers framebuffer =
        (true, buffer1,
          { framebuffers with
            num_framebuffers_in_buffers := framebuffers.num_framebuffers_in_buffers + 1 },
          ev) ∧
      buffer1.video_meta = some video_meta ∧
      buffer1.vpu_meta = some { vpu_meta with framebuffer := some framebuffer } ∧
      buffer1.phys_mem_meta = some pm1 ∧
      pm1.phys_addr = framebuffer.pbufY ∧
      (pm1.x_padding : Int) = max 0 ((framebuffers.pic_width : Int) - video_meta.width) ∧
      (pm1.y_padding : Int) = max 0 ((framebuffers.pic_height : Int) - video_meta.height) ∧
      buffer1.memory =
        [{ no_share := true, data := framebuffer.pbufVirtY,
           maxsize := framebuffers.total_size, offset := 0,
           size := framebuffers.total_size }] := by
  obtain ⟨vmeta, vpu, pmeta, mem⟩ := buffer
  simp only at hvideo hvpu hphys
  subst hvideo hvpu hphys
  have hw : wrapInt32 (framebuffers.num_framebuffers_in_buffers + 1) =
      framebuffers.num_framebuffers_in_buffers + 1 :=
    wrapInt32_of_range _ (by omega) (by omega)
  unfold gst_imx_vpu_set_buffer_contents
  simp only [hw]
  refine ⟨_, _, _, rfl, rfl, rfl, rfl, rfl, ?_, ?_, rfl⟩
  · simp only
    split_ifs <;> omega
  · simp only
    split_ifs <;> omega

/-- A fresh 638x478 buffer gets `framebuffer_4096` of 640x480 framebuffers: paddings 2
and 2, four framebuffers in buffers instead of three, one block of 460800 bytes. -/
theorem set_buffer_contents_attaches_witness :
    ∃ buffer1 pm1 ev,
      gst_imx_vpu_set_buffer_contents buffer_fresh framebuffers_decoding framebuffer_4096 =
        (true, buffer1,
          { framebuffers_decoding with num_framebuffers_in_buffers := 3 + 1 }, ev) ∧
      buffer1.video_meta = some { width := 638, height := 478 } ∧
      buffer1.vpu_meta =
        some { framebuffer := some framebuffer_4096, not_displayed_yet := false } ∧
      buffer1.phys_mem_meta = some pm1 ∧
      pm1.phys_addr = 4096 ∧
      (pm1.x_padding : Int) = max 0 ((640 : Int) - (638 : Nat)) ∧
      (pm1.y_padding : Int) = max 0 ((480 : Int) - (478 : Nat)) ∧
      buffer1.memory =
        [{ no_share := true, data := 8192, maxsize := 460800, offset := 0,
           size := 460800 }] :=
  set_buffer_contents_attaches buffer_fresh framebuffers_decoding framebuffer_4096
    { width := 638, height := 478 } { framebuffer := none, not_displayed_yet := false }
    { phys_addr := 0, x_padding := 0, y_padding := 0 } rfl rfl rfl (by decide)

/-- C26: `gst_imx_vpu_fb_buffer_pool_release_buffer`, on a pool with a framebuffers
structure whose counters are C `int`s away from the ends of the `int` range and (when
decoder-registered) a buffer with VPU metadata, returns and leaves
`num_available_framebuffers + num_framebuffers_in_buffers` and
`num_available_framebuffers + decremented_availbuf_counter` as they were; a
non-negative `decremented_availbuf_counter` stays non-negative; and when
`VPU_DecOutFrameDisplayed` does not return success, the framebuffers structure and the
buffer's VPU metadata, with its `not_displayed_yet` flag, are exactly as before. -/
theorem release_buffer_sums (ret : VpuDecRetCode) (pool : GstImxVpuFbBufferPool)
    (buffer : GstBuffer) (fbs : GstImxVpuFramebuffers)
    (hfbs : pool.framebuffers = some fbs)
    (hvm : fbs.registration_state = .GST_IMX_VPU_FRAMEBUFFERS_DECODER_REGISTERED →
      buffer.vpu_meta ≠ none)
    (hrange : -2147483648 ≤ fbs.num_available_framebuffers ∧
      fbs.num_available_framebuffers < 2147483647 ∧
      fbs.decremented_availbuf_counter < 2147483648 ∧
      -2147483648 < fbs.num_framebuffers_in_buffers ∧
      fbs.num_framebuffers_in_buffers < 2147483648) :
    ∃ fbs1 buffer1 ev,
      gst_imx_vpu_fb_buffer_pool_release_buffer ret pool buffer =
        some ({ framebuffers := some fbs1 }, buffer1, ev) ∧
      fbs1.num_available_framebuffers + fbs1.num_framebuffers_in_buffers =
        fbs.num_available_framebuffers + fbs.num_framebuffers_in_buffers ∧
      fbs1.num_available_framebuffers + fbs1.decremented_availbuf_counter =
        fbs.num_available_framebuffers + fbs.decremented_availbuf_counter ∧
      (0 ≤ fbs.decremented_availbuf_counter → 0 ≤ fbs1.decremented_availbuf_counter) ∧
      (ret ≠ .VPU_DEC_RET_SUCCESS → fbs1 = fbs ∧ buffer1.vpu_meta = buffer.vpu_meta) := by
  obtain ⟨vmeta, vpu, pmeta, mem⟩ := buffer
  obtain ⟨pfbs⟩ := pool
  simp only at hfbs
  subst hfbs
  have same : ∀ (b1 : GstBuffer) (ev : List PoolEvent),
      b1.vpu_meta = vpu →
      ∃ fbs1 buffer1 ev1,
        some (({ framebuffers := some fbs } : GstImxVpuFbBufferPool), b1, ev) =
          some ({ framebuffers := some fbs1 }, buffer1, ev1) ∧
        fbs1.num_available_framebuffers + fbs1.num_framebuffers_in_buffers =
          fbs.num_available_framebuffers + fbs.num_framebuffers_in_buffers ∧
        fbs1.num_available_framebuffers + fbs1.decremented_availbuf_counter =
          fbs.num_available_framebuffers + fbs.decremented_availbuf_counter ∧
        (0 ≤ fbs.decremented_availbuf_counter → 0 ≤ fbs1.decremented_availbuf_counter) ∧
        (ret ≠ .VPU_DEC_RET_SUCCESS → fbs1 = fbs ∧ buffer1.vpu_meta = vpu) :=
    fun b1 ev h => ⟨fbs, b1, ev, rfl, rfl, rfl, fun h0 => h0, fun _ => ⟨rfl, h⟩⟩
  unfold gst_imx_vpu_fb_buffer_pool_release_buffer
  by_cases hreg : fbs.registration_state = .GST_IMX_VPU_FRAMEBUFFERS_DECODER_REGISTERED
  · simp only [hreg, if_true]
    cases vpu with
    | none => exact absurd rfl (hvm hreg)
    | some vm =>
      obtain ⟨fbo, nd⟩ := vm
      simp only
      unfold release_buffer_clear
      cases fbo with
      | none => exact same _ _ rfl
      | some fb =>
        cases pmeta with
        | none => exact same _ _ rfl
        | some pm =>
          simp only
          by_cases haddr : pm.phys_addr ≠ 0
          · rw [if_pos haddr]
            by_cases hnd : (nd && fbs.decoder_open) = true
            · rw [if_pos hnd]
              by_cases hret : ret ≠ .VPU_DEC_RET_SUCCESS
              · rw [if_pos hret]
                exact same _ _ rfl
              · rw [if_neg hret]
                by_cases hdec : fbs.decremented_availbuf_counter > 0
                · rw [if_pos hdec]
                  have w1 := wrapInt32_of_range (fbs.num_available_framebuffers + 1)
                    (by omega) (by omega)
                  have w2 := wrapInt32_of_range (fbs.decremented_availbuf_counter - 1)
                    (by omega) (by omega)
                  have w3 := wrapInt32_of_range (fbs.num_framebuffers_in_buffers - 1)
                    (by omega) (by omega)
                  refine ⟨_, _, _, rfl, ?_, ?_, ?_, fun h => absurd h hret⟩
                  · simp only [w1, w3]
                    omega
                  · simp only [w1, w2]
                    omega
                  · intro _
                    simp only [w2]
                    omega
                · rw [if_neg hdec]
                  exact ⟨fbs, _, _, rfl, rfl, rfl, fun h0 => h0, fun h => absurd h hret⟩
            · rw [if_neg hnd]
              exact same _ _ rfl
          · rw [if_neg haddr]
            exact same _ _ rfl
  · simp only [hreg, if_false]
    exact same _ _ rfl

/-- The release of `buffer_decoded` from `pool_decoding` with a failing notification:
the counters 2, 1, 3 and the flag stay. -/
theorem release_buffer_sums_witness :
    ∃ fbs1 buffer1 ev,
      gst_imx_vpu_fb_buffer_pool_release_buffer (.VPU_DEC_RET_FAILURE 1) pool_decoding
        buffer_decoded = some ({ framebuffers := some fbs1 }, buffer1, ev) ∧
      fbs1.num_available_framebuffers + fbs1.num_framebuffers_in_buffers =
        framebuffers_decoding.num_available_framebuffers +
          framebuffers_decoding.num_framebuffers_in_buffers ∧
      fbs1.num_available_framebuffers + fbs1.decremented_availbuf_counter =
        framebuffers_decoding.num_available_framebuffers +
          framebuffers_decoding.decremented_availbuf_counter ∧
      (0 ≤ framebuffers_decoding.decremented_availbuf_counter →
        0 ≤ fbs1.decremented_availbuf_counter) ∧
      (VpuDecRetCode.VPU_DEC_RET_FAILURE 1 ≠ .VPU_DEC_RET_SUCCESS →
        fbs1 = framebuffers_decoding ∧ buffer1.vpu_meta = buffer_decoded.vpu_meta) :=
  release_buffer_sums (.VPU_DEC_RET_FAILURE 1) pool_decoding buffer_decoded
    framebuffers_decoding rfl (fun _ => by decide) (by decide)

/-- C27: `gst_imx_vpu_set_buffer_contents` returns `FALSE` exactly when the buffer lacks
video metadata, VPU metadata or physical-memory metadata, and then the buffer (with
its framebuffer, physical address, paddings and memory) and the framebuffers
structure (with `num_framebuffers_in_buffers`) are as before and no call is made. -/
theorem set_buffer_contents_failure (buffer : GstBuffer)
    (framebuffers : GstImxVpuFramebuffers) (framebuffer : VpuFrameBuffer) :
    ((gst_imx_vpu_set_buffer_contents buffer framebuffers framebuffer).1 = false ↔
      (buffer.video_meta = none ∨ buffer.vpu_meta = none ∨ buffer.phys_mem_meta = none)) ∧
    ((gst_imx_vpu_set_buffer_contents buffer framebuffers framebuffer).1 = false →
      gst_imx_vpu_set_buffer_contents buffer framebuffers framebuffer =
        (false, buffer, framebuffers, [])) := by
  obtain ⟨vmeta, vpu, pmeta, mem⟩ := buffer
  unfold gst_imx_vpu_set_buffer_contents
  cases vmeta <;> cases vpu <;> cases pmeta <;> simp

end FbBufferPool

end GstImxVpu
